import Mathlib

/-!
# scraper-service: job intake, dispatch loop and per-job pipeline

A shallow embedding of `src/core` (queueManager.js, processor.js, scraper.js), of the HTTP
clients of `src/services`, and of `src/api` (the status controller, the request validators,
the validation middlewares and the error handler).

* Awaited calls run one after the other, so an `async` function is a function from the
  state before the call to an outcome and the state after it (`Eff`).
* The repository, the page fetcher and the two HTTP services are parameters
  (`Collaborators`): each is an arbitrary function of an arbitrary external world `σ`
  that either returns a value or throws an `Error`.
* Every call made to a collaborator is appended to `calls` together with the error it
  threw, if any, and every `logger.warn` / `logger.error` line is appended to `logs`.
  Both lists are ghost state: the code never reads them.  `logger.info` and
  `logger.debug` lines are not recorded.
-/

namespace ScraperService

/-! ## Data model -/

/-- The values of `SCRAPE_STATUS` (src/utils/constants.js), which are the values of the
`status` ENUM column of the `scraped_paths` table (src/db/models/ScrapedPath.js). -/
inductive Status
  | queued
  | scraping
  | scraped
  | failed
deriving DecidableEq, Repr

/-- The string constant behind each `SCRAPE_STATUS` key. -/
def Status.str : Status → String
  | .queued => "queued"
  | .scraping => "scraping"
  | .scraped => "scraped"
  | .failed => "failed"

/-- The constant `SCRAPE_STATUS.QUEUED`. -/
def SCRAPE_STATUS.QUEUED : Status := .queued

/-- The constant `SCRAPE_STATUS.SCRAPING`. -/
def SCRAPE_STATUS.SCRAPING : Status := .scraping

/-- The constant `SCRAPE_STATUS.SCAPED` (the key is spelled this way in the source). -/
def SCRAPE_STATUS.SCAPED : Status := .scraped

/-- The constant `SCRAPE_STATUS.FAILED`. -/
def SCRAPE_STATUS.FAILED : Status := .failed

/-- A row of `scraped_paths` (src/db/models/ScrapedPath.js); also the shape of a queue
entry, since the queue holds the records themselves. -/
structure ScrapedPath where
  id : String
  websiteId : String
  pathName : String
  baseUrl : String
  status : Status
deriving DecidableEq, Repr

/-- The argument of `ScrapedPathRepository.create`. -/
structure NewScrapedPath where
  websiteId : String
  pathName : String
  baseUrl : String
  status : Status
deriving DecidableEq, Repr

/-- A thrown JavaScript `Error`; only its `message` is ever read. -/
structure Error where
  message : String
deriving DecidableEq, Repr

/-- One element of `formDetails.inputs` (src/core/scraper.js). -/
structure FormInput where
  type : String
  name : String
  value : String
  placeholder : String
deriving DecidableEq, Repr

/-- One element of the `forms` array returned by `Scraper.scrapePage`. -/
structure FormDetails where
  action : String
  method : String
  inputs : List FormInput
deriving DecidableEq, Repr

/-- One element of the `buttons` array returned by `Scraper.scrapePage`. -/
structure ButtonDetails where
  text : String
  type : String
  href : String
deriving DecidableEq, Repr

/-- The object returned by `Scraper.scrapePage`. -/
structure ScrapedData where
  text : String
  forms : List FormDetails
  buttons : List ButtonDetails
deriving DecidableEq, Repr

/-- The body returned by `AiService.getSummary`; `none` is a missing or null field. -/
structure SummaryResponse where
  summary : Option String
deriving DecidableEq, Repr

/-- The body returned by `MainService.getPreviousAiSummary`. -/
structure PreviousSummaryResponse where
  previousSummary : Option String
deriving DecidableEq, Repr

/-- The body returned by `AiService.mergeSummaries`. -/
structure MergeResponse where
  mergedSummary : Option String
deriving DecidableEq, Repr

/-- One entry of `requestData.paths`. -/
structure PathObj where
  path : String
  needsScraping : Bool
deriving DecidableEq, Repr

/-- The argument of `QueueManager.addRequest`. -/
structure RequestData where
  websiteId : String
  paths : List PathObj
  baseWebsiteUrl : String
deriving DecidableEq, Repr

/-- One element of the array returned by `QueueManager.addRequest`. -/
structure PathResult where
  pathName : String
  status : String
  message : String
deriving DecidableEq, Repr

/-! ## Collaborators, call log and module state -/

/-- A call to a collaborator, with the arguments it was given. -/
inductive Call
  | findByUniqueIdentifiers (websiteId pathName baseUrl : String)
  | create (data : NewScrapedPath)
  | updateStatus (id : String) (newStatus : Status)
  | scrapePage (url : String)
  | getSummary (scrapedData : ScrapedData) (path : String) (websiteId : String)
  | getPreviousAiSummary (websiteId : String)
  | mergeSummaries (freshSummary previousSummary : Option String) (scrapedData : ScrapedData)
      (websiteId : String)
  | sendNewSummary (websiteId : String) (newSummary : Option String)
deriving DecidableEq, Repr

/-- A logged call: the call and the error it threw (`none` when it returned). -/
structure CallRecord where
  call : Call
  error : Option Error
deriving DecidableEq, Repr

/-- Levels of src/utils/logger.js that are recorded. -/
inductive LogLevel
  | warn
  | error
deriving DecidableEq, Repr

/-- One recorded logger line. -/
structure LogEntry where
  level : LogLevel
  message : String
deriving DecidableEq, Repr

/-- The mocked modules of the unit tests: `ScrapedPathRepository`, `Scraper`, `AiService`
and `MainService`.  Each operation is an arbitrary function of the external world. -/
structure Collaborators (σ : Type) where
  findByUniqueIdentifiers : String → String → String → σ → Except Error (Option ScrapedPath) × σ
  create : NewScrapedPath → σ → Except Error ScrapedPath × σ
  updateStatus : String → Status → σ → Except Error Nat × σ
  scrapePage : String → σ → Except Error ScrapedData × σ
  getSummary : ScrapedData → String → String → σ → Except Error SummaryResponse × σ
  getPreviousAiSummary : String → σ → Except Error PreviousSummaryResponse × σ
  mergeSummaries :
    Option String → Option String → ScrapedData → String → σ → Except Error MergeResponse × σ
  sendNewSummary : String → Option String → σ → Except Error Unit × σ

/-- The module-level variables of src/core/queueManager.js (`scrapeQueue`, `isProcessing`,
`processingInterval`), the external world, and the two ghost logs. -/
structure ModuleState (σ : Type) where
  scrapeQueue : List ScrapedPath
  isProcessing : Bool
  processingInterval : Option Nat
  world : σ
  calls : List CallRecord
  logs : List LogEntry

/-- An awaited computation over state `S`: it returns or throws, and leaves a state either
way. -/
def Eff (S : Type) (α : Type) : Type := S → Except Error α × S

/-- Return a value. -/
def Eff.pure {S α : Type} (a : α) : Eff S α := fun s => (.ok a, s)

/-- Sequencing: a throw skips the rest. -/
def Eff.bind {S α β : Type} (m : Eff S α) (f : α → Eff S β) : Eff S β := fun s =>
  match (m s).1 with
  | .ok a => f a (m s).2
  | .error e => (.error e, (m s).2)

/-- The `try { m } catch (error) { handler error }` statement. -/
def Eff.tryCatch {S α : Type} (m : Eff S α) (handler : Error → Eff S α) : Eff S α := fun s =>
  match (m s).1 with
  | .ok a => (.ok a, (m s).2)
  | .error e => handler e (m s).2

instance {S : Type} : Monad (Eff S) where
  pure := Eff.pure
  bind := Eff.bind

/-- The error of an outcome, for the call log. -/
def thrown {α : Type} : Except Error α → Option Error
  | .ok _ => none
  | .error e => some e

/-- Call a collaborator: run it on the world and log the call with its outcome. -/
def invoke {σ α : Type} (call : Call) (f : σ → Except Error α × σ) : Eff (ModuleState σ) α :=
  fun s =>
    ((f s.world).1,
      { s with world := (f s.world).2, calls := s.calls ++ [⟨call, thrown (f s.world).1⟩] })

/-- The call `logger.warn(message)`. -/
def logger.warn {σ : Type} (message : String) : Eff (ModuleState σ) Unit := fun s =>
  (.ok (), { s with logs := s.logs ++ [⟨.warn, message⟩] })

/-- The call `logger.error(message)`. -/
def logger.error {σ : Type} (message : String) : Eff (ModuleState σ) Unit := fun s =>
  (.ok (), { s with logs := s.logs ++ [⟨.error, message⟩] })

/-- The statement `scrapeQueue.push(item)`. -/
def scrapeQueue.push {σ : Type} (item : ScrapedPath) : Eff (ModuleState σ) Unit := fun s =>
  (.ok (), { s with scrapeQueue := s.scrapeQueue ++ [item] })

/-- The calls logged between state `s` and a later state `s1`. -/
def callsSince {σ : Type} (s s1 : ModuleState σ) : List CallRecord :=
  s1.calls.drop s.calls.length

/-! ## src/core/queueManager.js -/

/-- The body of the `for (const pathObj of paths)` loop of `QueueManager.addRequest`
(lines 31-75), for one entry; `results` is the array built so far and the returned list is
the array after this entry.  In the try block nothing that can throw follows a
`results.push`, so the catch block always starts from the array as it was before the entry.
The if / else-if chain on the status has no final else in the source: the last branch here
is that fall-through, which no value of the ENUM reaches. -/
def QueueManager.addRequestPath {σ : Type} (c : Collaborators σ)
    (websiteId baseWebsiteUrl : String) (pathObj : PathObj) (results : List PathResult) :
    Eff (ModuleState σ) (List PathResult) :=
  let pathName := pathObj.path
  if !pathObj.needsScraping then
    pure (results ++ [⟨pathName, "skipped", "Scraping not requested for this path."⟩])
  else
    Eff.tryCatch
      (do
        let found ← invoke (.findByUniqueIdentifiers websiteId pathName baseWebsiteUrl)
          (c.findByUniqueIdentifiers websiteId pathName baseWebsiteUrl)
        match found with
        | some scrapedPath =>
          if scrapedPath.status = SCRAPE_STATUS.QUEUED
              ∨ scrapedPath.status = SCRAPE_STATUS.SCRAPING then do
            let results := results ++
              [⟨pathName, scrapedPath.status.str, "Already in queue or being scraped."⟩]
            logger.warn ("Path " ++ pathName ++ " for website " ++ websiteId
              ++ " already in queue or scraping.")
            pure results
          else if scrapedPath.status = SCRAPE_STATUS.SCAPED then do
            let _ ← invoke (.updateStatus scrapedPath.id SCRAPE_STATUS.QUEUED)
              (c.updateStatus scrapedPath.id SCRAPE_STATUS.QUEUED)
            scrapeQueue.push scrapedPath
            pure (results ++
              [⟨pathName, SCRAPE_STATUS.QUEUED.str, "Re-queued existing path."⟩])
          else if scrapedPath.status = SCRAPE_STATUS.FAILED then do
            let _ ← invoke (.updateStatus scrapedPath.id SCRAPE_STATUS.QUEUED)
              (c.updateStatus scrapedPath.id SCRAPE_STATUS.QUEUED)
            scrapeQueue.push scrapedPath
            pure (results ++
              [⟨pathName, SCRAPE_STATUS.QUEUED.str, "Re-queued failed path."⟩])
          else
            pure results
        | none => do
          let newScrapedPath ← invoke
            (.create ⟨websiteId, pathName, baseWebsiteUrl, SCRAPE_STATUS.QUEUED⟩)
            (c.create ⟨websiteId, pathName, baseWebsiteUrl, SCRAPE_STATUS.QUEUED⟩)
          scrapeQueue.push newScrapedPath
          pure (results ++
            [⟨pathName, SCRAPE_STATUS.QUEUED.str, "New path queued successfully."⟩]))
      (fun error => do
        logger.error ("Error adding path " ++ pathName ++ " for website " ++ websiteId
          ++ " to queue: " ++ error.message)
        pure (results ++
          [⟨pathName, SCRAPE_STATUS.FAILED.str, "Failed to queue: " ++ error.message⟩]))

/-- The `for` loop of `QueueManager.addRequest` over the entries still to be visited. -/
def QueueManager.addRequestFrom {σ : Type} (c : Collaborators σ)
    (websiteId baseWebsiteUrl : String) :
    List PathObj → List PathResult → Eff (ModuleState σ) (List PathResult)
  | [], results => pure results
  | pathObj :: rest, results => do
    let results ← QueueManager.addRequestPath c websiteId baseWebsiteUrl pathObj results
    QueueManager.addRequestFrom c websiteId baseWebsiteUrl rest results

/-- The method `QueueManager.addRequest(requestData)` (lines 26-78). -/
def QueueManager.addRequest {σ : Type} (c : Collaborators σ) (requestData : RequestData) :
    Eff (ModuleState σ) (List PathResult) :=
  QueueManager.addRequestFrom c requestData.websiteId requestData.baseWebsiteUrl
    requestData.paths []

/-! ## src/core/processor.js -/

/-- The JavaScript expression `value || null` on a value that is a string, null or
undefined: a falsy value (absent, or the empty string) becomes null. -/
def orNull : Option String → Option String
  | some v => if v = "" then none else some v
  | none => none

/-- The method `Processor.processScrapeRequest(scrapeRequest)` (lines 20-64).  A service
response is an object whose field may be missing; the `JSON.stringify` of the info line
after the fetch is not modelled. -/
def Processor.processScrapeRequest {σ : Type} (c : Collaborators σ)
    (scrapeRequest : ScrapedPath) : Eff (ModuleState σ) Unit :=
  let id := scrapeRequest.id
  let websiteId := scrapeRequest.websiteId
  let pathName := scrapeRequest.pathName
  let baseUrl := scrapeRequest.baseUrl
  let fullUrl := baseUrl ++ pathName
  Eff.tryCatch
    (do
      -- 1. Update status to 'scraping'
      let _ ← invoke (.updateStatus id SCRAPE_STATUS.SCRAPING)
        (c.updateStatus id SCRAPE_STATUS.SCRAPING)
      -- 2. Scrape the page
      let scrapedData ← invoke (.scrapePage fullUrl) (c.scrapePage fullUrl)
      -- 3. Send extracted data to AI service for initial summary
      let aiSummaryResponse ← invoke (.getSummary scrapedData pathName websiteId)
        (c.getSummary scrapedData pathName websiteId)
      let freshAiSummary := aiSummaryResponse.summary
      -- 4. Get previous AI summary from main service
      let mainServiceResponse ← invoke (.getPreviousAiSummary websiteId)
        (c.getPreviousAiSummary websiteId)
      let previousAiSummary := orNull mainServiceResponse.previousSummary
      -- 5. Send fresh and previous data to AI service for merging
      let aiMergeResponse ← invoke
        (.mergeSummaries freshAiSummary previousAiSummary scrapedData websiteId)
        (c.mergeSummaries freshAiSummary previousAiSummary scrapedData websiteId)
      let newMergedSummary := aiMergeResponse.mergedSummary
      -- 6. Send new merged summary back to the main service
      invoke (.sendNewSummary websiteId newMergedSummary)
        (c.sendNewSummary websiteId newMergedSummary)
      -- 7. Update status to 'scraped'
      let _ ← invoke (.updateStatus id SCRAPE_STATUS.SCAPED)
        (c.updateStatus id SCRAPE_STATUS.SCAPED)
      pure ())
    (fun error => do
      logger.error ("Error processing scrape request ID: " ++ id ++ ", URL: " ++ fullUrl
        ++ ". Error: " ++ error.message)
      Eff.tryCatch
        (do
          let _ ← invoke (.updateStatus id SCRAPE_STATUS.FAILED)
            (c.updateStatus id SCRAPE_STATUS.FAILED)
          pure ())
        (fun dbError =>
          logger.error ("Failed to update status to \x27failed\x27 for ID: " ++ id
            ++ ". DB Error: " ++ dbError.message)))

/-! ## Reading the call log -/

/-- The numbered step of `processScrapeRequest` a call belongs to, after the numbered
comments of the source; 8 is the status write of the catch block and 0 a call the
pipeline never makes. -/
def Call.step : Call → Nat
  | .updateStatus _ .scraping => 1
  | .scrapePage _ => 2
  | .getSummary _ _ _ => 3
  | .getPreviousAiSummary _ => 4
  | .mergeSummaries _ _ _ _ => 5
  | .sendNewSummary _ _ => 6
  | .updateStatus _ .scraped => 7
  | .updateStatus _ .failed => 8
  | .updateStatus _ .queued => 0
  | .findByUniqueIdentifiers _ _ _ => 0
  | .create _ => 0

/-- Whether the call goes to the summarizer (`AiService`). -/
def Call.isSummarizerCall : Call → Bool
  | .getSummary _ _ _ => true
  | .mergeSummaries _ _ _ _ => true
  | _ => false

/-- Whether the call goes to the notifier (`MainService`). -/
def Call.isNotifierCall : Call → Bool
  | .getPreviousAiSummary _ => true
  | .sendNewSummary _ _ => true
  | _ => false

/-- The (id, status) pair of a call to `updateStatus`. -/
def Call.statusWrite : Call → Option (String × Status)
  | .updateStatus id newStatus => some (id, newStatus)
  | _ => none

/-- The status writes of a call log, in order. -/
def statusWrites (log : List CallRecord) : List (String × Status) :=
  log.filterMap fun r => r.call.statusWrite

/-- The logger lines recorded between state `s` and a later state `s1`. -/
def logsSince {σ : Type} (s s1 : ModuleState σ) : List LogEntry :=
  s1.logs.drop s.logs.length

/-- The lines the catch block of `processScrapeRequest` logs when the try block threw `e`
and the write of `failed` had outcome `writeError`. -/
def catchLines (scrapeRequest : ScrapedPath) (e : Error) (writeError : Option Error) :
    List LogEntry :=
  ⟨.error, "Error processing scrape request ID: " ++ scrapeRequest.id ++ ", URL: "
      ++ (scrapeRequest.baseUrl ++ scrapeRequest.pathName) ++ ". Error: " ++ e.message⟩ ::
    match writeError with
    | none => []
    | some dbError =>
      [⟨.error, "Failed to update status to \x27failed\x27 for ID: " ++ scrapeRequest.id
        ++ ". DB Error: " ++ dbError.message⟩]

/-- The shapes a run of `processScrapeRequest` on `scrapeRequest` can take: the calls it
makes, with their outcomes, and the lines it logs.  `failedAt k` is the run in which steps
1 to k-1 returned and step k threw `e`; `writeError` is the outcome of the write of
`failed` made by the catch block. -/
inductive PipelineRun (scrapeRequest : ScrapedPath) : List CallRecord → List LogEntry → Prop
  | failedAt1 (e : Error) (writeError : Option Error) :
    PipelineRun scrapeRequest
      [⟨.updateStatus scrapeRequest.id .scraping, some e⟩,
       ⟨.updateStatus scrapeRequest.id .failed, writeError⟩]
      (catchLines scrapeRequest e writeError)
  | failedAt2 (e : Error) (writeError : Option Error) :
    PipelineRun scrapeRequest
      [⟨.updateStatus scrapeRequest.id .scraping, none⟩,
       ⟨.scrapePage (scrapeRequest.baseUrl ++ scrapeRequest.pathName), some e⟩,
       ⟨.updateStatus scrapeRequest.id .failed, writeError⟩]
      (catchLines scrapeRequest e writeError)
  | failedAt3 (scrapedData : ScrapedData) (e : Error) (writeError : Option Error) :
    PipelineRun scrapeRequest
      [⟨.updateStatus scrapeRequest.id .scraping, none⟩,
       ⟨.scrapePage (scrapeRequest.baseUrl ++ scrapeRequest.pathName), none⟩,
       ⟨.getSummary scrapedData scrapeRequest.pathName scrapeRequest.websiteId, some e⟩,
       ⟨.updateStatus scrapeRequest.id .failed, writeError⟩]
      (catchLines scrapeRequest e writeError)
  | failedAt4 (scrapedData : ScrapedData) (e : Error) (writeError : Option Error) :
    PipelineRun scrapeRequest
      [⟨.updateStatus scrapeRequest.id .scraping, none⟩,
       ⟨.scrapePage (scrapeRequest.baseUrl ++ scrapeRequest.pathName), none⟩,
       ⟨.getSummary scrapedData scrapeRequest.pathName scrapeRequest.websiteId, none⟩,
       ⟨.getPreviousAiSummary scrapeRequest.websiteId, some e⟩,
       ⟨.updateStatus scrapeRequest.id .failed, writeError⟩]
      (catchLines scrapeRequest e writeError)
  | failedAt5 (scrapedData : ScrapedData) (fresh previous : Option String) (e : Error)
      (writeError : Option Error) :
    PipelineRun scrapeRequest
      [⟨.updateStatus scrapeRequest.id .scraping, none⟩,
       ⟨.scrapePage (scrapeRequest.baseUrl ++ scrapeRequest.pathName), none⟩,
       ⟨.getSummary scrapedData scrapeRequest.pathName scrapeRequest.websiteId, none⟩,
       ⟨.getPreviousAiSummary scrapeRequest.websiteId, none⟩,
       ⟨.mergeSummaries fresh (orNull previous) scrapedData scrapeRequest.websiteId, some e⟩,
       ⟨.updateStatus scrapeRequest.id .failed, writeError⟩]
      (catchLines scrapeRequest e writeError)
  | failedAt6 (scrapedData : ScrapedData) (fresh previous merged : Option String) (e : Error)
      (writeError : Option Error) :
    PipelineRun scrapeRequest
      [⟨.updateStatus scrapeRequest.id .scraping, none⟩,
       ⟨.scrapePage (scrapeRequest.baseUrl ++ scrapeRequest.pathName), none⟩,
       ⟨.getSummary scrapedData scrapeRequest.pathName scrapeRequest.websiteId, none⟩,
       ⟨.getPreviousAiSummary scrapeRequest.websiteId, none⟩,
       ⟨.mergeSummaries fresh (orNull previous) scrapedData scrapeRequest.websiteId, none⟩,
       ⟨.sendNewSummary scrapeRequest.websiteId merged, some e⟩,
       ⟨.updateStatus scrapeRequest.id .failed, writeError⟩]
      (catchLines scrapeRequest e writeError)
  | failedAt7 (scrapedData : ScrapedData) (fresh previous merged : Option String) (e : Error)
      (writeError : Option Error) :
    PipelineRun scrapeRequest
      [⟨.updateStatus scrapeRequest.id .scraping, none⟩,
       ⟨.scrapePage (scrapeRequest.baseUrl ++ scrapeRequest.pathName), none⟩,
       ⟨.getSummary scrapedData scrapeRequest.pathName scrapeRequest.websiteId, none⟩,
       ⟨.getPreviousAiSummary scrapeRequest.websiteId, none⟩,
       ⟨.mergeSummaries fresh (orNull previous) scrapedData scrapeRequest.websiteId, none⟩,
       ⟨.sendNewSummary scrapeRequest.websiteId merged, none⟩,
       ⟨.updateStatus scrapeRequest.id .scraped, some e⟩,
       ⟨.updateStatus scrapeRequest.id .failed, writeError⟩]
      (catchLines scrapeRequest e writeError)
  | completed (scrapedData : ScrapedData) (fresh previous merged : Option String) :
    PipelineRun scrapeRequest
      [⟨.updateStatus scrapeRequest.id .scraping, none⟩,
       ⟨.scrapePage (scrapeRequest.baseUrl ++ scrapeRequest.pathName), none⟩,
       ⟨.getSummary scrapedData scrapeRequest.pathName scrapeRequest.websiteId, none⟩,
       ⟨.getPreviousAiSummary scrapeRequest.websiteId, none⟩,
       ⟨.mergeSummaries fresh (orNull previous) scrapedData scrapeRequest.websiteId, none⟩,
       ⟨.sendNewSummary scrapeRequest.websiteId merged, none⟩,
       ⟨.updateStatus scrapeRequest.id .scraped, none⟩]
      []

/-! ## Fixtures

Collaborators in the manner of the jest mocks of tests/unit/core: every operation ignores
the world and gives a scripted outcome. -/

/-- Scripted collaborators over a trivial world. -/
def mockCollaborators (find : Except Error (Option ScrapedPath))
    (create : Except Error ScrapedPath) (updateStatus : Status → Except Error Nat)
    (scrapePage : Except Error ScrapedData) (getSummary : Except Error SummaryResponse)
    (getPrevious : Except Error PreviousSummaryResponse)
    (merge : Except Error MergeResponse) (send : Except Error Unit) : Collaborators Unit where
  findByUniqueIdentifiers := fun _ _ _ w => (find, w)
  create := fun _ w => (create, w)
  updateStatus := fun _ st w => (updateStatus st, w)
  scrapePage := fun _ w => (scrapePage, w)
  getSummary := fun _ _ _ w => (getSummary, w)
  getPreviousAiSummary := fun _ w => (getPrevious, w)
  mergeSummaries := fun _ _ _ _ w => (merge, w)
  sendNewSummary := fun _ _ w => (send, w)

/-- The module state right after the module is loaded, before any call. -/
def freshState : ModuleState Unit := ⟨[], false, none, (), [], []⟩

/-- The record used by the re-queue tests of tests/unit/core/queueManager.test.js. -/
def blogRecord (status : Status) : ScrapedPath :=
  ⟨"path-id", "test-website-id", "/blog", "https://test.com", status⟩

/-- Mocks for intake: `find` and `updateStatus` scripted, `create` returning a new record. -/
def intakeMocks (find : Except Error (Option ScrapedPath))
    (updateStatus : Except Error Nat) : Collaborators Unit :=
  mockCollaborators find (.ok ⟨"new-id", "test-website-id", "/blog", "https://test.com", .queued⟩)
    (fun _ => updateStatus) (.error ⟨"unused"⟩) (.error ⟨"unused"⟩) (.error ⟨"unused"⟩)
    (.error ⟨"unused"⟩) (.error ⟨"unused"⟩)

/-- Mocks for intake in which nothing is found and `create` is refused by the store. -/
def createFailsMocks : Collaborators Unit :=
  mockCollaborators (.ok none) (.error ⟨"Validation error"⟩) (fun _ => .ok 1)
    (.error ⟨"unused"⟩) (.error ⟨"unused"⟩) (.error ⟨"unused"⟩) (.error ⟨"unused"⟩)
    (.error ⟨"unused"⟩)

/-- Mocks for the pipeline, with every outcome scripted; the lookup finds nothing. -/
def pipelineMocks (updateStatus : Status → Except Error Nat)
    (scrapePage : Except Error ScrapedData) (getSummary : Except Error SummaryResponse)
    (getPrevious : Except Error PreviousSummaryResponse)
    (merge : Except Error MergeResponse) (send : Except Error Unit) : Collaborators Unit :=
  mockCollaborators (.ok none) (.error ⟨"unused"⟩) updateStatus scrapePage getSummary
    getPrevious merge send

/-- The job of the scenarios of the specification: website `W`, path `/a` of `http://x`. -/
def demoJob : ScrapedPath := ⟨"job-1", "W", "/a", "http://x", .queued⟩

/-- The page of the scenarios: the text `text`, no forms, no buttons. -/
def demoPage : ScrapedData := ⟨"text", [], []⟩

/-- The happy-path mocks of the scenarios (fetch gives `text`, summarize `S1`, merge `S2`),
with the previous summary left open. -/
def happyMocks (previous : Option String) : Collaborators Unit :=
  pipelineMocks (fun _ => .ok 1) (.ok demoPage) (.ok ⟨some "S1"⟩) (.ok ⟨previous⟩)
    (.ok ⟨some "S2"⟩) (.ok ())

/-- The mocks of the test 'should handle failure to update status to FAILED gracefully':
the fetch throws and so does the write of `failed`. -/
def brokenStoreMocks : Collaborators Unit :=
  pipelineMocks
    (fun st => if st = .failed then .error ⟨"DB update failed"⟩ else .ok 1)
    (.error ⟨"Initial processing error"⟩) (.ok ⟨some "S1"⟩) (.ok ⟨some "S0"⟩)
    (.ok ⟨some "S2"⟩) (.ok ())

/-- The mocks of the test 'should update status to FAILED if AI merge call fails'. -/
def mergeFailsMocks : Collaborators Unit :=
  pipelineMocks (fun _ => .ok 1) (.ok demoPage) (.ok ⟨some "fresh"⟩) (.ok ⟨some "prev"⟩)
    (.error ⟨"AI merge logic error"⟩) (.ok ())

/-- The mocks of the end-to-end test 'should update status to FAILED if any step in
processing fails': the fetch throws, the store accepts every write. -/
def fetchFailsMocks : Collaborators Unit :=
  pipelineMocks (fun _ => .ok 1) (.error ⟨"Mock scraping failed"⟩) (.ok ⟨some "S1"⟩)
    (.ok ⟨some "S0"⟩) (.ok ⟨some "S2"⟩) (.ok ())

/-! ## src/core/queueManager.js: the dispatch loop -/

/-- The method `QueueManager.processNextItem()` (lines 110-124), run to completion: on an
empty queue it returns at once; otherwise it shifts the first entry off the queue and
awaits `Processor.processScrapeRequest` on it.  The `if (!requestToProcess)` guard never
fires, since the queue holds records. -/
def QueueManager.processNextItem {σ : Type} (c : Collaborators σ) : Eff (ModuleState σ) Unit :=
  fun s =>
    match s.scrapeQueue with
    | [] => (.ok (), s)
    | requestToProcess :: rest =>
      Processor.processScrapeRequest c requestToProcess { s with scrapeQueue := rest }

/-- The method `QueueManager.getQueueSize()`. -/
def QueueManager.getQueueSize {σ : Type} (s : ModuleState σ) : Nat :=
  s.scrapeQueue.length

/-- An interval timer of the event loop: the handle `setInterval` returned for it and its
period.  The callback of every interval the module sets is `processNextItem`. -/
structure Interval where
  handle : Nat
  intervalMs : Nat
deriving DecidableEq, Repr

/-- The module together with the timers of the event loop: the intervals set and not yet
cleared, the handle the next `setInterval` returns, and, as ghost state, the handles
passed to `clearInterval` so far. -/
structure Runtime (σ : Type) where
  module : ModuleState σ
  intervals : List Interval
  nextHandle : Nat
  cleared : List Nat

/-- The global `setInterval(this.processNextItem, intervalMs)`: a new interval with a fresh
handle. -/
def setInterval {σ : Type} (intervalMs : Nat) (rt : Runtime σ) : Nat × Runtime σ :=
  (rt.nextHandle,
    { rt with
      intervals := rt.intervals ++ [⟨rt.nextHandle, intervalMs⟩]
      nextHandle := rt.nextHandle + 1 })

/-- The global `clearInterval(handle)`. -/
def clearInterval {σ : Type} (handle : Nat) (rt : Runtime σ) : Runtime σ :=
  { rt with
    intervals := rt.intervals.filter fun i => i.handle ≠ handle
    cleared := rt.cleared ++ [handle] }

/-- The method `QueueManager.startProcessing(intervalMs)` (lines 84-92). -/
def QueueManager.startProcessing {σ : Type} (intervalMs : Nat) (rt : Runtime σ) : Runtime σ :=
  if rt.module.isProcessing then
    { rt with module := { rt.module with
        logs := rt.module.logs ++ [⟨.warn, "Queue processing is already active."⟩] } }
  else
    let rt1 : Runtime σ := { rt with module := { rt.module with isProcessing := true } }
    let set := setInterval intervalMs rt1
    { set.2 with module := { set.2.module with processingInterval := some set.1 } }

/-- The method `QueueManager.stopProcessing()` (lines 97-104).  A timer handle is an
object, hence truthy: `if (processingInterval)` tests for null. -/
def QueueManager.stopProcessing {σ : Type} (rt : Runtime σ) : Runtime σ :=
  match rt.module.processingInterval with
  | some handle =>
    let rt1 := clearInterval handle rt
    { rt1 with module := { rt1.module with processingInterval := none, isProcessing := false } }
  | none => rt

/-- The method `QueueManager._resetQueue()` (lines 138-146). -/
def QueueManager._resetQueue {σ : Type} (rt : Runtime σ) : Runtime σ :=
  let rt1 : Runtime σ :=
    { rt with module := { rt.module with scrapeQueue := [], isProcessing := false } }
  match rt1.module.processingInterval with
  | some handle =>
    let rt2 := clearInterval handle rt1
    { rt2 with module := { rt2.module with processingInterval := none } }
  | none => rt1

/-- The process right after the module is loaded: `scrapeQueue = []`, `isProcessing = false`,
`processingInterval = null`, and no interval set. -/
def Runtime.boot {σ : Type} (world : σ) : Runtime σ :=
  ⟨⟨[], false, none, world, [], []⟩, [], 1, []⟩

/-- A call of one of the three methods that touch the dispatch timer. -/
inductive TimerOp
  | startProcessing (intervalMs : Nat)
  | stopProcessing
  | resetQueue
deriving DecidableEq, Repr

/-- Run one call. -/
def TimerOp.run {σ : Type} : TimerOp → Runtime σ → Runtime σ
  | .startProcessing intervalMs, rt => QueueManager.startProcessing intervalMs rt
  | .stopProcessing, rt => QueueManager.stopProcessing rt
  | .resetQueue, rt => QueueManager._resetQueue rt

/-- Run a sequence of calls, first to last. -/
def runTimerOps {σ : Type} (ops : List TimerOp) (rt : Runtime σ) : Runtime σ :=
  ops.foldl (fun r op => op.run r) rt

/-! ### The dispatch loop at the grain of the event loop

`setInterval` does not wait for the promise its callback returns.  A tick runs
`processNextItem` up to its `await`: the queue test, the `shift`, and the start of
`Processor.processScrapeRequest` on the shifted entry.  That invocation then stays in
flight until its promise settles, which is a later event. -/

/-- The queue and, as ghost state, the invocations of `processScrapeRequest` that were
started and have not settled yet. -/
structure DispatchState where
  scrapeQueue : List ScrapedPath
  inFlight : List ScrapedPath
deriving DecidableEq, Repr

/-- An event of the dispatch loop: the timer fires, or the pipeline of a job settles. -/
inductive DispatchEvent
  | tick
  | settled (job : ScrapedPath)
deriving DecidableEq, Repr

/-- One event.  On a tick `processNextItem` (lines 110-124) tests only the queue length:
there is no test of a pipeline being in flight. -/
def DispatchState.step (d : DispatchState) : DispatchEvent → DispatchState
  | .tick =>
    match d.scrapeQueue with
    | [] => d
    | requestToProcess :: rest => ⟨rest, d.inFlight ++ [requestToProcess]⟩
  | .settled job => { d with inFlight := d.inFlight.erase job }

/-- The state after a sequence of events. -/
def DispatchState.run (d : DispatchState) (events : List DispatchEvent) : DispatchState :=
  events.foldl DispatchState.step d

/-! ### Reading the status writes of a call log -/

/-- The (id, status) of a call to `updateStatus` that the store accepted. -/
def CallRecord.acceptedWrite (r : CallRecord) : Option (String × Status) :=
  match r.error with
  | none => r.call.statusWrite
  | some _ => none

/-- The status that a store which records exactly the accepted writes holds for record `id`
after the calls of a log, when it held `current` before them. -/
def storedStatus (id : String) (current : Status) : List CallRecord → Status
  | [] => current
  | r :: rest =>
    match r.acceptedWrite with
    | some (writtenId, newStatus) =>
      storedStatus id (if writtenId = id then newStatus else current) rest
    | none => storedStatus id current rest

/-- The transitions (status before, status written) that the accepted writes of a log make
on record `id`, when the store held `current` before them. -/
def statusTransitions (id : String) (current : Status) : List CallRecord → List (Status × Status)
  | [] => []
  | r :: rest =>
    match r.acceptedWrite with
    | some (writtenId, newStatus) =>
      if writtenId = id then (current, newStatus) :: statusTransitions id newStatus rest
      else statusTransitions id current rest
    | none => statusTransitions id current rest

/-- The transitions of the status state machine: `queued → scraping → scraped`, `failed`
reachable from `scraping`, and `scraped` and `failed` re-enterable into `queued`. -/
def validTransition : Status × Status → Bool
  | (.queued, .scraping) => true
  | (.scraping, .scraped) => true
  | (.scraping, .failed) => true
  | (.scraped, .queued) => true
  | (.failed, .queued) => true
  | _ => false

/-- The ids of the jobs whose pipeline a log shows starting: every invocation of
`processScrapeRequest` begins with its call `updateStatus(id, 'scraping')`, made once. -/
def pipelineStarts (log : List CallRecord) : List String :=
  log.filterMap fun r =>
    match r.call with
    | .updateStatus id .scraping => some id
    | _ => none

/-! ### Relations kept by a computation, successive calls, and further fixtures -/

/-- Every run of `m` leaves a state related by `R` to the state it started in. -/
def Eff.Preserves {S α : Type} (R : S → S → Prop) (m : Eff S α) : Prop :=
  ∀ s, R s (m s).2

/-- The state after `k` successive calls of `processNextItem`, each awaited before the next. -/
def QueueManager.processNextItemTimes {σ : Type} (c : Collaborators σ) (k : Nat)
    (s : ModuleState σ) : ModuleState σ :=
  Nat.iterate (fun st => (QueueManager.processNextItem c st).2) k s

/-- Mocks in which the store refuses the write of `scraping` and accepts the others, while
the fetch and the services succeed. -/
def firstWriteFailsMocks : Collaborators Unit :=
  pipelineMocks
    (fun st => if st = .scraping then .error ⟨"DB connection lost"⟩ else .ok 1)
    (.ok demoPage) (.ok ⟨some "S1"⟩) (.ok ⟨some "S0"⟩) (.ok ⟨some "S2"⟩) (.ok ())

/-- The second job of the dispatch scenarios. -/
def demoJob2 : ScrapedPath := ⟨"job-2", "W", "/b", "http://x", .queued⟩

/-- The dispatcher is either running, holding the one interval that is set, or not running,
holding none, with no interval set. -/
def Runtime.TimerInv {σ : Type} (rt : Runtime σ) : Prop :=
  (rt.module.isProcessing = true ∧
    ∃ handle intervalMs, rt.module.processingInterval = some handle ∧
      rt.intervals = [⟨handle, intervalMs⟩]) ∨
  (rt.module.isProcessing = false ∧ rt.module.processingInterval = none ∧ rt.intervals = [])

/-! ## src/services: the HTTP clients -/

/-- The fields of src/config/index.js that the services read. -/
structure Config where
  aiServiceBaseUrl : String
  mainServiceBaseUrl : String
  scraperTimeoutMs : Nat
deriving DecidableEq, Repr

/-- The options argument of an axios call.  Without a `timeout` option axios waits without
bound. -/
structure AxiosRequestConfig where
  timeout : Option Nat
  headers : List (String × String)
deriving DecidableEq, Repr

/-- The HTTP verbs the services use. -/
inductive HttpMethod
  | get
  | post
  | put
deriving DecidableEq, Repr

/-- The request bodies the services send. -/
inductive RequestBody
  | summary (scrapedData : ScrapedData) (path : String)
  | merge (freshSummary previousSummary : Option String) (scrapedData : ScrapedData)
      (path : String) (websiteId : String)
  | newSummary (newSummary : Option String)
deriving DecidableEq, Repr

/-- A call `axios.get(url, config)`, `axios.post(url, data, config)` or
`axios.put(url, data, config)`; `config` is `none` when the call passes no options. -/
structure AxiosCall where
  method : HttpMethod
  url : String
  data : Option RequestBody
  config : Option AxiosRequestConfig
deriving DecidableEq, Repr

/-- A resolved axios response. -/
structure AxiosResponse (δ : Type) where
  status : Nat
  data : δ

/-- The `response` field of an axios error, when the server answered. -/
structure AxiosErrorResponse where
  status : Nat
deriving DecidableEq, Repr

/-- What a catch block of a service can receive: an axios error, with a `response` when the
server answered, or the plain `Error` thrown on an unexpected status, which has none. -/
structure RequestError where
  message : String
  response : Option AxiosErrorResponse
deriving DecidableEq, Repr

/-- An instance of `ServiceError` (src/utils/errors.js). -/
structure ServiceError where
  name : String
  message : String
  statusCode : Nat
  errorCode : String
  serviceName : String
deriving DecidableEq, Repr

/-- The constructor call `new ServiceError(serviceName, message, originalError)`. -/
def ServiceError.new (serviceName message : String) : ServiceError :=
  ⟨"ServiceError", message, 502, "EXTERNAL_SERVICE_ERROR", serviceName⟩

/-- The mocked `axios` module: an arbitrary function of the network. -/
def Axios (τ δ : Type) : Type := AxiosCall → τ → Except RequestError (AxiosResponse δ) × τ

/-- The network, the requests issued so far (ghost) and the recorded logger lines. -/
structure HttpState (τ : Type) where
  world : τ
  requests : List AxiosCall
  logs : List LogEntry

/-- Issue a request: run axios on the network and log the request. -/
def HttpState.send {τ δ : Type} (axios : Axios τ δ) (call : AxiosCall) (h : HttpState τ) :
    Except RequestError (AxiosResponse δ) × HttpState τ :=
  ((axios call h.world).1,
    { h with world := (axios call h.world).2, requests := h.requests ++ [call] })

/-- The method `MainService.getPreviousAiSummary(websiteId)` (mainService.js 16-38). -/
def MainService.getPreviousAiSummary {τ : Type} (config : Config)
    (axios : Axios τ PreviousSummaryResponse) (websiteId : String) (h : HttpState τ) :
    Except ServiceError PreviousSummaryResponse × HttpState τ :=
  let url := config.mainServiceBaseUrl ++ "/websites/" ++ websiteId ++ "/summary"
  let sent := h.send axios ⟨.get, url, none, some ⟨some config.scraperTimeoutMs, []⟩⟩
  let tried : Except RequestError PreviousSummaryResponse :=
    match sent.1 with
    | .ok response =>
      if response.status ≠ 200 then
        .error ⟨"Main service returned non-200 status: " ++ toString response.status, none⟩
      else .ok response.data
    | .error error => .error error
  match tried with
  | .ok data => (.ok data, sent.2)
  | .error error =>
    if error.response.map AxiosErrorResponse.status = some 404 then
      (.ok ⟨none⟩, { sent.2 with logs := sent.2.logs ++
        [⟨.warn, "No previous AI summary found for websiteId: " ++ websiteId ++ "."⟩] })
    else
      (.error (ServiceError.new "Main Service"
          ("Failed to get previous AI summary: " ++ error.message)),
        { sent.2 with logs := sent.2.logs ++
          [⟨.error, "Error calling Main service to get previous AI summary for websiteId "
            ++ websiteId ++ ": " ++ error.message⟩] })

/-- The method `MainService.sendNewSummary(websiteId, newSummary)` (mainService.js 47-64);
the body of the answer is not modelled. -/
def MainService.sendNewSummary {τ : Type} (config : Config) (axios : Axios τ Unit)
    (websiteId : String) (newSummary : Option String) (h : HttpState τ) :
    Except ServiceError Unit × HttpState τ :=
  let url := config.mainServiceBaseUrl ++ "/websites/" ++ websiteId ++ "/summary"
  let sent := h.send axios
    ⟨.put, url, some (.newSummary newSummary), some ⟨some config.scraperTimeoutMs, []⟩⟩
  let tried : Except RequestError Unit :=
    match sent.1 with
    | .ok response =>
      if response.status ≠ 200 ∧ response.status ≠ 204 then
        .error ⟨"Main service returned non-200/204 status: " ++ toString response.status, none⟩
      else .ok response.data
    | .error error => .error error
  match tried with
  | .ok data => (.ok data, sent.2)
  | .error error =>
    (.error (ServiceError.new "Main Service" ("Failed to send new summary: " ++ error.message)),
      { sent.2 with logs := sent.2.logs ++
        [⟨.error, "Error calling Main service to send new summary for websiteId "
          ++ websiteId ++ ": " ++ error.message⟩] })

/-- The method `AiService.getSummary(scrapedData, path)` (aiService.js 17-33).  The call is
`axios.post(url, { data: {...scrapedData, path} })`: the options argument with the timeout
is commented out in the source. -/
def AiService.getSummary {τ : Type} (config : Config) (axios : Axios τ SummaryResponse)
    (scrapedData : ScrapedData) (path : String) (h : HttpState τ) :
    Except ServiceError SummaryResponse × HttpState τ :=
  let url := config.aiServiceBaseUrl ++ "/summary"
  let sent := h.send axios ⟨.post, url, some (.summary scrapedData path), none⟩
  let tried : Except RequestError SummaryResponse :=
    match sent.1 with
    | .ok response =>
      if response.status ≠ 200 then
        .error ⟨"AI service returned non-200 status: " ++ toString response.status, none⟩
      else .ok response.data
    | .error error => .error error
  match tried with
  | .ok data => (.ok data, sent.2)
  | .error error =>
    (.error (ServiceError.new "AI Service" ("Failed to get summary: " ++ error.message)),
      { sent.2 with logs := sent.2.logs ++
        [⟨.error, "Error calling AI service /summary: " ++ error.message⟩] })

/-- The method `AiService.mergeSummaries(freshSummary, previousSummary, scrapedData,
websiteId)` (aiService.js 43-64).  The call is `axios.post(url, body)`, again without the
options argument; on an unexpected status the message interpolates the response object
itself. -/
def AiService.mergeSummaries {τ : Type} (config : Config) (axios : Axios τ MergeResponse)
    (freshSummary previousSummary : Option String) (scrapedData : ScrapedData)
    (websiteId : String) (h : HttpState τ) :
    Except ServiceError MergeResponse × HttpState τ :=
  let url := config.aiServiceBaseUrl ++ "/merge"
  let sent := h.send axios
    ⟨.post, url, some (.merge freshSummary previousSummary scrapedData "" websiteId), none⟩
  let tried : Except RequestError MergeResponse :=
    match sent.1 with
    | .ok response =>
      if response.status ≠ 200 then
        .error ⟨"AI service returned non-200 status: [object Object]", none⟩
      else .ok response.data
    | .error error => .error error
  match tried with
  | .ok data => (.ok data, sent.2)
  | .error error =>
    (.error (ServiceError.new "AI Service" ("Failed to merge summaries: " ++ error.message)),
      { sent.2 with logs := sent.2.logs ++
        [⟨.error, "Error calling AI service /merge: " ++ error.message⟩] })

/-- Whether a request carries a bounded timeout in its options. -/
def AxiosCall.hasTimeout (call : AxiosCall) : Bool :=
  match call.config with
  | some options => options.timeout.isSome
  | none => false

/-- The configuration mocked by tests/unit/services. -/
def testConfig : Config := ⟨"http://mock-ai-service.com", "http://mock-main-service.com", 5000⟩

/-- An axios mock in the manner of `mockResolvedValue` / `mockRejectedValue`. -/
def axiosMock {δ : Type} (outcome : Except RequestError (AxiosResponse δ)) : Axios Unit δ :=
  fun _ w => (outcome, w)

/-- The state of the HTTP layer before any request. -/
def freshHttp : HttpState Unit := ⟨(), [], []⟩

/-! ## src/api/controllers/scrapeController.js -/

/-- A row as `ScrapedPathRepository.findByWebsiteId` hands it over. -/
structure PathRow where
  id : String
  websiteId : String
  pathName : String
  baseUrl : String
  status : Status
  createdAt : Nat
  updatedAt : Nat
deriving DecidableEq, Repr

/-- One element of `paths` in the body of the status answer. -/
structure PathStatusEntry where
  id : String
  pathName : String
  baseUrl : String
  status : Status
  updatedAt : Nat
  createdAt : Nat
deriving DecidableEq, Repr

/-- The body of the status answer. -/
structure PathStatusesBody where
  websiteId : String
  paths : List PathStatusEntry
deriving DecidableEq, Repr

/-- An instance of `CustomError` or of one of its subclasses (src/utils/errors.js); `name` is
the name of the class. -/
structure CustomError where
  name : String
  message : String
  statusCode : Nat
  errorCode : String
deriving DecidableEq, Repr

/-- The constructor call `new CustomError(message, statusCode, errorCode)`. -/
def CustomError.new (message : String) (statusCode : Nat) (errorCode : String) : CustomError :=
  ⟨"CustomError", message, statusCode, errorCode⟩

/-- The constructor call `new NotFoundError(message)`. -/
def NotFoundError.new (message : String) : CustomError :=
  ⟨"NotFoundError", message, 404, "NOT_FOUND"⟩

/-- What a controller did: the answer it sent with `res.status(code).json(body)`, if any,
the error it passed to `next`, if any, and the lines it logged. -/
structure ControllerOutcome where
  response : Option (Nat × PathStatusesBody)
  forwarded : Option CustomError
  logs : List LogEntry
deriving DecidableEq, Repr

/-- The method `ScrapeController.getWebsitePathStatuses(req, res, next)` (lines 48-76), as a
function of `req.params.websiteId` and of the outcome of
`ScrapedPathRepository.findByWebsiteId(websiteId)`: null, a list of rows, or a thrown
error. -/
def ScrapeController.getWebsitePathStatuses (websiteId : String)
    (found : Except Error (Option (List PathRow))) : ControllerOutcome :=
  match found with
  | .ok paths =>
    if paths = none ∨ (paths.map List.length) = some 0 then
      ⟨none, some (NotFoundError.new ("No paths found for websiteId: " ++ websiteId)),
        [⟨.warn, "No paths found for websiteId: " ++ websiteId⟩]⟩
    else
      ⟨some (200,
          ⟨websiteId, (paths.getD []).map fun path =>
            ⟨path.id, path.pathName, path.baseUrl, path.status, path.updatedAt,
              path.createdAt⟩⟩),
        none, []⟩
  | .error error =>
    ⟨none, some (CustomError.new "Failed to retrieve website path statuses." 500 "DB_FETCH_ERROR"),
      [⟨.error, "Error in getWebsitePathStatuses for websiteId " ++ websiteId ++ ": "
        ++ error.message⟩]⟩

/-- The rows of the test 'should return path statuses for a given websiteId'. -/
def testRows : List PathRow :=
  [⟨"path1-uuid", "a1b2c3d4", "/blog", "https://example.com", .scraped, 10, 20⟩,
   ⟨"path2-uuid", "a1b2c3d4", "/about", "https://example.com", .queued, 30, 40⟩]

/-! ## The store and the queue together -/

/-- The identity of a job: the triple (websiteId, pathName, baseUrl) of its record. -/
def ScrapedPath.identity (r : ScrapedPath) : String × String × String :=
  (r.websiteId, r.pathName, r.baseUrl)

/-- The row `r` after `UPDATE ... SET status = newStatus WHERE id = id`. -/
def setStatus (id : String) (newStatus : Status) (r : ScrapedPath) : ScrapedPath :=
  if r.id = id then { r with status := newStatus } else r

/-- A store that faithfully records creates and status updates and keeps identities unique:
`table` reads the rows of `scraped_paths` off the world.  A lookup answers with a row of
that identity, or with null when there is none; an accepted `create` appends the row it
returns, which has the requested identity and status and a fresh id, and is accepted only
if no row has that identity; an accepted `updateStatus` sets the status of the rows with
that id; a refused call, a lookup and a call to the fetcher or to a service leave the rows
as they are. -/
structure FaithfulStore {σ : Type} (c : Collaborators σ) (table : σ → List ScrapedPath) :
    Prop where
  find_error : ∀ i p b w e w1, c.findByUniqueIdentifiers i p b w = (.error e, w1) →
    table w1 = table w
  find_none : ∀ i p b w w1, c.findByUniqueIdentifiers i p b w = (.ok none, w1) →
    table w1 = table w ∧ ∀ r ∈ table w, r.identity ≠ (i, p, b)
  find_some : ∀ i p b w record w1, c.findByUniqueIdentifiers i p b w = (.ok (some record), w1) →
    table w1 = table w ∧ record ∈ table w ∧ record.identity = (i, p, b)
  create_error : ∀ d w e w1, c.create d w = (.error e, w1) → table w1 = table w
  create_ok : ∀ d w r w1, c.create d w = (.ok r, w1) →
    table w1 = table w ++ [r] ∧ r.identity = (d.websiteId, d.pathName, d.baseUrl) ∧
      r.status = d.status ∧ (∀ x ∈ table w, x.id ≠ r.id) ∧
      (∀ x ∈ table w, x.identity ≠ r.identity)
  update_error : ∀ id st w e w1, c.updateStatus id st w = (.error e, w1) → table w1 = table w
  update_ok : ∀ id st w n w1, c.updateStatus id st w = (.ok n, w1) →
    table w1 = (table w).map (setStatus id st)
  scrapePage : ∀ url w, table (c.scrapePage url w).2 = table w
  getSummary : ∀ d p i w, table (c.getSummary d p i w).2 = table w
  getPreviousAiSummary : ∀ i w, table (c.getPreviousAiSummary i w).2 = table w
  mergeSummaries : ∀ f p d i w, table (c.mergeSummaries f p d i w).2 = table w
  sendNewSummary : ∀ i m w, table (c.sendNewSummary i m w).2 = table w

/-- The invariant of the store and the queue: the rows have pairwise distinct identities and
pairwise distinct ids, every queue entry is a row whose stored status is `queued`, and the
queue entries have pairwise distinct identities. -/
structure QueueInv (table queue : List ScrapedPath) : Prop where
  identities : (table.map ScrapedPath.identity).Nodup
  ids : (table.map ScrapedPath.id).Nodup
  queued : ∀ q ∈ queue, ∃ r ∈ table,
    r.id = q.id ∧ r.identity = q.identity ∧ r.status = .queued
  distinct : (queue.map ScrapedPath.identity).Nodup

/-- A call of `addRequest` or of `processNextItem`, run to completion. -/
inductive QueueOp
  | addRequest (requestData : RequestData)
  | processNextItem
deriving DecidableEq, Repr

/-- The state after one call. -/
def QueueOp.run {σ : Type} (c : Collaborators σ) : QueueOp → ModuleState σ → ModuleState σ
  | .addRequest requestData, s => (QueueManager.addRequest c requestData s).2
  | .processNextItem, s => (QueueManager.processNextItem c s).2

/-- The state after a sequence of calls, first to last. -/
def runQueueOps {σ : Type} (c : Collaborators σ) (ops : List QueueOp) (s : ModuleState σ) :
    ModuleState σ :=
  ops.foldl (fun st op => op.run c st) s

/-- An in-memory store in the manner of the mocks of tests/e2e: the world is the list of
rows.  The lookup finds the row of the identity, `create` appends a row with the next id
unless a row already has that identity or that id, `updateStatus` rewrites the status of
the rows with the id, and the fetcher and the services answer as `script` does. -/
def memoryStore (script : Collaborators Unit) : Collaborators (List ScrapedPath) where
  findByUniqueIdentifiers := fun i p b w =>
    (.ok (w.find? fun r => decide (r.identity = (i, p, b))), w)
  create := fun d w =>
    if w.all fun x => decide (x.id ≠ "id-" ++ toString w.length) &&
        decide (x.identity ≠ (d.websiteId, d.pathName, d.baseUrl)) then
      (.ok ⟨"id-" ++ toString w.length, d.websiteId, d.pathName, d.baseUrl, d.status⟩,
        w ++ [⟨"id-" ++ toString w.length, d.websiteId, d.pathName, d.baseUrl, d.status⟩])
    else (.error ⟨"Validation error"⟩, w)
  updateStatus := fun id st w => (.ok (w.countP fun r => decide (r.id = id)), w.map (setStatus id st))
  scrapePage := fun url w => ((script.scrapePage url ()).1, w)
  getSummary := fun d p i w => ((script.getSummary d p i ()).1, w)
  getPreviousAiSummary := fun i w => ((script.getPreviousAiSummary i ()).1, w)
  mergeSummaries := fun f p d i w => ((script.mergeSummaries f p d i ()).1, w)
  sendNewSummary := fun i m w => ((script.sendNewSummary i m ()).1, w)

/-- The module state right after the module is loaded, over an empty in-memory store. -/
def freshMemory : ModuleState (List ScrapedPath) := ⟨[], false, none, [], [], []⟩

/-! ## src/api/validators/scrapeRequestValidator.js and the validation middlewares

A request body is read through the keys the schemas name, each holding a value of the JSON
type its schema asks for, or nothing when the key is absent.  Values of another JSON type
and keys the schemas do not name are outside this model. -/

/-- A segment of the `path` of a Joi error detail: an object key or an array index. -/
inductive PathSegment
  | key (name : String)
  | index (i : Nat)
deriving DecidableEq, Repr

/-- The text of a segment, as `Array.prototype.join` renders it. -/
def PathSegment.str : PathSegment → String
  | .key name => name
  | .index i => toString i

/-- One element of `error.details` of a failed Joi validation: the path of the offending
value, the code of the rule it breaks (Joi calls it `type`) and the text the schema gives
for that code in its `.messages(...)`, if it gives one. -/
structure JoiDetail where
  path : List PathSegment
  type : String
  override : Option String
deriving DecidableEq, Repr

/-- The parts of the Joi library that the schemas rely on and the source does not
determine: the rule `uri(...)` restricted to the schemes http and https, as the error code
it answers with for a non-empty string, if any, and the default text of an error code at a
path. -/
structure JoiLibrary where
  uri : String → Option String
  defaultMessage : List PathSegment → String → String

/-- The character class `[a-zA-Z0-9\-_./]` of the path pattern. -/
def pathCharClass (ch : Char) : Bool :=
  (decide ('a' ≤ ch) && decide (ch ≤ 'z')) ||
  (decide ('A' ≤ ch) && decide (ch ≤ 'Z')) ||
  (decide ('0' ≤ ch) && decide (ch ≤ '9')) ||
  ch == '-' || ch == '_' || ch == '.' || ch == '/'

/-- The test `/^\/[a-zA-Z0-9\-_./]*$/.test(value)`: the pattern has no flag, so `^` and `$`
are the two ends of the string, and between them come a slash and then any number of
characters of the class. -/
def pathPattern (value : String) : Bool :=
  match value.data with
  | '/' :: rest => rest.all pathCharClass
  | _ => false

/-- The character class `[0-9a-fA-F]`. -/
def hexCharClass (ch : Char) : Bool :=
  (decide ('0' ≤ ch) && decide (ch ≤ '9')) ||
  (decide ('a' ≤ ch) && decide (ch ≤ 'f')) ||
  (decide ('A' ≤ ch) && decide (ch ≤ 'F'))

/-- The test `/^[0-9a-fA-F]{24}$/.test(value)`. -/
def objectIdPattern (value : String) : Bool :=
  value.data.length == 24 && value.data.all hexCharClass

/-- The `validate(value, helpers)` function of the type `objectId` that the call of
`Joi.extend` defines (lines 11-17), as the error code it answers with, if any.  The extended
module `JoiObjectId` offers this type as `JoiObjectId.objectId()`. -/
def JoiObjectId.objectId.validate (value : String) : Option String :=
  if !objectIdPattern value then some "objectId.invalid" else none

/-- The schema `JoiObjectId.string().required().messages(...)` of the key `websiteId`, with
the text `required` for a missing key.  Its type is `string()`, which the extension leaves
as Joi defines it: a missing value breaks `any.required`, the empty string `string.empty`,
and every other string passes.  The type `objectId` is not what the schema instantiates. -/
def websiteIdSchema (required : String) (path : List PathSegment) (value : Option String) :
    List JoiDetail :=
  match value with
  | none => [⟨path, "any.required", some required⟩]
  | some v => if v = "" then [⟨path, "string.empty", none⟩] else []

/-- The schema of the key `path` of an element of `paths` (lines 29-36):
`Joi.string().pattern(...).required()` with its three texts.  Joi answers `string.empty`
for the empty string before it tries the pattern. -/
def pathSchema (path : List PathSegment) (value : Option String) : List JoiDetail :=
  match value with
  | none => [⟨path, "any.required", some "Path is required."⟩]
  | some v =>
    if v = "" then [⟨path, "string.empty", some "Path cannot be empty."⟩]
    else if !pathPattern v then
      [⟨path, "string.pattern.base",
        some "Path must start with / and contain valid URL characters."⟩]
    else []

/-- The schema of the key `needsScraping` (lines 37-42): `Joi.boolean().required()`. -/
def needsScrapingSchema (path : List PathSegment) (value : Option Bool) : List JoiDetail :=
  match value with
  | none => [⟨path, "any.required", some "needsScraping is required."⟩]
  | some _ => []

/-- One element of `paths` in a request body. -/
structure PathItem where
  path : Option String
  needsScraping : Option Bool
deriving DecidableEq, Repr

/-- The body of `POST /scrape-queue`. -/
structure ScrapeRequestBody where
  websiteId : Option String
  paths : Option (List PathItem)
  baseWebsiteUrl : Option String
deriving DecidableEq, Repr

/-- The parameters of `GET /website-paths/:websiteId`: the router fills `websiteId` with the
segment of the URL, which is a string. -/
structure WebsiteIdParams where
  websiteId : String
deriving DecidableEq, Repr

/-- The object schema of an element of `paths`: its keys in the order of the source. -/
def pathItemSchema (path : List PathSegment) (item : PathItem) : List JoiDetail :=
  pathSchema (path ++ [.key "path"]) item.path ++
    needsScrapingSchema (path ++ [.key "needsScraping"]) item.needsScraping

/-- The schema of the key `paths` (lines 27-50): `Joi.array().items(...).min(1).required()`.
With `abortEarly: false` every element is checked, under the path of its index. -/
def pathsSchema (path : List PathSegment) (value : Option (List PathItem)) : List JoiDetail :=
  match value with
  | none => [⟨path, "any.required", some "Paths are required."⟩]
  | some items =>
    (items.enum.flatMap fun entry => pathItemSchema (path ++ [.index entry.1]) entry.2) ++
      (if items.length < 1 then [⟨path, "array.min", some "At least one path is required."⟩]
       else [])

/-- The schema of the key `baseWebsiteUrl` (lines 51-59). -/
def baseWebsiteUrlSchema (joi : JoiLibrary) (path : List PathSegment) (value : Option String) :
    List JoiDetail :=
  match value with
  | none => [⟨path, "any.required", some "baseWebsiteUrl is required."⟩]
  | some v =>
    if v = "" then [⟨path, "string.empty", some "baseWebsiteUrl cannot be empty."⟩]
    else
      match joi.uri v with
      | some code =>
        [⟨path, code,
          if code = "string.uri" then some "baseWebsiteUrl must be a valid URL." else none⟩]
      | none => []

/-- The details of `scrapeRequestSchema.validate(body, { abortEarly: false, ... })`
(lines 21-60); the list is empty exactly when Joi reports no `error`. -/
def scrapeRequestSchema (joi : JoiLibrary) (body : ScrapeRequestBody) : List JoiDetail :=
  websiteIdSchema "websiteId is required." [.key "websiteId"] body.websiteId ++
    pathsSchema [.key "paths"] body.paths ++
    baseWebsiteUrlSchema joi [.key "baseWebsiteUrl"] body.baseWebsiteUrl

/-- The details of `websiteIdParamSchema.validate(params, { abortEarly: false, ... })`
(lines 63-69). -/
def websiteIdParamSchema (params : WebsiteIdParams) : List JoiDetail :=
  websiteIdSchema "websiteId in URL is required." [.key "websiteId"] (some params.websiteId)

/-- One element of the `details` of a `ValidationError`, as the middlewares build it. -/
structure FieldError where
  field : String
  message : String
deriving DecidableEq, Repr

/-- The expression `detail.path.join('.')`. -/
def JoiDetail.field (detail : JoiDetail) : String :=
  ".".intercalate (detail.path.map PathSegment.str)

/-- The text `detail.message`: the override of the schema, or else the default of Joi. -/
def JoiDetail.message (joi : JoiLibrary) (detail : JoiDetail) : String :=
  match detail.override with
  | some text => text
  | none => joi.defaultMessage detail.path detail.type

/-- An instance of `ValidationError` (src/utils/errors.js). -/
structure ValidationError where
  name : String
  message : String
  statusCode : Nat
  errorCode : String
  details : List FieldError
deriving DecidableEq, Repr

/-- The constructor call `new ValidationError(message, details)`. -/
def ValidationError.new (message : String) (details : List FieldError) : ValidationError :=
  ⟨"ValidationError", message, 400, "VALIDATION_ERROR", details⟩

/-- The middleware `validate(schema)` of src/api/middlewares/validationMiddleware.js on a
request body: the error it passes to `next`, or the body it lets through.  The line it logs
is not modelled. -/
def validate {β : Type} (joi : JoiLibrary) (schema : β → List JoiDetail) (body : β) :
    Except ValidationError β :=
  match schema body with
  | [] => .ok body
  | detail :: details =>
    .error (ValidationError.new "Invalid request payload."
      ((detail :: details).map fun d => ⟨d.field, d.message joi⟩))

/-- The inline middleware of `GET /website-paths/:websiteId` (scrapeRoutes.js 16-32). -/
def validateWebsiteIdParam (joi : JoiLibrary) (params : WebsiteIdParams) :
    Except ValidationError WebsiteIdParams :=
  match websiteIdParamSchema params with
  | [] => .ok params
  | detail :: details =>
    .error (ValidationError.new "Invalid websiteId parameter."
      ((detail :: details).map fun d => ⟨d.field, d.message joi⟩))

/-- What the route `GET /website-paths/:websiteId` did with a request: the validation error
passed to `next`, if any, the arguments of the calls of
`ScrapedPathRepository.findByWebsiteId`, and what the controller did, if it was reached. -/
structure RouteOutcome where
  rejected : Option ValidationError
  repositoryCalls : List String
  controller : Option ControllerOutcome
deriving DecidableEq, Repr

/-- The route `GET /website-paths/:websiteId` (scrapeRoutes.js 14-34): the inline middleware
and then, if it lets the request through, `ScrapeController.getWebsitePathStatuses`, which
calls the repository with the parameter. -/
def getWebsitePathsRoute (joi : JoiLibrary)
    (findByWebsiteId : String → Except Error (Option (List PathRow)))
    (params : WebsiteIdParams) : RouteOutcome :=
  match validateWebsiteIdParam joi params with
  | .error error => ⟨some error, [], none⟩
  | .ok value =>
    ⟨none, [value.websiteId],
      some (ScrapeController.getWebsitePathStatuses value.websiteId
        (findByWebsiteId value.websiteId))⟩

/-- A Joi whose uri rule lets every string pass and whose default texts are empty. -/
def testJoi : JoiLibrary := ⟨fun _ => none, fun _ _ => ""⟩

/-! ## src/api/middlewares/errorHandler.js -/

/-- The `err` argument of the error handler, read through what the handler looks at: whether
it is an instance of `CustomError`, and its properties `statusCode`, `errorCode`, `message`
and `details`, each with `none` for a property the value lacks. -/
structure ThrownValue where
  isCustomError : Bool
  statusCode : Option Nat
  errorCode : Option String
  message : Option String
  details : Option (List FieldError)
deriving DecidableEq, Repr

/-- The body of the answer of the error handler; `details` is `none` when the property is
undefined, in which case the JSON has no such key. -/
structure ErrorBody where
  status : String
  code : String
  message : String
  details : Option (List FieldError)
deriving DecidableEq, Repr

/-- The answer `res.status(statusCode).json(body)`. -/
structure ErrorResponse where
  statusCode : Nat
  body : ErrorBody
deriving DecidableEq, Repr

/-- The expression `value || fallback` on a number: 0 and undefined are falsy. -/
def numberOr (value : Option Nat) (fallback : Nat) : Nat :=
  match value with
  | some n => if n = 0 then fallback else n
  | none => fallback

/-- The expression `value || fallback` on a string: the empty string and undefined are
falsy. -/
def stringOr (value : Option String) (fallback : String) : String :=
  match value with
  | some v => if v = "" then fallback else v
  | none => fallback

/-- The middleware `errorHandler(err, req, res, next)` (lines 12-44).  An array is truthy, so
`err.details || undefined` is `err.details`.  The logger call is not modelled. -/
def errorHandler (err : ThrownValue) : ErrorResponse :=
  let statusCode := numberOr err.statusCode 500
  let errorCode := stringOr err.errorCode "INTERNAL_SERVER_ERROR"
  let message := stringOr err.message "An unexpected error occurred."
  let details := err.details
  if !err.isCustomError then
    ⟨500, ⟨"error", "INTERNAL_SERVER_ERROR", "An unexpected server error occurred.", none⟩⟩
  else
    ⟨statusCode, ⟨"error", errorCode, message, details⟩⟩

/-- An instance of `CustomError`, `NotFoundError`, `ScrapingError` or of `CustomError`
itself, none of which sets `details`, as the error handler sees it. -/
def CustomError.thrown (error : CustomError) : ThrownValue :=
  ⟨true, some error.statusCode, some error.errorCode, some error.message, none⟩

/-- An instance of `ValidationError` as the error handler sees it. -/
def ValidationError.thrown (error : ValidationError) : ThrownValue :=
  ⟨true, some error.statusCode, some error.errorCode, some error.message, some error.details⟩

/-- An instance of `ServiceError` as the error handler sees it. -/
def ServiceError.thrown (error : ServiceError) : ThrownValue :=
  ⟨true, some error.statusCode, some error.errorCode, some error.message, none⟩

/-- A plain `Error` as the error handler sees it. -/
def Error.thrown (error : Error) : ThrownValue :=
  ⟨false, none, none, some error.message, none⟩

/-! ## src/core/scraper.js

The page is handled through cheerio.  `cheerio.load` gives the tree of the document, which
the HTML parser always builds with one `body` element; the selectors and `.text()` below
follow cheerio 1.x. -/

/-- A node of the tree: text, a comment, or an element with its tag name (in lower case, as
the parser stores it) and its children.  The attributes are not modelled. -/
inductive DomNode
  | text (data : String)
  | comment (data : String)
  | element (name : String) (children : List DomNode)
deriving Repr

/-- The loaded document `$`, as the children of its `body` element. -/
structure Document where
  body : List DomNode
deriving Repr

mutual
/-- The text content of a node, which is what `.text()` gives for an element: the data of
all text nodes below it, in document order, whatever element they sit in; comments give
nothing. -/
def DomNode.textContent : DomNode → String
  | .text data => data
  | .comment _ => ""
  | .element _ children => DomNode.textContentOfList children
/-- The text contents of a list of nodes, concatenated. -/
def DomNode.textContentOfList : List DomNode → String
  | [] => ""
  | node :: rest => node.textContent ++ DomNode.textContentOfList rest
end

mutual
/-- An element followed by the elements below it, in document order; nothing for a text
node or a comment. -/
def DomNode.elements : DomNode → List DomNode
  | .text _ => []
  | .comment _ => []
  | .element name children => .element name children :: DomNode.elementsOfList children
/-- The elements among a list of nodes and below them, in document order. -/
def DomNode.elementsOfList : List DomNode → List DomNode
  | [] => []
  | node :: rest => node.elements ++ DomNode.elementsOfList rest
end

/-- The elements strictly below a node, in document order: what `.find(...)` searches. -/
def DomNode.descendants : DomNode → List DomNode
  | .element _ children => DomNode.elementsOfList children
  | _ => []

/-- Whether an element matches the selector `script, style, noscript, iframe`. -/
def DomNode.isExcluded : DomNode → Bool
  | .element name _ => name == "script" || name == "style" || name == "noscript"
      || name == "iframe"
  | _ => false

/-- The characters that `\s` matches and that `trim` removes: the white space and line
terminators of ECMAScript. -/
def isJsWhitespace (ch : Char) : Bool :=
  ch.toNat == 0x09 || ch.toNat == 0x0A || ch.toNat == 0x0B || ch.toNat == 0x0C
    || ch.toNat == 0x0D || ch.toNat == 0x20 || ch.toNat == 0xA0 || ch.toNat == 0x1680
    || (decide (0x2000 ≤ ch.toNat) && decide (ch.toNat ≤ 0x200A))
    || ch.toNat == 0x2028 || ch.toNat == 0x2029 || ch.toNat == 0x202F || ch.toNat == 0x205F
    || ch.toNat == 0x3000 || ch.toNat == 0xFEFF

/-- The call `.replace(/\s+/g, ' ')` on the characters still to be read; `inRun` tells
whether the character just before them was white space, in which case the run they
continue has already been replaced. -/
def collapseWhitespaceFrom (inRun : Bool) : List Char → List Char
  | [] => []
  | ch :: rest =>
    if isJsWhitespace ch then
      if inRun then collapseWhitespaceFrom true rest
      else ' ' :: collapseWhitespaceFrom true rest
    else ch :: collapseWhitespaceFrom false rest

/-- The call `.replace(/\s+/g, ' ')` on the characters of a string: every maximal run of
white space becomes one space. -/
def collapseWhitespace (chars : List Char) : List Char :=
  collapseWhitespaceFrom false chars

/-- The call `.trim()` on the characters of a string. -/
def jsTrim (chars : List Char) : List Char :=
  ((chars.dropWhile isJsWhitespace).reverse.dropWhile isJsWhitespace).reverse

/-- The method `Scraper.extractText($)` (lines 49-59): the `body` element, kept by
`.not(...)` since it is none of the four; its descendant elements that are none of the four;
the text content of each; joined by a space, collapsed and trimmed. -/
def Scraper.extractText (document : Document) : String :=
  let body := [DomNode.element "body" document.body].filter fun el => !el.isExcluded
  let found := body.flatMap fun el => el.descendants.filter fun d => !d.isExcluded
  let texts := found.map DomNode.textContent
  String.mk (jsTrim (collapseWhitespace (" ".intercalate texts).data))

/-- The parts of the page handling that `scrapePage` relies on and that are not modelled:
`cheerio.load` on the body of the answer, which may throw, and the methods `extractForms`
and `extractButtons`, which read attributes. -/
structure Cheerio (δ : Type) where
  load : δ → Except Error Document
  extractForms : Document → List FormDetails
  extractButtons : Document → List ButtonDetails

/-- The method `Scraper.scrapePage(url)` (lines 13-42).  `response.status` is an HTTP status
code, so its decimal text is what the template literal shows. -/
def Scraper.scrapePage {τ δ : Type} (axios : Axios τ δ) (cheerio : Cheerio δ) (url : String)
    (h : HttpState τ) : Except Error ScrapedData × HttpState τ :=
  let sent := h.send axios
    ⟨.get, url, none,
      some ⟨some 30000,
        [("User-Agent", "ChatBot Hub Scraper/1.0 (+https://chatboth.com/scraper-info)")]⟩⟩
  let tried : Except Error ScrapedData :=
    match sent.1 with
    | .ok response =>
      if response.status ≠ 200 then
        .error ⟨"Failed to fetch page, status: " ++ toString response.status⟩
      else
        match cheerio.load response.data with
        | .ok document =>
          .ok ⟨Scraper.extractText document, cheerio.extractForms document,
            cheerio.extractButtons document⟩
        | .error error => .error error
    | .error error => .error ⟨error.message⟩
  match tried with
  | .ok extractedData => (.ok extractedData, sent.2)
  | .error error =>
    (.error ⟨"Scraping failed for " ++ url ++ ": " ++ error.message⟩,
      { sent.2 with logs := sent.2.logs ++
        [⟨.error, "Error scraping URL " ++ url ++ ": " ++ error.message⟩] })

/-- A page handling for the tests: the body of the answer is the document itself, and no
form or button is found. -/
def testCheerio : Cheerio Document := ⟨fun document => .ok document, fun _ => [], fun _ => []⟩

/-- The document of the test 'should extract text correctly, ignoring script and style
tags', white space between the elements included. -/
def testDocument : Document :=
  ⟨[.text "\n            ", .element "p" [.text "Visible text."], .text "\n            ",
    .element "script" [.text "console.log(\x27hidden script\x27);"], .text "\n            ",
    .element "style" [.text "body \x7b color: red; \x7d"], .text "\n            ",
    .element "span" [.text "More visible text."], .text "\n          \n\n      "]⟩

/-- A document whose only text sits in a `noscript` element inside a `div`. -/
def nestedNoscriptDocument : Document :=
  ⟨[.element "div" [.element "noscript" [.text "hidden"]]]⟩

/-! ## Reading the intake off the call log -/

/-- Whether a logged call is one that puts an entry into the queue: a `create` that the
store accepted, or an accepted `updateStatus(id, 'queued')`, which intake issues for a
record found `scraped` or `failed`. -/
def CallRecord.enqueues (r : CallRecord) : Bool :=
  match r.error, r.call with
  | none, .create _ => true
  | none, .updateStatus _ .queued => true
  | _, _ => false

/-- Whether a result of `addRequest` reports a path as put into the queue: its status is
`queued` and it is not the answer for a path that was already there. -/
def PathResult.reportsEnqueued (r : PathResult) : Bool :=
  r.status == "queued" && r.message != "Already in queue or being scraped."

/-- Whether a call goes to the store (`ScrapedPathRepository`). -/
def Call.isStoreCall : Call → Bool
  | .findByUniqueIdentifiers _ _ _ => true
  | .create _ => true
  | .updateStatus _ _ => true
  | _ => false

/-- Whether no call to the store in a log threw. -/
def storeNeverErred (log : List CallRecord) : Bool :=
  log.all fun r => !r.call.isStoreCall || r.error.isNone

/-- The queue and the store agree: the invariant `QueueInv`, and every row stored as
`queued` has an entry in the queue. -/
structure QueueSync (table queue : List ScrapedPath) : Prop where
  inv : QueueInv table queue
  covered : ∀ r ∈ table, r.status = .queued → ∃ q ∈ queue, q.id = r.id

/-- The handles handed out so far are below the next one: those of the intervals that are
set and those that were cleared. -/
def Runtime.HandlesBelowNext {σ : Type} (rt : Runtime σ) : Prop :=
  (∀ i ∈ rt.intervals, i.handle < rt.nextHandle) ∧ ∀ handle ∈ rt.cleared, handle < rt.nextHandle

/-- The row `r` with the status that the accepted writes of a log leave it with. -/
def replayWrites (log : List CallRecord) (r : ScrapedPath) : ScrapedPath :=
  { r with status := storedStatus r.id r.status log }

/-- Mocks in which every step succeeds but the store refuses the final write of `scraped`. -/
def lastWriteFailsMocks : Collaborators Unit :=
  pipelineMocks
    (fun st => if st = .scraped then .error ⟨"DB connection lost"⟩ else .ok 1)
    (.ok demoPage) (.ok ⟨some "S1"⟩) (.ok ⟨some "S0"⟩) (.ok ⟨some "S2"⟩) (.ok ())

/-! ## Basic facts about the loop of `addRequest` -/

theorem addRequestFrom_nil {σ : Type} (c : Collaborators σ) (websiteId baseWebsiteUrl : String)
    (results : List PathResult) (s : ModuleState σ) :
    QueueManager.addRequestFrom c websiteId baseWebsiteUrl [] results s = (.ok results, s) :=
  rfl

theorem addRequestFrom_cons {σ : Type} (c : Collaborators σ) (websiteId baseWebsiteUrl : String)
    (pathObj : PathObj) (rest : List PathObj) (results results1 : List PathResult)
    (s s1 : ModuleState σ)
    (h : QueueManager.addRequestPath c websiteId baseWebsiteUrl pathObj results s
      = (.ok results1, s1)) :
    QueueManager.addRequestFrom c websiteId baseWebsiteUrl (pathObj :: rest) results s =
      QueueManager.addRequestFrom c websiteId baseWebsiteUrl rest results1 s1 := by
  simp only [QueueManager.addRequestFrom, bind, Eff.bind, h]

/-- What one visit of the loop body does, whatever the collaborators do: it returns (it never
throws), it appends exactly one result, for the entry's path, and neither that result nor
the state it leaves depends on the results collected so far. -/
theorem addRequestPath_spec {σ : Type} (c : Collaborators σ) (websiteId baseWebsiteUrl : String)
    (pathObj : PathObj) (s : ModuleState σ) :
    ∃ (status message : String) (s1 : ModuleState σ),
      ∀ results, QueueManager.addRequestPath c websiteId baseWebsiteUrl pathObj results s
        = (.ok (results ++ [⟨pathObj.path, status, message⟩]), s1) := by
  obtain ⟨path, needsScraping⟩ := pathObj
  cases needsScraping with
  | false => simp [QueueManager.addRequestPath, pure, Eff.pure]
  | true =>
    rcases hfind : c.findByUniqueIdentifiers websiteId path baseWebsiteUrl s.world
      with ⟨_ | found, w⟩
    · simp [QueueManager.addRequestPath, bind, pure, Eff.bind, Eff.pure, Eff.tryCatch, invoke,
        hfind, thrown, logger.error]
    · cases found with
      | none =>
        rcases hcreate : c.create ⟨websiteId, path, baseWebsiteUrl, .queued⟩ w with ⟨_ | r, w1⟩
        all_goals
          simp [QueueManager.addRequestPath, bind, pure, Eff.bind, Eff.pure, Eff.tryCatch,
            invoke, hfind, hcreate, thrown, logger.error, scrapeQueue.push, SCRAPE_STATUS.QUEUED]
      | some record =>
        rcases hupdate : c.updateStatus record.id .queued w with ⟨_ | n, w1⟩ <;>
        rcases hstatus : record.status
        all_goals
          simp [QueueManager.addRequestPath, bind, pure, Eff.bind, Eff.pure, Eff.tryCatch,
            invoke, hfind, hupdate, hstatus, thrown, scrapeQueue.push, logger.error,
            logger.warn, SCRAPE_STATUS.QUEUED, SCRAPE_STATUS.SCRAPING, SCRAPE_STATUS.SCAPED,
            SCRAPE_STATUS.FAILED]

/-- The loop over any list of entries returns, appends one result per entry in order, and
neither the appended results nor the final state depend on the results collected before. -/
theorem addRequestFrom_spec {σ : Type} (c : Collaborators σ) (websiteId baseWebsiteUrl : String)
    (paths : List PathObj) (s : ModuleState σ) :
    ∃ (rs : List PathResult) (s1 : ModuleState σ),
      rs.map PathResult.pathName = paths.map PathObj.path ∧
      ∀ results, QueueManager.addRequestFrom c websiteId baseWebsiteUrl paths results s
        = (.ok (results ++ rs), s1) := by
  induction paths generalizing s with
  | nil => exact ⟨[], s, rfl, fun results => by simp [addRequestFrom_nil]⟩
  | cons pathObj rest ih =>
    obtain ⟨status, message, s1, h1⟩ :=
      addRequestPath_spec c websiteId baseWebsiteUrl pathObj s
    obtain ⟨rs, s2, hmap, h2⟩ := ih s1
    refine ⟨⟨pathObj.path, status, message⟩ :: rs, s2, by simp [hmap], fun results => ?_⟩
    rw [addRequestFrom_cons c websiteId baseWebsiteUrl pathObj rest results _ s s1 (h1 results),
      h2]
    simp

/-- The loop over `xs ++ ys` is the loop over `xs` followed by the loop over `ys`. -/
theorem addRequestFrom_append {σ : Type} (c : Collaborators σ)
    (websiteId baseWebsiteUrl : String) (xs ys : List PathObj) (results results1 : List PathResult)
    (s s1 : ModuleState σ)
    (h : QueueManager.addRequestFrom c websiteId baseWebsiteUrl xs results s
      = (.ok results1, s1)) :
    QueueManager.addRequestFrom c websiteId baseWebsiteUrl (xs ++ ys) results s =
      QueueManager.addRequestFrom c websiteId baseWebsiteUrl ys results1 s1 := by
  induction xs generalizing results s with
  | nil =>
    rw [addRequestFrom_nil] at h
    cases h
    rfl
  | cons pathObj rest ih =>
    obtain ⟨status, message, s2, h1⟩ :=
      addRequestPath_spec c websiteId baseWebsiteUrl pathObj s
    rw [addRequestFrom_cons c websiteId baseWebsiteUrl pathObj rest results _ s s2
      (h1 results)] at h
    rw [List.cons_append,
      addRequestFrom_cons c websiteId baseWebsiteUrl pathObj (rest ++ ys) results _ s s2
        (h1 results)]
    exact ih _ _ h

/-- If a store call made while visiting an entry threw `e`, the entry's result is the
`failed` one carrying `e.message` and the queue is as before the visit. -/
theorem addRequestPath_failure {σ : Type} (c : Collaborators σ)
    (websiteId baseWebsiteUrl : String) (pathObj : PathObj) (results : List PathResult)
    (s : ModuleState σ) (e : Error)
    (h : ∃ call, (⟨call, some e⟩ : CallRecord) ∈ callsSince s
      (QueueManager.addRequestPath c websiteId baseWebsiteUrl pathObj results s).2) :
    (QueueManager.addRequestPath c websiteId baseWebsiteUrl pathObj results s).1
        = .ok (results ++ [⟨pathObj.path, "failed", "Failed to queue: " ++ e.message⟩]) ∧
      (QueueManager.addRequestPath c websiteId baseWebsiteUrl pathObj results s).2.scrapeQueue
        = s.scrapeQueue := by
  obtain ⟨path, needsScraping⟩ := pathObj
  cases needsScraping with
  | false => simp [QueueManager.addRequestPath, pure, Eff.pure, callsSince] at h
  | true =>
    rcases hfind : c.findByUniqueIdentifiers websiteId path baseWebsiteUrl s.world
      with ⟨_ | found, w⟩
    · simp [QueueManager.addRequestPath, bind, pure, Eff.bind, Eff.pure, Eff.tryCatch, invoke,
        hfind, thrown, logger.error, callsSince] at h ⊢
      simp [h, Status.str, SCRAPE_STATUS.FAILED]
    · cases found with
      | none =>
        rcases hcreate : c.create ⟨websiteId, path, baseWebsiteUrl, .queued⟩ w with ⟨_ | r, w1⟩
        all_goals
          simp [QueueManager.addRequestPath, bind, pure, Eff.bind, Eff.pure, Eff.tryCatch,
            invoke, hfind, hcreate, thrown, logger.error, scrapeQueue.push, SCRAPE_STATUS.QUEUED,
            callsSince] at h ⊢
        simp [h, Status.str, SCRAPE_STATUS.FAILED]
      | some record =>
        rcases hupdate : c.updateStatus record.id .queued w with ⟨_ | n, w1⟩ <;>
        rcases hstatus : record.status
        all_goals
          simp [QueueManager.addRequestPath, bind, pure, Eff.bind, Eff.pure, Eff.tryCatch,
            invoke, hfind, hupdate, hstatus, thrown, scrapeQueue.push, logger.error,
            logger.warn, SCRAPE_STATUS.QUEUED, SCRAPE_STATUS.SCRAPING, SCRAPE_STATUS.SCAPED,
            SCRAPE_STATUS.FAILED, callsSince] at h ⊢
        all_goals simp [h, Status.str]

/-! ## Job intake: the four branches of `addRequest` -/

/-- C1. When the loop of `addRequest` visits an entry with `needsScraping` true and the store
answers the lookup of (websiteId, path, baseWebsiteUrl) with a record whose status is
`queued` or `scraping`, the only store call made for the entry is that lookup (so neither
`create` nor `updateStatus` is called), the queue and the other module variables are
unchanged, and exactly one result is appended: the record's own status with the message
'Already in queue or being scraped.'.  The loop then goes on with the remaining entries. -/
theorem addRequest_already_queued_or_scraping {σ : Type} (c : Collaborators σ)
    (websiteId baseWebsiteUrl path : String) (rest : List PathObj) (results : List PathResult)
    (s : ModuleState σ) (record : ScrapedPath) (w : σ)
    (hfind : c.findByUniqueIdentifiers websiteId path baseWebsiteUrl s.world
      = (.ok (some record), w))
    (hstatus : record.status = .queued ∨ record.status = .scraping) :
    QueueManager.addRequestFrom c websiteId baseWebsiteUrl (⟨path, true⟩ :: rest) results s =
      QueueManager.addRequestFrom c websiteId baseWebsiteUrl rest
        (results ++ [⟨path, record.status.str, "Already in queue or being scraped."⟩])
        { s with
          world := w
          calls := s.calls ++ [⟨.findByUniqueIdentifiers websiteId path baseWebsiteUrl, none⟩]
          logs := s.logs ++ [⟨.warn, "Path " ++ path ++ " for website " ++ websiteId
            ++ " already in queue or scraping."⟩] } := by
  apply addRequestFrom_cons
  simp [QueueManager.addRequestPath, bind, pure, Eff.bind, Eff.pure, Eff.tryCatch, invoke,
    hfind, hstatus, thrown, logger.warn, SCRAPE_STATUS.QUEUED, SCRAPE_STATUS.SCRAPING]

/-- C1 at the input of the test 'should not re-queue a path if its status is QUEUED or
SCRAPING': the queue stays empty and the result reports `queued`. -/
theorem addRequest_already_queued_or_scraping_witness :
    (intakeMocks (.ok (some (blogRecord .queued))) (.ok 1)).findByUniqueIdentifiers
        "test-website-id" "/blog" "https://test.com" freshState.world
      = (.ok (some (blogRecord .queued)), ()) ∧
    QueueManager.addRequest (intakeMocks (.ok (some (blogRecord .queued))) (.ok 1))
        ⟨"test-website-id", [⟨"/blog", true⟩], "https://test.com"⟩ freshState =
      (.ok [⟨"/blog", "queued", "Already in queue or being scraped."⟩],
        { freshState with
          calls := [⟨.findByUniqueIdentifiers "test-website-id" "/blog" "https://test.com", none⟩]
          logs := [⟨.warn,
            "Path /blog for website test-website-id already in queue or scraping."⟩] }) :=
  ⟨rfl, (addRequest_already_queued_or_scraping
    (intakeMocks (.ok (some (blogRecord .queued))) (.ok 1))
    "test-website-id" "https://test.com" "/blog" [] [] freshState (blogRecord .queued) ()
    rfl (Or.inl rfl)).trans rfl⟩

/-- C2, as stated, fails when the status write is refused: the store answers the lookup
with a `failed` record and `updateStatus` throws.  The entry is then reported `failed`, not
`queued`, and the record is not appended to the queue. -/
theorem addRequest_requeue_counterexample :
    (intakeMocks (.ok (some (blogRecord .failed)))
        (.error ⟨"DB connection lost"⟩)).findByUniqueIdentifiers
        "test-website-id" "/blog" "https://test.com" freshState.world
      = (.ok (some (blogRecord .failed)), ()) ∧
    (QueueManager.addRequest
        (intakeMocks (.ok (some (blogRecord .failed))) (.error ⟨"DB connection lost"⟩))
        ⟨"test-website-id", [⟨"/blog", true⟩], "https://test.com"⟩ freshState).1
      = .ok [⟨"/blog", "failed", "Failed to queue: DB connection lost"⟩] ∧
    (QueueManager.addRequest
        (intakeMocks (.ok (some (blogRecord .failed))) (.error ⟨"DB connection lost"⟩))
        ⟨"test-website-id", [⟨"/blog", true⟩], "https://test.com"⟩ freshState).2.scrapeQueue
      = [] :=
  ⟨rfl, rfl, rfl⟩

/-- C2, amended.  When the loop of `addRequest` visits an entry with `needsScraping` true and
the store answers the lookup with a record whose status is `scraped` or `failed`, the store
calls made for the entry are exactly the lookup followed by one
`updateStatus(record.id, 'queued')` (so `create` is not called); and when that status write
succeeds, the found record itself is appended once to the tail of the queue, nothing else
in the module state changes, and one result with status `queued` is appended. -/
theorem addRequest_requeue {σ : Type} (c : Collaborators σ)
    (websiteId baseWebsiteUrl path : String) (results : List PathResult)
    (s : ModuleState σ) (record : ScrapedPath) (w : σ)
    (hfind : c.findByUniqueIdentifiers websiteId path baseWebsiteUrl s.world
      = (.ok (some record), w))
    (hstatus : record.status = .scraped ∨ record.status = .failed) :
    (QueueManager.addRequestFrom c websiteId baseWebsiteUrl [⟨path, true⟩] results s).2.calls
      = s.calls ++ [⟨.findByUniqueIdentifiers websiteId path baseWebsiteUrl, none⟩,
          ⟨.updateStatus record.id .queued, thrown (c.updateStatus record.id .queued w).1⟩] ∧
    ∀ (n : Nat) (w1 : σ), c.updateStatus record.id .queued w = (.ok n, w1) →
      ∀ rest : List PathObj,
        QueueManager.addRequestFrom c websiteId baseWebsiteUrl (⟨path, true⟩ :: rest) results s =
          QueueManager.addRequestFrom c websiteId baseWebsiteUrl rest
            (results ++ [⟨path, "queued",
              if record.status = .scraped then "Re-queued existing path."
              else "Re-queued failed path."⟩])
            { s with
              scrapeQueue := s.scrapeQueue ++ [record]
              world := w1
              calls := s.calls ++
                [⟨.findByUniqueIdentifiers websiteId path baseWebsiteUrl, none⟩,
                 ⟨.updateStatus record.id .queued, none⟩] } := by
  constructor
  · rcases hupdate : c.updateStatus record.id .queued w with ⟨_ | n, w1⟩ <;>
    rcases hstatus with hstatus | hstatus <;>
    simp [QueueManager.addRequestFrom, QueueManager.addRequestPath, bind, pure, Eff.bind,
      Eff.pure, Eff.tryCatch, invoke, hfind, hupdate, hstatus, thrown, scrapeQueue.push,
      logger.error, SCRAPE_STATUS.QUEUED, SCRAPE_STATUS.SCRAPING, SCRAPE_STATUS.SCAPED,
      SCRAPE_STATUS.FAILED]
  · intro n w1 hupdate rest
    apply addRequestFrom_cons
    rcases hstatus with hstatus | hstatus <;>
    simp [QueueManager.addRequestPath, bind, pure, Eff.bind,
      Eff.pure, Eff.tryCatch, invoke, hfind, hupdate, hstatus, thrown, scrapeQueue.push,
      Status.str, SCRAPE_STATUS.QUEUED, SCRAPE_STATUS.SCRAPING, SCRAPE_STATUS.SCAPED,
      SCRAPE_STATUS.FAILED]

/-- The amended C2 at the input of the test 'should re-queue an existing path if its status
is FAILED': one queue entry, the found record, and a `queued` result. -/
theorem addRequest_requeue_witness :
    (intakeMocks (.ok (some (blogRecord .failed))) (.ok 1)).findByUniqueIdentifiers
        "test-website-id" "/blog" "https://test.com" freshState.world
      = (.ok (some (blogRecord .failed)), ()) ∧
    (intakeMocks (.ok (some (blogRecord .failed))) (.ok 1)).updateStatus "path-id" .queued ()
      = (.ok 1, ()) ∧
    QueueManager.addRequest (intakeMocks (.ok (some (blogRecord .failed))) (.ok 1))
        ⟨"test-website-id", [⟨"/blog", true⟩], "https://test.com"⟩ freshState =
      (.ok [⟨"/blog", "queued", "Re-queued failed path."⟩],
        { freshState with
          scrapeQueue := [blogRecord .failed]
          calls := [⟨.findByUniqueIdentifiers "test-website-id" "/blog" "https://test.com", none⟩,
            ⟨.updateStatus "path-id" .queued, none⟩] }) :=
  ⟨rfl, rfl, ((addRequest_requeue (intakeMocks (.ok (some (blogRecord .failed))) (.ok 1))
    "test-website-id" "https://test.com" "/blog" [] freshState (blogRecord .failed) ()
    rfl (Or.inr rfl)).2 1 () rfl []).trans rfl⟩

/-- C3, as stated, fails when `create` is refused: the store answers the lookup with no
record and `create` throws (as it does on a violated uniqueness constraint).  The entry is
then reported `failed`, not `queued`, and nothing is appended to the queue. -/
theorem addRequest_new_path_counterexample :
    createFailsMocks.findByUniqueIdentifiers
        "test-website-id" "/blog" "https://test.com" freshState.world = (.ok none, ()) ∧
    (QueueManager.addRequest createFailsMocks
        ⟨"test-website-id", [⟨"/blog", true⟩], "https://test.com"⟩ freshState).1
      = .ok [⟨"/blog", "failed", "Failed to queue: Validation error"⟩] ∧
    (QueueManager.addRequest createFailsMocks
        ⟨"test-website-id", [⟨"/blog", true⟩], "https://test.com"⟩ freshState).2.scrapeQueue
      = [] :=
  ⟨rfl, rfl, rfl⟩

/-- C3, amended.  When the loop of `addRequest` visits an entry with `needsScraping` true and
the store answers the lookup of (websiteId, path, baseWebsiteUrl) with no record, the store
calls made for the entry are exactly the lookup followed by one `create` with
{websiteId, pathName: path, baseUrl: baseWebsiteUrl, status: 'queued'}; and when that
`create` returns a record, this record is appended to the tail of the queue, nothing else
in the module state changes, and one result with status `queued` is appended. -/
theorem addRequest_new_path {σ : Type} (c : Collaborators σ)
    (websiteId baseWebsiteUrl path : String) (results : List PathResult)
    (s : ModuleState σ) (w : σ)
    (hfind : c.findByUniqueIdentifiers websiteId path baseWebsiteUrl s.world = (.ok none, w)) :
    (QueueManager.addRequestFrom c websiteId baseWebsiteUrl [⟨path, true⟩] results s).2.calls
      = s.calls ++ [⟨.findByUniqueIdentifiers websiteId path baseWebsiteUrl, none⟩,
          ⟨.create ⟨websiteId, path, baseWebsiteUrl, .queued⟩,
            thrown (c.create ⟨websiteId, path, baseWebsiteUrl, .queued⟩ w).1⟩] ∧
    ∀ (newRecord : ScrapedPath) (w1 : σ),
      c.create ⟨websiteId, path, baseWebsiteUrl, .queued⟩ w = (.ok newRecord, w1) →
      ∀ rest : List PathObj,
        QueueManager.addRequestFrom c websiteId baseWebsiteUrl (⟨path, true⟩ :: rest) results s =
          QueueManager.addRequestFrom c websiteId baseWebsiteUrl rest
            (results ++ [⟨path, "queued", "New path queued successfully."⟩])
            { s with
              scrapeQueue := s.scrapeQueue ++ [newRecord]
              world := w1
              calls := s.calls ++
                [⟨.findByUniqueIdentifiers websiteId path baseWebsiteUrl, none⟩,
                 ⟨.create ⟨websiteId, path, baseWebsiteUrl, .queued⟩, none⟩] } := by
  constructor
  · rcases hcreate : c.create ⟨websiteId, path, baseWebsiteUrl, .queued⟩ w with ⟨_ | r, w1⟩ <;>
    simp [QueueManager.addRequestFrom, QueueManager.addRequestPath, bind, pure, Eff.bind,
      Eff.pure, Eff.tryCatch, invoke, hfind, hcreate, thrown, scrapeQueue.push, logger.error,
      SCRAPE_STATUS.QUEUED]
  · intro newRecord w1 hcreate rest
    apply addRequestFrom_cons
    simp [QueueManager.addRequestPath, bind, pure, Eff.bind, Eff.pure, Eff.tryCatch, invoke,
      hfind, hcreate, thrown, scrapeQueue.push, Status.str, SCRAPE_STATUS.QUEUED]

/-- The amended C3 at the input of the test 'should add new paths to the queue and
database': one queue entry, the created record, and a `queued` result. -/
theorem addRequest_new_path_witness :
    (intakeMocks (.ok none) (.ok 1)).findByUniqueIdentifiers
        "test-website-id" "/blog" "https://test.com" freshState.world = (.ok none, ()) ∧
    (intakeMocks (.ok none) (.ok 1)).create
        ⟨"test-website-id", "/blog", "https://test.com", .queued⟩ ()
      = (.ok ⟨"new-id", "test-website-id", "/blog", "https://test.com", .queued⟩, ()) ∧
    QueueManager.addRequest (intakeMocks (.ok none) (.ok 1))
        ⟨"test-website-id", [⟨"/blog", true⟩], "https://test.com"⟩ freshState =
      (.ok [⟨"/blog", "queued", "New path queued successfully."⟩],
        { freshState with
          scrapeQueue := [⟨"new-id", "test-website-id", "/blog", "https://test.com", .queued⟩]
          calls := [⟨.findByUniqueIdentifiers "test-website-id" "/blog" "https://test.com", none⟩,
            ⟨.create ⟨"test-website-id", "/blog", "https://test.com", .queued⟩, none⟩] }) :=
  ⟨rfl, rfl, ((addRequest_new_path (intakeMocks (.ok none) (.ok 1))
    "test-website-id" "https://test.com" "/blog" [] freshState () rfl).2
    ⟨"new-id", "test-website-id", "/blog", "https://test.com", .queued⟩ () rfl []).trans rfl⟩

/-- C4. When the loop of `addRequest` visits an entry whose `needsScraping` is false, the
whole state is left as it was (no collaborator is called, so no `find`, `create` or
`updateStatus`; the queue is not touched) and one result with status `skipped` is
appended. -/
theorem addRequest_skipped {σ : Type} (c : Collaborators σ)
    (websiteId baseWebsiteUrl path : String) (rest : List PathObj) (results : List PathResult)
    (s : ModuleState σ) :
    QueueManager.addRequestFrom c websiteId baseWebsiteUrl (⟨path, false⟩ :: rest) results s =
      QueueManager.addRequestFrom c websiteId baseWebsiteUrl rest
        (results ++ [⟨path, "skipped", "Scraping not requested for this path."⟩]) s := by
  apply addRequestFrom_cons
  simp [QueueManager.addRequestPath, pure, Eff.pure]

/-! ## Job intake: failures and the shape of the answer -/

/-- C5. Take any batch `pre ++ pathObj :: post` and any behaviour of the store.  If one of
the store calls made for `pathObj` (those logged between the end of `pre` and the end of
`pre ++ [pathObj]`) threw `e`, then: the call of `addRequest` on the whole batch returns
(it does not throw); it is the run on `pre`, then the run on `pathObj` alone, then the run
on `post` alone, each started in the state the previous one left and each returning, with
the results concatenated; the result for `pathObj` has status `failed` and the message
'Failed to queue: ' followed by `e.message`; and the queue after `pathObj` is the queue
before it. -/
theorem addRequest_store_failure_isolated {σ : Type} (c : Collaborators σ)
    (websiteId baseWebsiteUrl : String) (pre post : List PathObj) (pathObj : PathObj)
    (s0 : ModuleState σ) (e : Error)
    (hfail : ∃ call, (⟨call, some e⟩ : CallRecord) ∈ callsSince
      (QueueManager.addRequest c ⟨websiteId, pre, baseWebsiteUrl⟩ s0).2
      (QueueManager.addRequest c ⟨websiteId, pre ++ [pathObj], baseWebsiteUrl⟩ s0).2) :
    ∃ (rpre rpost : List PathResult) (s1 s2 s3 : ModuleState σ),
      QueueManager.addRequest c ⟨websiteId, pre, baseWebsiteUrl⟩ s0 = (.ok rpre, s1) ∧
      QueueManager.addRequest c ⟨websiteId, [pathObj], baseWebsiteUrl⟩ s1
        = (.ok [⟨pathObj.path, "failed", "Failed to queue: " ++ e.message⟩], s2) ∧
      s2.scrapeQueue = s1.scrapeQueue ∧
      QueueManager.addRequest c ⟨websiteId, post, baseWebsiteUrl⟩ s2 = (.ok rpost, s3) ∧
      QueueManager.addRequest c ⟨websiteId, pre ++ pathObj :: post, baseWebsiteUrl⟩ s0
        = (.ok (rpre ++ ⟨pathObj.path, "failed", "Failed to queue: " ++ e.message⟩ :: rpost),
            s3) := by
  obtain ⟨rpre, s1, -, hpre⟩ := addRequestFrom_spec c websiteId baseWebsiteUrl pre s0
  obtain ⟨status, message, s2, hp⟩ := addRequestPath_spec c websiteId baseWebsiteUrl pathObj s1
  obtain ⟨rpost, s3, -, hpost⟩ := addRequestFrom_spec c websiteId baseWebsiteUrl post s2
  have e1 : QueueManager.addRequestFrom c websiteId baseWebsiteUrl pre [] s0
      = (.ok rpre, s1) := by simpa using hpre []
  have e2 : ∀ rest results, QueueManager.addRequestFrom c websiteId baseWebsiteUrl
      (pathObj :: rest) results s1 = QueueManager.addRequestFrom c websiteId baseWebsiteUrl
        rest (results ++ [⟨pathObj.path, status, message⟩]) s2 := fun rest results =>
    addRequestFrom_cons c websiteId baseWebsiteUrl pathObj rest results _ s1 s2 (hp results)
  have e12 : QueueManager.addRequestFrom c websiteId baseWebsiteUrl (pre ++ [pathObj]) [] s0
      = (.ok (rpre ++ [⟨pathObj.path, status, message⟩]), s2) := by
    rw [addRequestFrom_append c websiteId baseWebsiteUrl pre [pathObj] [] rpre s0 s1 e1, e2,
      addRequestFrom_nil]
  have hfail1 : ∃ call, (⟨call, some e⟩ : CallRecord) ∈ callsSince s1
      (QueueManager.addRequestPath c websiteId baseWebsiteUrl pathObj [] s1).2 := by
    simpa [QueueManager.addRequest, e1, e12, hp] using hfail
  have hres := addRequestPath_failure c websiteId baseWebsiteUrl pathObj [] s1 e hfail1
  rw [hp []] at hres
  simp only [List.nil_append, Except.ok.injEq, List.cons.injEq, PathResult.mk.injEq, true_and,
    and_true] at hres
  obtain ⟨⟨hstatus, hmessage⟩, hqueue⟩ := hres
  subst hstatus hmessage
  refine ⟨rpre, rpost, s1, s2, s3, e1, ?_, hqueue, ?_, ?_⟩
  · simp [QueueManager.addRequest, e2, addRequestFrom_nil]
  · simpa [QueueManager.addRequest] using hpost []
  · simp only [QueueManager.addRequest]
    rw [addRequestFrom_append c websiteId baseWebsiteUrl pre (pathObj :: post) [] rpre s0 s1 e1,
      e2, hpost]
    simp

/-- C5 at the input of the test 'should handle database errors during addRequest', with a
second entry after the failing one: the lookup throws for both, each is reported `failed`,
and the call returns. -/
theorem addRequest_store_failure_isolated_witness :
    (∃ call, (⟨call, some ⟨"DB connection lost"⟩⟩ : CallRecord) ∈ callsSince
      (QueueManager.addRequest (intakeMocks (.error ⟨"DB connection lost"⟩) (.ok 1))
        ⟨"test-website-id", [], "https://test.com"⟩ freshState).2
      (QueueManager.addRequest (intakeMocks (.error ⟨"DB connection lost"⟩) (.ok 1))
        ⟨"test-website-id", [] ++ [⟨"/blog", true⟩], "https://test.com"⟩ freshState).2) ∧
    ∃ (rpre rpost : List PathResult) (s1 s2 s3 : ModuleState Unit),
      QueueManager.addRequest (intakeMocks (.error ⟨"DB connection lost"⟩) (.ok 1))
        ⟨"test-website-id", [], "https://test.com"⟩ freshState = (.ok rpre, s1) ∧
      QueueManager.addRequest (intakeMocks (.error ⟨"DB connection lost"⟩) (.ok 1))
        ⟨"test-website-id", [⟨"/blog", true⟩], "https://test.com"⟩ s1
        = (.ok [⟨"/blog", "failed", "Failed to queue: DB connection lost"⟩], s2) ∧
      s2.scrapeQueue = s1.scrapeQueue ∧
      QueueManager.addRequest (intakeMocks (.error ⟨"DB connection lost"⟩) (.ok 1))
        ⟨"test-website-id", [⟨"/about", true⟩], "https://test.com"⟩ s2 = (.ok rpost, s3) ∧
      QueueManager.addRequest (intakeMocks (.error ⟨"DB connection lost"⟩) (.ok 1))
        ⟨"test-website-id", [] ++ ⟨"/blog", true⟩ :: [⟨"/about", true⟩], "https://test.com"⟩
        freshState
        = (.ok (rpre ++ ⟨"/blog", "failed", "Failed to queue: DB connection lost"⟩ :: rpost),
            s3) :=
  ⟨⟨.findByUniqueIdentifiers "test-website-id" "/blog" "https://test.com", by decide⟩,
    addRequest_store_failure_isolated (intakeMocks (.error ⟨"DB connection lost"⟩) (.ok 1))
      "test-website-id" "https://test.com" [] [⟨"/about", true⟩] ⟨"/blog", true⟩ freshState
      ⟨"DB connection lost"⟩
      ⟨.findByUniqueIdentifiers "test-website-id" "/blog" "https://test.com", by decide⟩⟩

/-- C6. For every request, every state and every behaviour of the store, `addRequest`
returns a list with exactly one result per entry of `paths`, in the same order: the lengths
agree and the result at each index carries the path of the entry at that index. -/
theorem addRequest_one_result_per_path {σ : Type} (c : Collaborators σ)
    (requestData : RequestData) (s : ModuleState σ) :
    ∃ (results : List PathResult) (s1 : ModuleState σ),
      QueueManager.addRequest c requestData s = (.ok results, s1) ∧
      results.length = requestData.paths.length ∧
      results.map PathResult.pathName = requestData.paths.map PathObj.path ∧
      ∀ i : Nat, (results[i]?).map PathResult.pathName
        = (requestData.paths[i]?).map PathObj.path := by
  obtain ⟨rs, s1, hmap, h⟩ := addRequestFrom_spec c requestData.websiteId
    requestData.baseWebsiteUrl requestData.paths s
  refine ⟨rs, s1, by simpa [QueueManager.addRequest] using h [], ?_, hmap, fun i => ?_⟩
  · simpa using congrArg List.length hmap
  · rw [← List.getElem?_map, ← List.getElem?_map, hmap]

/-! ## The pipeline -/

/-- Every run of `processScrapeRequest`, whatever the collaborators do, returns, has one of
the shapes of `PipelineRun`, and changes no module variable. -/
theorem processScrapeRequest_run {σ : Type} (c : Collaborators σ)
    (scrapeRequest : ScrapedPath) (s : ModuleState σ) :
    PipelineRun scrapeRequest
        (callsSince s (Processor.processScrapeRequest c scrapeRequest s).2)
        (logsSince s (Processor.processScrapeRequest c scrapeRequest s).2) ∧
      (Processor.processScrapeRequest c scrapeRequest s).1 = .ok () ∧
      (Processor.processScrapeRequest c scrapeRequest s).2.logs
        = s.logs ++ logsSince s (Processor.processScrapeRequest c scrapeRequest s).2 ∧
      (Processor.processScrapeRequest c scrapeRequest s).2.scrapeQueue = s.scrapeQueue := by
  obtain ⟨id, websiteId, pathName, baseUrl, status⟩ := scrapeRequest
  rcases h1 : c.updateStatus id .scraping s.world with ⟨e1 | n1, w1⟩
  · rcases hf : c.updateStatus id .failed w1 with ⟨ef | nf, wf⟩ <;>
    simp [Processor.processScrapeRequest, bind, pure, Eff.bind, Eff.pure, Eff.tryCatch,
      invoke, logger.error, callsSince, logsSince, thrown, SCRAPE_STATUS.SCRAPING,
      SCRAPE_STATUS.SCAPED, SCRAPE_STATUS.FAILED, h1, hf] <;>
    constructor
  rcases h2 : c.scrapePage (baseUrl ++ pathName) w1 with ⟨e2 | d, w2⟩
  · rcases hf : c.updateStatus id .failed w2 with ⟨ef | nf, wf⟩ <;>
    simp [Processor.processScrapeRequest, bind, pure, Eff.bind, Eff.pure, Eff.tryCatch,
      invoke, logger.error, callsSince, logsSince, thrown, SCRAPE_STATUS.SCRAPING,
      SCRAPE_STATUS.SCAPED, SCRAPE_STATUS.FAILED, h1, h2, hf] <;>
    constructor
  rcases h3 : c.getSummary d pathName websiteId w2 with ⟨e3 | a, w3⟩
  · rcases hf : c.updateStatus id .failed w3 with ⟨ef | nf, wf⟩ <;>
    simp [Processor.processScrapeRequest, bind, pure, Eff.bind, Eff.pure, Eff.tryCatch,
      invoke, logger.error, callsSince, logsSince, thrown, SCRAPE_STATUS.SCRAPING,
      SCRAPE_STATUS.SCAPED, SCRAPE_STATUS.FAILED, h1, h2, h3, hf] <;>
    constructor
  rcases h4 : c.getPreviousAiSummary websiteId w3 with ⟨e4 | m, w4⟩
  · rcases hf : c.updateStatus id .failed w4 with ⟨ef | nf, wf⟩ <;>
    simp [Processor.processScrapeRequest, bind, pure, Eff.bind, Eff.pure, Eff.tryCatch,
      invoke, logger.error, callsSince, logsSince, thrown, SCRAPE_STATUS.SCRAPING,
      SCRAPE_STATUS.SCAPED, SCRAPE_STATUS.FAILED, h1, h2, h3, h4, hf] <;>
    constructor
  rcases h5 : c.mergeSummaries a.summary (orNull m.previousSummary) d websiteId w4 with ⟨e5 | g, w5⟩
  · rcases hf : c.updateStatus id .failed w5 with ⟨ef | nf, wf⟩ <;>
    simp [Processor.processScrapeRequest, bind, pure, Eff.bind, Eff.pure, Eff.tryCatch,
      invoke, logger.error, callsSince, logsSince, thrown, SCRAPE_STATUS.SCRAPING,
      SCRAPE_STATUS.SCAPED, SCRAPE_STATUS.FAILED, h1, h2, h3, h4, h5, hf] <;>
    constructor
  rcases h6 : c.sendNewSummary websiteId g.mergedSummary w5 with ⟨e6 | u, w6⟩
  · rcases hf : c.updateStatus id .failed w6 with ⟨ef | nf, wf⟩ <;>
    simp [Processor.processScrapeRequest, bind, pure, Eff.bind, Eff.pure, Eff.tryCatch,
      invoke, logger.error, callsSince, logsSince, thrown, SCRAPE_STATUS.SCRAPING,
      SCRAPE_STATUS.SCAPED, SCRAPE_STATUS.FAILED, h1, h2, h3, h4, h5, h6, hf] <;>
    constructor
  rcases h7 : c.updateStatus id .scraped w6 with ⟨e7 | n7, w7⟩
  · rcases hf : c.updateStatus id .failed w7 with ⟨ef | nf, wf⟩ <;>
    simp [Processor.processScrapeRequest, bind, pure, Eff.bind, Eff.pure, Eff.tryCatch,
      invoke, logger.error, callsSince, logsSince, thrown, SCRAPE_STATUS.SCRAPING,
      SCRAPE_STATUS.SCAPED, SCRAPE_STATUS.FAILED, h1, h2, h3, h4, h5, h6, h7, hf] <;>
    constructor
  simp [Processor.processScrapeRequest, bind, pure, Eff.bind, Eff.pure, Eff.tryCatch,
    invoke, logger.error, callsSince, logsSince, thrown, SCRAPE_STATUS.SCRAPING,
    SCRAPE_STATUS.SCAPED, SCRAPE_STATUS.FAILED, h1, h2, h3, h4, h5, h6, h7]
  constructor

/-- C7, as stated, fails when the notifier returns an empty previous summary: every
collaborator succeeds, `getPreviousAiSummary` returns the summary `""`, and `mergeSummaries`
is called with null in its place, not with the summary that was returned. -/
theorem processScrapeRequest_sequence_counterexample :
    (happyMocks (some "")).getPreviousAiSummary "W" () = (.ok ⟨some ""⟩, ()) ∧
    callsSince freshState (Processor.processScrapeRequest (happyMocks (some "")) demoJob
        freshState).2
      = [⟨.updateStatus "job-1" .scraping, none⟩,
         ⟨.scrapePage "http://x/a", none⟩,
         ⟨.getSummary demoPage "/a" "W", none⟩,
         ⟨.getPreviousAiSummary "W", none⟩,
         ⟨.mergeSummaries (some "S1") none demoPage "W", none⟩,
         ⟨.sendNewSummary "W" (some "S2"), none⟩,
         ⟨.updateStatus "job-1" .scraped, none⟩] ∧
    (⟨.mergeSummaries (some "S1") (some "") demoPage "W", none⟩ : CallRecord) ∉
      callsSince freshState (Processor.processScrapeRequest (happyMocks (some "")) demoJob
        freshState).2 :=
  ⟨rfl, rfl, by decide⟩

/-- C7, amended.  When every collaborator succeeds, `processScrapeRequest` returns and makes
exactly these calls, each once and in this order: `updateStatus(id, 'scraping')`; the fetch
of `baseUrl` followed by `pathName`; `getSummary` with the fetched content and the path
(and the websiteId); `getPreviousAiSummary(websiteId)`; `mergeSummaries` with the fresh
summary returned by `getSummary`, the previous summary returned by the notifier, passed as
null when it is absent or empty, and the fetched content (and the websiteId);
`sendNewSummary(websiteId, merged)` with the summary returned by the merge;
`updateStatus(id, 'scraped')`.  Nothing is logged as a warning or error and no module
variable changes. -/
theorem processScrapeRequest_sequence {σ : Type} (c : Collaborators σ)
    (scrapeRequest : ScrapedPath) (s : ModuleState σ) (n1 n7 : Nat)
    (content : ScrapedData) (fresh previous merged : Option String)
    (w1 w2 w3 w4 w5 w6 w7 : σ)
    (h1 : c.updateStatus scrapeRequest.id .scraping s.world = (.ok n1, w1))
    (h2 : c.scrapePage (scrapeRequest.baseUrl ++ scrapeRequest.pathName) w1 = (.ok content, w2))
    (h3 : c.getSummary content scrapeRequest.pathName scrapeRequest.websiteId w2
      = (.ok ⟨fresh⟩, w3))
    (h4 : c.getPreviousAiSummary scrapeRequest.websiteId w3 = (.ok ⟨previous⟩, w4))
    (h5 : c.mergeSummaries fresh (orNull previous) content scrapeRequest.websiteId w4
      = (.ok ⟨merged⟩, w5))
    (h6 : c.sendNewSummary scrapeRequest.websiteId merged w5 = (.ok (), w6))
    (h7 : c.updateStatus scrapeRequest.id .scraped w6 = (.ok n7, w7)) :
    Processor.processScrapeRequest c scrapeRequest s =
      (.ok (),
        { s with
          world := w7
          calls := s.calls ++
            [⟨.updateStatus scrapeRequest.id .scraping, none⟩,
             ⟨.scrapePage (scrapeRequest.baseUrl ++ scrapeRequest.pathName), none⟩,
             ⟨.getSummary content scrapeRequest.pathName scrapeRequest.websiteId, none⟩,
             ⟨.getPreviousAiSummary scrapeRequest.websiteId, none⟩,
             ⟨.mergeSummaries fresh (orNull previous) content scrapeRequest.websiteId, none⟩,
             ⟨.sendNewSummary scrapeRequest.websiteId merged, none⟩,
             ⟨.updateStatus scrapeRequest.id .scraped, none⟩] }) := by
  simp [Processor.processScrapeRequest, bind, pure, Eff.bind, Eff.pure, Eff.tryCatch,
    invoke, thrown, SCRAPE_STATUS.SCRAPING, SCRAPE_STATUS.SCAPED, h1, h2, h3, h4, h5, h6, h7]

/-- The amended C7 on the happy path of the specification: fetch gives `text`, summarize
`S1`, the previous summary is `S0`, merge gives `S2`. -/
theorem processScrapeRequest_sequence_witness :
    (happyMocks (some "S0")).updateStatus demoJob.id .scraping freshState.world = (.ok 1, ()) ∧
    (happyMocks (some "S0")).scrapePage (demoJob.baseUrl ++ demoJob.pathName) ()
      = (.ok demoPage, ()) ∧
    (happyMocks (some "S0")).getSummary demoPage demoJob.pathName demoJob.websiteId ()
      = (.ok ⟨some "S1"⟩, ()) ∧
    (happyMocks (some "S0")).getPreviousAiSummary demoJob.websiteId () = (.ok ⟨some "S0"⟩, ()) ∧
    (happyMocks (some "S0")).mergeSummaries (some "S1") (orNull (some "S0")) demoPage
      demoJob.websiteId () = (.ok ⟨some "S2"⟩, ()) ∧
    (happyMocks (some "S0")).sendNewSummary demoJob.websiteId (some "S2") () = (.ok (), ()) ∧
    (happyMocks (some "S0")).updateStatus demoJob.id .scraped () = (.ok 1, ()) ∧
    Processor.processScrapeRequest (happyMocks (some "S0")) demoJob freshState =
      (.ok (),
        { freshState with
          calls :=
            [⟨.updateStatus "job-1" .scraping, none⟩,
             ⟨.scrapePage "http://x/a", none⟩,
             ⟨.getSummary demoPage "/a" "W", none⟩,
             ⟨.getPreviousAiSummary "W", none⟩,
             ⟨.mergeSummaries (some "S1") (some "S0") demoPage "W", none⟩,
             ⟨.sendNewSummary "W" (some "S2"), none⟩,
             ⟨.updateStatus "job-1" .scraped, none⟩] }) :=
  ⟨rfl, rfl, rfl, rfl, rfl, rfl, rfl,
    (processScrapeRequest_sequence (happyMocks (some "S0")) demoJob freshState 1 1 demoPage
      (some "S1") (some "S0") (some "S2") () () () () () () ()
      rfl rfl rfl rfl rfl rfl rfl).trans rfl⟩

/-- C8. Whatever the collaborators do: if, in a run of `processScrapeRequest`, the call of
one of the steps 2 to 6 (fetch, summarize, get-previous, merge, send) threw, and every
status write of the run was accepted by the store, then the status writes of the run are
exactly `scraping` followed by `failed`, both for the job's id.  So the last status written
is `failed`, `updateStatus(id, 'failed')` is called exactly once, and
`updateStatus(id, 'scraped')` is never called. -/
theorem processScrapeRequest_step_failure_marks_failed {σ : Type} (c : Collaborators σ)
    (scrapeRequest : ScrapedPath) (s : ModuleState σ)
    (hstep : ∃ r ∈ callsSince s (Processor.processScrapeRequest c scrapeRequest s).2,
      r.error ≠ none ∧ 2 ≤ r.call.step ∧ r.call.step ≤ 6)
    (hstore : ∀ r ∈ callsSince s (Processor.processScrapeRequest c scrapeRequest s).2,
      r.call.statusWrite ≠ none → r.error = none) :
    statusWrites (callsSince s (Processor.processScrapeRequest c scrapeRequest s).2)
        = [(scrapeRequest.id, .scraping), (scrapeRequest.id, .failed)] ∧
      (statusWrites (callsSince s (Processor.processScrapeRequest c scrapeRequest s).2)).getLast?
        = some (scrapeRequest.id, .failed) ∧
      (callsSince s (Processor.processScrapeRequest c scrapeRequest s).2).count
        ⟨.updateStatus scrapeRequest.id .failed, none⟩ = 1 ∧
      ∀ r ∈ callsSince s (Processor.processScrapeRequest c scrapeRequest s).2,
        r.call ≠ .updateStatus scrapeRequest.id .scraped := by
  obtain ⟨hrun, -⟩ := processScrapeRequest_run c scrapeRequest s
  generalize callsSince s (Processor.processScrapeRequest c scrapeRequest s).2 = log at *
  generalize logsSince s (Processor.processScrapeRequest c scrapeRequest s).2 = lines at *
  cases hrun <;>
    simp [statusWrites, Call.statusWrite, Call.step] at hstep hstore ⊢ <;>
    simp_all

/-- C8 at the input of the test 'should update status to FAILED if AI merge call fails':
the merge (step 5) throws, the store accepts every write, and the writes are `scraping`
then `failed`. -/
theorem processScrapeRequest_step_failure_marks_failed_witness :
    (∃ r ∈ callsSince freshState (Processor.processScrapeRequest mergeFailsMocks demoJob
        freshState).2, r.error ≠ none ∧ 2 ≤ r.call.step ∧ r.call.step ≤ 6) ∧
    (∀ r ∈ callsSince freshState (Processor.processScrapeRequest mergeFailsMocks demoJob
        freshState).2, r.call.statusWrite ≠ none → r.error = none) ∧
    statusWrites (callsSince freshState (Processor.processScrapeRequest mergeFailsMocks demoJob
        freshState).2) = [("job-1", .scraping), ("job-1", .failed)] :=
  ⟨⟨⟨.mergeSummaries (some "fresh") (some "prev") demoPage "W", some ⟨"AI merge logic error"⟩⟩,
      by decide, by decide, by decide, by decide⟩,
    by decide,
    (processScrapeRequest_step_failure_marks_failed mergeFailsMocks demoJob freshState
      ⟨⟨.mergeSummaries (some "fresh") (some "prev") demoPage "W",
          some ⟨"AI merge logic error"⟩⟩,
        by decide, by decide, by decide, by decide⟩
      (by decide)).1⟩

/-- C9. Whatever the collaborators do: if a call `r` made in a run of `processScrapeRequest`
threw, then every call of the run belongs to the step of `r` or an earlier one, except for
the write of `failed` made by the catch block; no collaborator of a later step is called.
In particular, when `r` is the page fetch no call goes to the summarizer or to the
notifier, and when `r` is the fetch, summarize, get-previous or merge call (steps 2 to 5)
`sendNewSummary` is not called. -/
theorem processScrapeRequest_stops_at_failure {σ : Type} (c : Collaborators σ)
    (scrapeRequest : ScrapedPath) (s : ModuleState σ) (r : CallRecord)
    (hr : r ∈ callsSince s (Processor.processScrapeRequest c scrapeRequest s).2)
    (hthrew : r.error ≠ none) :
    (∀ x ∈ callsSince s (Processor.processScrapeRequest c scrapeRequest s).2,
      x.call.step ≤ r.call.step ∨ x.call = .updateStatus scrapeRequest.id .failed) ∧
    ((∃ url, r.call = .scrapePage url) →
      ∀ x ∈ callsSince s (Processor.processScrapeRequest c scrapeRequest s).2,
        x.call.isSummarizerCall = false ∧ x.call.isNotifierCall = false) ∧
    (2 ≤ r.call.step ∧ r.call.step ≤ 5 →
      ∀ x ∈ callsSince s (Processor.processScrapeRequest c scrapeRequest s).2,
        ∀ websiteId newSummary, x.call ≠ .sendNewSummary websiteId newSummary) := by
  obtain ⟨hrun, -⟩ := processScrapeRequest_run c scrapeRequest s
  generalize callsSince s (Processor.processScrapeRequest c scrapeRequest s).2 = log at *
  generalize logsSince s (Processor.processScrapeRequest c scrapeRequest s).2 = lines at *
  cases hrun <;>
    simp at hr <;>
    rcases hr with rfl | rfl | rfl | rfl | rfl | rfl | rfl | rfl <;>
    simp [Call.step, Call.isSummarizerCall, Call.isNotifierCall] at hthrew ⊢

/-- C9 at the scenario 'fetch failure' of the specification: the fetch throws, and besides
the two status writes no call is made. -/
theorem processScrapeRequest_stops_at_failure_witness :
    (⟨.scrapePage "http://x/a", some ⟨"Mock scraping failed"⟩⟩ : CallRecord) ∈
      callsSince freshState (Processor.processScrapeRequest fetchFailsMocks demoJob
        freshState).2 ∧
    (∀ x ∈ callsSince freshState (Processor.processScrapeRequest fetchFailsMocks demoJob
        freshState).2,
      x.call.isSummarizerCall = false ∧ x.call.isNotifierCall = false) :=
  ⟨by decide,
    (processScrapeRequest_stops_at_failure fetchFailsMocks demoJob freshState
      ⟨.scrapePage "http://x/a", some ⟨"Mock scraping failed"⟩⟩ (by decide) (by decide)).2.1
      ⟨"http://x/a", rfl⟩⟩

/-- C10. For every job record, every state and every behaviour of the store, the fetcher,
the summarizer and the notifier, `processScrapeRequest` returns: its outcome is never a
thrown error.  When the write of `failed` itself threw `dbError`, the run still returns and
the last thing it did was to log the line
'Failed to update status to 'failed' for ID: <id>. DB Error: <dbError.message>'. -/
theorem processScrapeRequest_never_throws {σ : Type} (c : Collaborators σ)
    (scrapeRequest : ScrapedPath) (s : ModuleState σ) :
    (Processor.processScrapeRequest c scrapeRequest s).1 = .ok () ∧
    ∀ dbError : Error,
      (⟨.updateStatus scrapeRequest.id .failed, some dbError⟩ : CallRecord) ∈
          callsSince s (Processor.processScrapeRequest c scrapeRequest s).2 →
        (Processor.processScrapeRequest c scrapeRequest s).2.logs.getLast?
          = some ⟨.error, "Failed to update status to \x27failed\x27 for ID: "
              ++ scrapeRequest.id ++ ". DB Error: " ++ dbError.message⟩ := by
  obtain ⟨hrun, hok, hlogs, -⟩ := processScrapeRequest_run c scrapeRequest s
  refine ⟨hok, fun dbError hmem => ?_⟩
  rw [hlogs]
  generalize callsSince s (Processor.processScrapeRequest c scrapeRequest s).2 = log at *
  generalize logsSince s (Processor.processScrapeRequest c scrapeRequest s).2 = lines at *
  cases hrun <;>
    simp at hmem <;>
    subst hmem <;>
    simp [catchLines, List.getLast?_append]

/-- C10 at the input of the test 'should handle failure to update status to FAILED
gracefully': the fetch throws, the write of `failed` throws too, the run returns and its
last act is the log line. -/
theorem processScrapeRequest_never_throws_witness :
    (⟨.updateStatus demoJob.id .failed, some ⟨"DB update failed"⟩⟩ : CallRecord) ∈
      callsSince freshState (Processor.processScrapeRequest brokenStoreMocks demoJob
        freshState).2 ∧
    (Processor.processScrapeRequest brokenStoreMocks demoJob freshState).1 = .ok () ∧
    (Processor.processScrapeRequest brokenStoreMocks demoJob freshState).2.logs.getLast?
      = some ⟨.error, "Failed to update status to \x27failed\x27 for ID: " ++ demoJob.id
          ++ ". DB Error: " ++ (⟨"DB update failed"⟩ : Error).message⟩ :=
  ⟨by decide,
    (processScrapeRequest_never_throws brokenStoreMocks demoJob freshState).1,
    (processScrapeRequest_never_throws brokenStoreMocks demoJob freshState).2
      ⟨"DB update failed"⟩ (by decide)⟩

/-! ## The dispatch loop, the status machine, the services and the controller -/

/-- Returning a value preserves a reflexive relation. -/
theorem Eff.Preserves.pure {S α : Type} {R : S → S → Prop} (hrefl : ∀ s, R s s) (a : α) :
    Eff.Preserves R (Pure.pure a : Eff S α) :=
  fun s => hrefl s

/-- Sequencing preserves a transitive relation. -/
theorem Eff.Preserves.bind {S α β : Type} {R : S → S → Prop}
    (htrans : ∀ a b d, R a b → R b d → R a d) {m : Eff S α} {f : α → Eff S β}
    (hm : Eff.Preserves R m) (hf : ∀ a, Eff.Preserves R (f a)) :
    Eff.Preserves R (m >>= f) := by
  intro s
  have h1 := hm s
  show R s (Eff.bind m f s).2
  unfold Eff.bind
  split
  · exact htrans _ _ _ h1 (hf _ _)
  · exact h1

/-- A try/catch preserves a transitive relation. -/
theorem Eff.Preserves.tryCatch {S α : Type} {R : S → S → Prop}
    (htrans : ∀ a b d, R a b → R b d → R a d) {m : Eff S α} {handler : Error → Eff S α}
    (hm : Eff.Preserves R m) (hh : ∀ e, Eff.Preserves R (handler e)) :
    Eff.Preserves R (Eff.tryCatch m handler) := by
  intro s
  have h1 := hm s
  unfold Eff.tryCatch
  split
  · exact h1
  · exact htrans _ _ _ h1 (hh _ _)

/-- A reflexive and transitive relation that holds across every call the pipeline can make
and across every line it can log holds across a whole run of `processScrapeRequest`. -/
theorem processScrapeRequest_preserves {σ : Type} (c : Collaborators σ) (job : ScrapedPath)
    (R : ModuleState σ → ModuleState σ → Prop)
    (hrefl : ∀ s, R s s) (htrans : ∀ a b d, R a b → R b d → R a d)
    (hwrite : ∀ st, Eff.Preserves R (invoke (.updateStatus job.id st) (c.updateStatus job.id st)))
    (hfetch : ∀ url, Eff.Preserves R (invoke (.scrapePage url) (c.scrapePage url)))
    (hsummary : ∀ d p w, Eff.Preserves R (invoke (.getSummary d p w) (c.getSummary d p w)))
    (hprevious : ∀ w, Eff.Preserves R
      (invoke (.getPreviousAiSummary w) (c.getPreviousAiSummary w)))
    (hmerge : ∀ f p d w, Eff.Preserves R
      (invoke (.mergeSummaries f p d w) (c.mergeSummaries f p d w)))
    (hsend : ∀ w m, Eff.Preserves R (invoke (.sendNewSummary w m) (c.sendNewSummary w m)))
    (hlog : ∀ line, Eff.Preserves R (logger.error line : Eff (ModuleState σ) Unit)) :
    Eff.Preserves R (Processor.processScrapeRequest c job) := by
  unfold Processor.processScrapeRequest
  refine Eff.Preserves.tryCatch htrans ?_ fun e => ?_
  · refine Eff.Preserves.bind htrans (hwrite _) fun _ => ?_
    refine Eff.Preserves.bind htrans (hfetch _) fun _ => ?_
    refine Eff.Preserves.bind htrans (hsummary _ _ _) fun _ => ?_
    refine Eff.Preserves.bind htrans (hprevious _) fun _ => ?_
    refine Eff.Preserves.bind htrans (hmerge _ _ _ _) fun _ => ?_
    refine Eff.Preserves.bind htrans (hsend _ _) fun _ => ?_
    refine Eff.Preserves.bind htrans (hwrite _) fun _ => ?_
    exact Eff.Preserves.pure hrefl _
  · refine Eff.Preserves.bind htrans (hlog _) fun _ => ?_
    refine Eff.Preserves.tryCatch htrans ?_ fun e => hlog _
    refine Eff.Preserves.bind htrans (hwrite _) fun _ => ?_
    exact Eff.Preserves.pure hrefl _

/-- A run of `processScrapeRequest` leaves the three module variables as they were and only
appends to the call log. -/
theorem processScrapeRequest_frame {σ : Type} (c : Collaborators σ) (job : ScrapedPath)
    (s : ModuleState σ) :
    (Processor.processScrapeRequest c job s).2.scrapeQueue = s.scrapeQueue ∧
    (Processor.processScrapeRequest c job s).2.isProcessing = s.isProcessing ∧
    (Processor.processScrapeRequest c job s).2.processingInterval = s.processingInterval ∧
    s.calls <+: (Processor.processScrapeRequest c job s).2.calls := by
  refine processScrapeRequest_preserves c job
    (fun a b => b.scrapeQueue = a.scrapeQueue ∧ b.isProcessing = a.isProcessing ∧
      b.processingInterval = a.processingInterval ∧ a.calls <+: b.calls)
    (fun a => ⟨rfl, rfl, rfl, List.prefix_refl _⟩)
    (fun a b d hab hbd => ⟨hbd.1.trans hab.1, hbd.2.1.trans hab.2.1,
      hbd.2.2.1.trans hab.2.2.1, hab.2.2.2.trans hbd.2.2.2⟩)
    ?_ ?_ ?_ ?_ ?_ ?_ ?_ s
  all_goals
    intros
    intro a
    simp [invoke, logger.error]

/-- The call log of a run of the pipeline shows exactly one start, that of its job. -/
theorem pipelineStarts_of_run (job : ScrapedPath) (log : List CallRecord)
    (lines : List LogEntry) (h : PipelineRun job log lines) :
    pipelineStarts log = [job.id] := by
  cases h <;> simp [pipelineStarts]

/-- The call log only grows along successive calls of `processNextItem`. -/
theorem processNextItem_calls {σ : Type} (c : Collaborators σ) (s : ModuleState σ) :
    s.calls <+: (QueueManager.processNextItem c s).2.calls := by
  unfold QueueManager.processNextItem
  split
  · exact List.prefix_refl _
  · rename_i job rest _
    exact (processScrapeRequest_frame c job { s with scrapeQueue := rest }).2.2.2

/-- The call log only grows along any number of successive calls. -/
theorem processNextItemTimes_calls {σ : Type} (c : Collaborators σ) (k : Nat)
    (s : ModuleState σ) :
    s.calls <+: (QueueManager.processNextItemTimes c k s).calls := by
  induction k generalizing s with
  | zero => exact List.prefix_refl _
  | succ k ih =>
    unfold QueueManager.processNextItemTimes
    rw [Function.iterate_succ_apply]
    exact (processNextItem_calls c s).trans (ih _)

/-- The calls since `s` up to `s2` are those up to an intermediate `s1` followed by those
from `s1` on, when the log only grew. -/
theorem callsSince_trans {σ : Type} (s s1 s2 : ModuleState σ) (h1 : s.calls <+: s1.calls)
    (h2 : s1.calls <+: s2.calls) :
    callsSince s s2 = callsSince s s1 ++ callsSince s1 s2 := by
  obtain ⟨t, ht⟩ := h1
  obtain ⟨u, hu⟩ := h2
  simp [callsSince, ← hu, ← ht, List.append_assoc]

/-- C13. For every queue, every state and every behaviour of the collaborators (so whether
each pipeline succeeds or fails), after `k` successive calls of `processNextItem`, each run
to completion: the queue is the initial queue without its first `k` entries, so its length
is the initial length minus `k`; the pipelines started, read off the call log, are those of
the first `k` jobs, once each and in queue order; every call returns; and a call on a queue
`job :: rest` is exactly one run of `processScrapeRequest` on `job` with the queue already
cut down to `rest`, so the entry is gone whatever the run does.  With `k` the length of the
queue this is the draining of N jobs by N calls. -/
theorem processNextItem_drains_fifo {σ : Type} (c : Collaborators σ) (s : ModuleState σ)
    (k : Nat) :
    (QueueManager.processNextItemTimes c k s).scrapeQueue = s.scrapeQueue.drop k ∧
    QueueManager.getQueueSize (QueueManager.processNextItemTimes c k s)
      = QueueManager.getQueueSize s - k ∧
    pipelineStarts (callsSince s (QueueManager.processNextItemTimes c k s))
      = (s.scrapeQueue.take k).map ScrapedPath.id ∧
    (∀ st, (QueueManager.processNextItem c st).1 = .ok ()) ∧
    (∀ st job rest, st.scrapeQueue = job :: rest →
      QueueManager.processNextItem c st
        = Processor.processScrapeRequest c job { st with scrapeQueue := rest }) := by
  have hstep : ∀ st job rest, st.scrapeQueue = job :: rest →
      QueueManager.processNextItem c st
        = Processor.processScrapeRequest c job { st with scrapeQueue := rest } := by
    intro st job rest h
    simp [QueueManager.processNextItem, h]
  have hmain : ∀ (k : Nat) (s : ModuleState σ),
      (QueueManager.processNextItemTimes c k s).scrapeQueue = s.scrapeQueue.drop k ∧
      pipelineStarts (callsSince s (QueueManager.processNextItemTimes c k s))
        = (s.scrapeQueue.take k).map ScrapedPath.id := by
    intro k
    induction k with
    | zero => intro s; simp [QueueManager.processNextItemTimes, callsSince, pipelineStarts]
    | succ k ih =>
      intro s
      have hunfold : QueueManager.processNextItemTimes c (k + 1) s
          = QueueManager.processNextItemTimes c k (QueueManager.processNextItem c s).2 := by
        simp [QueueManager.processNextItemTimes, Function.iterate_succ_apply]
      rw [hunfold]
      rcases hq : s.scrapeQueue with _ | ⟨job, rest⟩
      · have hs : (QueueManager.processNextItem c s).2 = s := by
          simp [QueueManager.processNextItem, hq]
        rw [hs]
        simpa [hq] using ih s
      · rw [hstep s job rest hq]
        obtain ⟨hrun, -⟩ := processScrapeRequest_run c job { s with scrapeQueue := rest }
        obtain ⟨hqueue, -, -, hcalls⟩ :=
          processScrapeRequest_frame c job { s with scrapeQueue := rest }
        obtain ⟨ih1, ih2⟩ :=
          ih (Processor.processScrapeRequest c job { s with scrapeQueue := rest }).2
        refine ⟨by simpa [hqueue] using ih1, ?_⟩
        have hsplit := callsSince_trans { s with scrapeQueue := rest } _ _ hcalls
          (processNextItemTimes_calls c k
            (Processor.processScrapeRequest c job { s with scrapeQueue := rest }).2)
        have hsame : ∀ s2 : ModuleState σ,
            callsSince s s2 = callsSince { s with scrapeQueue := rest } s2 := fun _ => rfl
        rw [hsame, hsplit]
        simp only [pipelineStarts, List.filterMap_append] at ih2 ⊢
        have h1 := pipelineStarts_of_run job _ _ hrun
        simp only [pipelineStarts] at h1
        rw [h1, ih2, hqueue]
        simp
  refine ⟨(hmain k s).1, ?_, (hmain k s).2, fun st => ?_, hstep⟩
  · simp [QueueManager.getQueueSize, (hmain k s).1]
  · unfold QueueManager.processNextItem
    split
    · rfl
    · exact (processScrapeRequest_run c _ _).2.1

/-- C11, as stated, fails when the store refuses the write of `failed`: the fetch throws, the
write of `failed` throws too, `processScrapeRequest` returns, and a store that recorded the
accepted writes still holds `scraping` for the job. -/
theorem processScrapeRequest_final_status_counterexample :
    (Processor.processScrapeRequest brokenStoreMocks demoJob freshState).1 = .ok () ∧
    storedStatus demoJob.id .queued
      (callsSince freshState (Processor.processScrapeRequest brokenStoreMocks demoJob
        freshState).2) = .scraping :=
  ⟨rfl, by decide⟩

/-- C11, amended.  For any job, any state and any behaviour of the collaborators,
`processScrapeRequest` returns, and if its last status write (the last call of every run)
was accepted by the store, then a store that records the accepted writes holds `scraped`
or `failed` for the job, whatever status it held before. -/
theorem processScrapeRequest_final_status {σ : Type} (c : Collaborators σ)
    (scrapeRequest : ScrapedPath) (s : ModuleState σ) (current : Status)
    (hlast : ∀ r, (callsSince s (Processor.processScrapeRequest c scrapeRequest s).2).getLast?
      = some r → r.error = none) :
    (Processor.processScrapeRequest c scrapeRequest s).1 = .ok () ∧
    (storedStatus scrapeRequest.id current
        (callsSince s (Processor.processScrapeRequest c scrapeRequest s).2) = .scraped ∨
      storedStatus scrapeRequest.id current
        (callsSince s (Processor.processScrapeRequest c scrapeRequest s).2) = .failed) := by
  obtain ⟨hrun, hok, -⟩ := processScrapeRequest_run c scrapeRequest s
  refine ⟨hok, ?_⟩
  generalize callsSince s (Processor.processScrapeRequest c scrapeRequest s).2 = log at *
  generalize logsSince s (Processor.processScrapeRequest c scrapeRequest s).2 = lines at *
  cases hrun <;>
    simp at hlast <;>
    simp [storedStatus, CallRecord.acceptedWrite, Call.statusWrite, hlast]

/-- The amended C11 at the scenario 'fetch failure' of the specification: the write of
`failed` is accepted and the stored status is `failed`. -/
theorem processScrapeRequest_final_status_witness :
    (∀ r, (callsSince freshState (Processor.processScrapeRequest fetchFailsMocks demoJob
        freshState).2).getLast? = some r → r.error = none) ∧
    storedStatus demoJob.id .queued
      (callsSince freshState (Processor.processScrapeRequest fetchFailsMocks demoJob
        freshState).2) = .failed :=
  ⟨by decide,
    ((processScrapeRequest_final_status fetchFailsMocks demoJob freshState .queued
      (by decide)).2).resolve_left (by decide)⟩

/-- C16, as stated, fails when the store refuses the write of `scraping` and accepts the
write of `failed`: the try block throws at step 1, the catch block writes `failed`, and the
record goes from `queued` to `failed`, which is not a transition of the state machine. -/
theorem status_writes_valid_counterexample :
    statusTransitions demoJob.id .queued
      (callsSince freshState (Processor.processScrapeRequest firstWriteFailsMocks demoJob
        freshState).2) = [(.queued, .failed)] ∧
    validTransition (.queued, .failed) = false :=
  ⟨by decide, rfl⟩

/-- C16, amended.  For every behaviour of the collaborators: in a run of
`processScrapeRequest` on a job whose stored status is `queued`, as it is for a job taken
from the queue, if the write of `scraping` was accepted then every accepted status write
of the run makes one of the transitions queued→scraping, scraping→scraped,
scraping→failed; and a visit of the loop of `addRequest` either writes no status or writes
exactly `queued` on the record that the lookup returned, whose status is then `scraped` or
`failed` (scraped→queued, failed→queued). -/
theorem status_writes_valid {σ : Type} (c : Collaborators σ) (s : ModuleState σ) :
    (∀ scrapeRequest : ScrapedPath,
      (⟨.updateStatus scrapeRequest.id .scraping, none⟩ : CallRecord) ∈
          callsSince s (Processor.processScrapeRequest c scrapeRequest s).2 →
        ∀ t ∈ statusTransitions scrapeRequest.id .queued
            (callsSince s (Processor.processScrapeRequest c scrapeRequest s).2),
          validTransition t = true) ∧
    (∀ (websiteId baseWebsiteUrl : String) (pathObj : PathObj) (results : List PathResult),
      statusWrites (callsSince s
          (QueueManager.addRequestPath c websiteId baseWebsiteUrl pathObj results s).2) = [] ∨
      ∃ (record : ScrapedPath) (w : σ),
        c.findByUniqueIdentifiers websiteId pathObj.path baseWebsiteUrl s.world
          = (.ok (some record), w) ∧
        statusWrites (callsSince s
          (QueueManager.addRequestPath c websiteId baseWebsiteUrl pathObj results s).2)
          = [(record.id, .queued)] ∧
        validTransition (record.status, .queued) = true) := by
  constructor
  · intro scrapeRequest hfirst
    obtain ⟨hrun, -⟩ := processScrapeRequest_run c scrapeRequest s
    generalize callsSince s (Processor.processScrapeRequest c scrapeRequest s).2 = log at *
    generalize logsSince s (Processor.processScrapeRequest c scrapeRequest s).2 = lines at *
    cases hrun <;> simp at hfirst
    all_goals
      rename_i writeError
      cases writeError <;>
        simp [statusTransitions, CallRecord.acceptedWrite, Call.statusWrite, validTransition]
  · intro websiteId baseWebsiteUrl pathObj results
    obtain ⟨path, needsScraping⟩ := pathObj
    cases needsScraping with
    | false => left; simp [QueueManager.addRequestPath, pure, Eff.pure, callsSince, statusWrites]
    | true =>
      rcases hfind : c.findByUniqueIdentifiers websiteId path baseWebsiteUrl s.world
        with ⟨_ | found, w⟩
      · left
        simp [QueueManager.addRequestPath, bind, pure, Eff.bind, Eff.pure, Eff.tryCatch, invoke,
          hfind, thrown, logger.error, callsSince, statusWrites, Call.statusWrite]
      · cases found with
        | none =>
          left
          rcases hcreate : c.create ⟨websiteId, path, baseWebsiteUrl, .queued⟩ w with ⟨_ | r, w1⟩
          all_goals
            simp [QueueManager.addRequestPath, bind, pure, Eff.bind, Eff.pure, Eff.tryCatch,
              invoke, hfind, hcreate, thrown, logger.error, scrapeQueue.push,
              SCRAPE_STATUS.QUEUED, callsSince, statusWrites, Call.statusWrite]
        | some record =>
          rcases hupdate : c.updateStatus record.id .queued w with ⟨_ | n, w1⟩ <;>
          rcases hstatus : record.status
          all_goals
            simp [QueueManager.addRequestPath, bind, pure, Eff.bind, Eff.pure, Eff.tryCatch,
              invoke, hfind, hupdate, hstatus, thrown, scrapeQueue.push, logger.error,
              logger.warn, SCRAPE_STATUS.QUEUED, SCRAPE_STATUS.SCRAPING, SCRAPE_STATUS.SCAPED,
              SCRAPE_STATUS.FAILED, callsSince, statusWrites, Call.statusWrite, validTransition]

/-- C12, as stated, fails: with two jobs queued, two ticks in a row, the second firing before
the pipeline started by the first has settled, leave two invocations in flight. -/
theorem dispatch_single_flight_counterexample :
    (DispatchState.run ⟨[demoJob, demoJob2], []⟩ [.tick, .tick]).inFlight
      = [demoJob, demoJob2] ∧
    ¬ (DispatchState.run ⟨[demoJob, demoJob2], []⟩ [.tick, .tick]).inFlight.length ≤ 1 :=
  ⟨rfl, by decide⟩

/-- The state after one more event of an execution. -/
theorem DispatchState.run_take_succ (d : DispatchState) (events : List DispatchEvent) (n : Nat)
    (event : DispatchEvent) (h : events[n]? = some event) :
    d.run (events.take (n + 1)) = (d.run (events.take n)).step event := by
  simp [DispatchState.run, List.take_succ, h, List.foldl_append]

/-- C12, amended.  A tick on a non-empty queue removes the first entry and starts its
pipeline whatever is in flight, and a tick on an empty queue does nothing.  Hence, in an
execution that starts with at most one invocation in flight and in which every tick fires
when no invocation is in flight, at most one invocation is in flight at any time. -/
theorem dispatch_in_flight (d0 : DispatchState) (events : List DispatchEvent)
    (h0 : d0.inFlight.length ≤ 1)
    (hspaced : ∀ n, events[n]? = some .tick → (d0.run (events.take n)).inFlight = []) :
    (∀ n, (d0.run (events.take n)).inFlight.length ≤ 1) ∧
    (∀ (d : DispatchState) (job : ScrapedPath) (rest : List ScrapedPath),
      d.scrapeQueue = job :: rest → d.step .tick = ⟨rest, d.inFlight ++ [job]⟩) ∧
    (∀ d : DispatchState, d.scrapeQueue = [] → d.step .tick = d) := by
  refine ⟨fun n => ?_, fun d job rest h => by simp [DispatchState.step, h],
    fun d h => by simp [DispatchState.step, h]⟩
  induction n with
  | zero => simpa [DispatchState.run] using h0
  | succ n ih =>
    rcases hev : events[n]? with _ | event
    · have : events.take (n + 1) = events.take n := by
        rw [List.take_succ, hev]; simp
      rw [this]; exact ih
    · rw [DispatchState.run_take_succ d0 events n event hev]
      cases event with
      | tick =>
        have hempty := hspaced n hev
        rcases hq : (d0.run (events.take n)).scrapeQueue with _ | ⟨job, rest⟩ <;>
          simp [DispatchState.step, hq, hempty]
      | settled job =>
        simp only [DispatchState.step]
        exact (List.length_erase_le _ _).trans ih

/-- The amended C12 on the execution tick, settled, tick, settled of two queued jobs. -/
theorem dispatch_in_flight_witness :
    (⟨[demoJob, demoJob2], []⟩ : DispatchState).inFlight.length ≤ 1 ∧
    (∀ n, [DispatchEvent.tick, .settled demoJob, .tick, .settled demoJob2][n]? = some .tick →
      ((⟨[demoJob, demoJob2], []⟩ : DispatchState).run
        ([DispatchEvent.tick, .settled demoJob, .tick, .settled demoJob2].take n)).inFlight
        = []) ∧
    (∀ n, ((⟨[demoJob, demoJob2], []⟩ : DispatchState).run
        ([DispatchEvent.tick, .settled demoJob, .tick, .settled demoJob2].take n)).inFlight.length
      ≤ 1) :=
  have hspaced : ∀ n,
      [DispatchEvent.tick, .settled demoJob, .tick, .settled demoJob2][n]? = some .tick →
      ((⟨[demoJob, demoJob2], []⟩ : DispatchState).run
        ([DispatchEvent.tick, .settled demoJob, .tick, .settled demoJob2].take n)).inFlight
        = [] := by
    intro n
    match n with
    | 0 => intro _; rfl
    | 1 => intro h; simp at h
    | 2 => intro _; decide
    | 3 => intro h; simp at h
    | n + 4 => intro h; simp at h
  ⟨by decide, hspaced,
    (dispatch_in_flight ⟨[demoJob, demoJob2], []⟩
      [DispatchEvent.tick, .settled demoJob, .tick, .settled demoJob2] (by decide) hspaced).1⟩

/-- Each of the three methods keeps the timer invariant. -/
theorem TimerOp.run_inv {σ : Type} (op : TimerOp) (rt : Runtime σ) (h : rt.TimerInv) :
    (op.run rt).TimerInv := by
  rcases h with ⟨hp, handle, ms, hh, hi⟩ | ⟨hp, hh, hi⟩ <;> cases op <;>
    simp [TimerOp.run, QueueManager.startProcessing, QueueManager.stopProcessing,
      QueueManager._resetQueue, setInterval, clearInterval, Runtime.TimerInv, hp, hh, hi]

/-- Every sequence of calls keeps the timer invariant. -/
theorem runTimerOps_inv {σ : Type} (ops : List TimerOp) (rt : Runtime σ) (h : rt.TimerInv) :
    (runTimerOps ops rt).TimerInv := by
  induction ops generalizing rt with
  | nil => exact h
  | cons op ops ih => exact ih _ (TimerOp.run_inv op rt h)

/-- C15. Take any state reached from a runtime that is not running and holds no timer by any
sequence of calls of `startProcessing`, `stopProcessing` and `_resetQueue`.  At most one
interval is set.  If the dispatcher is running, `startProcessing` only logs a warning: no
interval is set, no handle is used up, no module variable changes.  If it is not running,
`stopProcessing` changes nothing at all.  If it is running, exactly one interval is set
and `stopProcessing` calls `clearInterval` once, on its handle, which leaves no interval
set, `processingInterval` null and `isProcessing` false.  A second `stopProcessing` in a
row changes nothing. -/
theorem startProcessing_stopProcessing_idempotent {σ : Type} (rt0 : Runtime σ)
    (hidle : rt0.module.isProcessing = false) (hnull : rt0.module.processingInterval = none)
    (hnone : rt0.intervals = []) (ops : List TimerOp) (intervalMs : Nat) :
    (runTimerOps ops rt0).intervals.length ≤ 1 ∧
    ((runTimerOps ops rt0).module.isProcessing = true →
      QueueManager.startProcessing intervalMs (runTimerOps ops rt0) =
        { runTimerOps ops rt0 with
          module := { (runTimerOps ops rt0).module with
            logs := (runTimerOps ops rt0).module.logs
              ++ [⟨.warn, "Queue processing is already active."⟩] } }) ∧
    ((runTimerOps ops rt0).module.isProcessing = false →
      QueueManager.stopProcessing (runTimerOps ops rt0) = runTimerOps ops rt0) ∧
    ((runTimerOps ops rt0).module.isProcessing = true →
      ∃ handle ms, (runTimerOps ops rt0).intervals = [⟨handle, ms⟩] ∧
        QueueManager.stopProcessing (runTimerOps ops rt0) =
          { runTimerOps ops rt0 with
            intervals := []
            cleared := (runTimerOps ops rt0).cleared ++ [handle]
            module := { (runTimerOps ops rt0).module with
              processingInterval := none, isProcessing := false } }) ∧
    QueueManager.stopProcessing (QueueManager.stopProcessing (runTimerOps ops rt0))
      = QueueManager.stopProcessing (runTimerOps ops rt0) := by
  have hinv : (runTimerOps ops rt0).TimerInv :=
    runTimerOps_inv ops rt0 (Or.inr ⟨hidle, hnull, hnone⟩)
  generalize runTimerOps ops rt0 = rt at *
  rcases hinv with ⟨hp, handle, ms, hh, hi⟩ | ⟨hp, hh, hi⟩
  · refine ⟨by simp [hi], fun _ => by simp [QueueManager.startProcessing, hp], ?_, ?_, ?_⟩
    · intro h; rw [hp] at h; cases h
    · intro _
      exact ⟨handle, ms, hi, by simp [QueueManager.stopProcessing, clearInterval, hh, hi]⟩
    · simp [QueueManager.stopProcessing, clearInterval, hh, hi]
  · refine ⟨by simp [hi], ?_, fun _ => by simp [QueueManager.stopProcessing, hh], ?_, ?_⟩
    · intro h; rw [hp] at h; cases h
    · intro h; rw [hp] at h; cases h
    · simp [QueueManager.stopProcessing, hh]

/-- C15 at the test 'should not start processing if already active', followed by a stop:
after two calls of `startProcessing(100)` one interval is set, and `stopProcessing`
clears it. -/
theorem startProcessing_stopProcessing_idempotent_witness :
    (Runtime.boot ()).module.isProcessing = false ∧
    (Runtime.boot ()).module.processingInterval = none ∧
    (Runtime.boot ()).intervals = [] ∧
    (runTimerOps [.startProcessing 100, .startProcessing 100] (Runtime.boot ())).module.isProcessing
      = true ∧
    (runTimerOps [.startProcessing 100, .startProcessing 100] (Runtime.boot ())).intervals
      = [⟨1, 100⟩] ∧
    ∃ handle ms,
      (runTimerOps [.startProcessing 100, .startProcessing 100] (Runtime.boot ())).intervals
        = [⟨handle, ms⟩] ∧
      QueueManager.stopProcessing
          (runTimerOps [.startProcessing 100, .startProcessing 100] (Runtime.boot ())) =
        { runTimerOps [.startProcessing 100, .startProcessing 100] (Runtime.boot ()) with
          intervals := []
          cleared := (runTimerOps [.startProcessing 100, .startProcessing 100]
            (Runtime.boot ())).cleared ++ [handle]
          module := { (runTimerOps [.startProcessing 100, .startProcessing 100]
            (Runtime.boot ())).module with processingInterval := none, isProcessing := false } } :=
  ⟨rfl, rfl, rfl, rfl, rfl,
    (startProcessing_stopProcessing_idempotent (Runtime.boot ()) rfl rfl rfl
      [.startProcessing 100, .startProcessing 100] 100).2.2.2.1 rfl⟩

/-- C17. For every answer of axios to the request of `getPreviousAiSummary`.  When axios
rejects with `error`: the method returns { previousSummary: null } if and only if `error`
carries a response with status 404, and otherwise raises the `ServiceError` with message
'Failed to get previous AI summary: ' followed by `error.message`.  When axios resolves:
with status 200 the method returns the body, and with any other status it raises the
`ServiceError` with message 'Failed to get previous AI summary: Main service returned
non-200 status: ' followed by the status.  In all cases what is raised is a `ServiceError`
whose message starts with 'Failed to get previous AI summary: '. -/
theorem getPreviousAiSummary_not_found {τ : Type} (config : Config)
    (axios : Axios τ PreviousSummaryResponse) (websiteId : String) (h : HttpState τ) :
    (∀ error w, axios ⟨.get, config.mainServiceBaseUrl ++ "/websites/" ++ websiteId ++ "/summary",
        none, some ⟨some config.scraperTimeoutMs, []⟩⟩ h.world = (.error error, w) →
      ((MainService.getPreviousAiSummary config axios websiteId h).1 = .ok ⟨none⟩
        ↔ error.response = some ⟨404⟩) ∧
      (error.response ≠ some ⟨404⟩ →
        (MainService.getPreviousAiSummary config axios websiteId h).1
          = .error (ServiceError.new "Main Service"
              ("Failed to get previous AI summary: " ++ error.message)))) ∧
    (∀ response w, axios ⟨.get,
        config.mainServiceBaseUrl ++ "/websites/" ++ websiteId ++ "/summary",
        none, some ⟨some config.scraperTimeoutMs, []⟩⟩ h.world = (.ok response, w) →
      (response.status = 200 →
        (MainService.getPreviousAiSummary config axios websiteId h).1 = .ok response.data) ∧
      (response.status ≠ 200 →
        (MainService.getPreviousAiSummary config axios websiteId h).1
          = .error (ServiceError.new "Main Service"
              ("Failed to get previous AI summary: " ++
                ("Main service returned non-200 status: " ++ toString response.status))))) ∧
    (∀ raised, (MainService.getPreviousAiSummary config axios websiteId h).1 = .error raised →
      raised.name = "ServiceError" ∧
      ∃ rest, raised.message = "Failed to get previous AI summary: " ++ rest) := by
  refine ⟨fun error w hax => ?_, fun response w hax => ?_, fun raised => ?_⟩
  · obtain ⟨message, response⟩ := error
    rcases response with _ | ⟨⟨status⟩⟩
    · simp [MainService.getPreviousAiSummary, HttpState.send, hax]
    · by_cases h404 : status = 404 <;>
        simp [MainService.getPreviousAiSummary, HttpState.send, hax, h404]
  · by_cases h200 : response.status = 200 <;>
      simp [MainService.getPreviousAiSummary, HttpState.send, hax, h200]
  · rcases hax : axios ⟨.get, config.mainServiceBaseUrl ++ "/websites/" ++ websiteId
        ++ "/summary", none, some ⟨some config.scraperTimeoutMs, []⟩⟩ h.world
      with ⟨⟨message, response⟩ | response, w⟩
    · rcases response with _ | ⟨⟨status⟩⟩
      · simp only [MainService.getPreviousAiSummary, HttpState.send, hax]
        simp
        rintro rfl
        exact ⟨rfl, _, rfl⟩
      · by_cases h404 : status = 404 <;>
          simp [MainService.getPreviousAiSummary, HttpState.send, hax, h404]
        rintro rfl
        exact ⟨rfl, _, rfl⟩
    · by_cases h200 : response.status = 200 <;>
        simp [MainService.getPreviousAiSummary, HttpState.send, hax, h200]
      rintro rfl
      exact ⟨rfl, _, rfl⟩

/-- C17 at the test 'should return { previousSummary: null } if main service returns 404'. -/
theorem getPreviousAiSummary_not_found_witness :
    (axiosMock (.error ⟨"Request failed with status code 404", some ⟨404⟩⟩) :
        Axios Unit PreviousSummaryResponse)
      ⟨.get, testConfig.mainServiceBaseUrl ++ "/websites/" ++ "test-website-id-123" ++ "/summary",
        none, some ⟨some testConfig.scraperTimeoutMs, []⟩⟩ freshHttp.world
      = (.error ⟨"Request failed with status code 404", some ⟨404⟩⟩, ()) ∧
    (MainService.getPreviousAiSummary testConfig
      (axiosMock (.error ⟨"Request failed with status code 404", some ⟨404⟩⟩))
      "test-website-id-123" freshHttp).1 = .ok ⟨none⟩ :=
  ⟨rfl, ((getPreviousAiSummary_not_found testConfig
    (axiosMock (.error ⟨"Request failed with status code 404", some ⟨404⟩⟩))
    "test-website-id-123" freshHttp).1 ⟨"Request failed with status code 404", some ⟨404⟩⟩ ()
    rfl).1.mpr rfl⟩

/-- C19 fails on the code.  At the inputs of tests/unit/services/aiService.test.js, the
request of `AiService.getSummary` and the request of `AiService.mergeSummaries` carry no
options argument, hence no timeout, whereas the request of
`MainService.getPreviousAiSummary` carries `{ timeout: config.scraperTimeoutMs }`. -/
theorem aiService_requests_without_timeout :
    (AiService.getSummary testConfig (axiosMock (.ok ⟨200, ⟨some "This is a summary."⟩⟩))
        ⟨"some text", [], []⟩ "/blog" freshHttp).2.requests
      = [⟨.post, "http://mock-ai-service.com/summary",
          some (.summary ⟨"some text", [], []⟩ "/blog"), none⟩] ∧
    (AiService.mergeSummaries testConfig (axiosMock (.ok ⟨200, ⟨some "Combined summary."⟩⟩))
        (some "Fresh summary.") (some "Old summary.") ⟨"context", [], []⟩ "W" freshHttp).2.requests
      = [⟨.post, "http://mock-ai-service.com/merge",
          some (.merge (some "Fresh summary.") (some "Old summary.") ⟨"context", [], []⟩ "" "W"),
          none⟩] ∧
    ((AiService.getSummary testConfig (axiosMock (.ok ⟨200, ⟨some "This is a summary."⟩⟩))
        ⟨"some text", [], []⟩ "/blog" freshHttp).2.requests.map AxiosCall.hasTimeout = [false]) ∧
    ((MainService.getPreviousAiSummary testConfig
        (axiosMock (.ok ⟨200, ⟨some "This is an old summary."⟩⟩))
        "test-website-id-123" freshHttp).2.requests.map AxiosCall.config
      = [some ⟨some 5000, []⟩]) :=
  ⟨rfl, rfl, rfl, rfl⟩

/-- C18. For every job and every behaviour of the collaborators in which steps 1 to 3
return and `getPreviousAiSummary` returns an absent (or null) `previousSummary`: the next
call is `mergeSummaries` with previous summary null, whatever its outcome; when the merge
returns, the call after it is `sendNewSummary` with the merged summary; when that returns
too, the call after it is `updateStatus(id, 'scraped')`; and `updateStatus(id, 'failed')`
is called only if the merge, the send or the write of `scraped` threw, never on account of
the missing previous summary. -/
theorem processScrapeRequest_no_previous_summary {σ : Type} (c : Collaborators σ)
    (scrapeRequest : ScrapedPath) (s : ModuleState σ) (n1 : Nat) (content : ScrapedData)
    (fresh : Option String) (w1 w2 w3 w4 : σ)
    (h1 : c.updateStatus scrapeRequest.id .scraping s.world = (.ok n1, w1))
    (h2 : c.scrapePage (scrapeRequest.baseUrl ++ scrapeRequest.pathName) w1 = (.ok content, w2))
    (h3 : c.getSummary content scrapeRequest.pathName scrapeRequest.websiteId w2
      = (.ok ⟨fresh⟩, w3))
    (h4 : c.getPreviousAiSummary scrapeRequest.websiteId w3 = (.ok ⟨none⟩, w4)) :
    (callsSince s (Processor.processScrapeRequest c scrapeRequest s).2).take 5
      = [⟨.updateStatus scrapeRequest.id .scraping, none⟩,
         ⟨.scrapePage (scrapeRequest.baseUrl ++ scrapeRequest.pathName), none⟩,
         ⟨.getSummary content scrapeRequest.pathName scrapeRequest.websiteId, none⟩,
         ⟨.getPreviousAiSummary scrapeRequest.websiteId, none⟩,
         ⟨.mergeSummaries fresh none content scrapeRequest.websiteId,
           thrown (c.mergeSummaries fresh none content scrapeRequest.websiteId w4).1⟩] ∧
    (∀ merged w5,
      c.mergeSummaries fresh none content scrapeRequest.websiteId w4 = (.ok ⟨merged⟩, w5) →
      (callsSince s (Processor.processScrapeRequest c scrapeRequest s).2)[5]?
        = some ⟨.sendNewSummary scrapeRequest.websiteId merged,
            thrown (c.sendNewSummary scrapeRequest.websiteId merged w5).1⟩) ∧
    (∀ merged w5 w6,
      c.mergeSummaries fresh none content scrapeRequest.websiteId w4 = (.ok ⟨merged⟩, w5) →
      c.sendNewSummary scrapeRequest.websiteId merged w5 = (.ok (), w6) →
      (callsSince s (Processor.processScrapeRequest c scrapeRequest s).2)[6]?
        = some ⟨.updateStatus scrapeRequest.id .scraped,
            thrown (c.updateStatus scrapeRequest.id .scraped w6).1⟩) ∧
    (∀ r ∈ callsSince s (Processor.processScrapeRequest c scrapeRequest s).2,
      r.call = .updateStatus scrapeRequest.id .failed →
      ∃ x ∈ callsSince s (Processor.processScrapeRequest c scrapeRequest s).2,
        x.error ≠ none ∧ 5 ≤ x.call.step ∧ x.call.step ≤ 7) := by
  obtain ⟨id, websiteId, pathName, baseUrl, status⟩ := scrapeRequest
  simp only at h1 h2 h3 h4
  rcases h5 : c.mergeSummaries fresh none content websiteId w4 with ⟨e5 | ⟨⟨merged⟩⟩, w5⟩
  · rcases hf : c.updateStatus id .failed w5 with ⟨ef | nf, wf⟩ <;>
    simp [Processor.processScrapeRequest, bind, pure, Eff.bind, Eff.pure, Eff.tryCatch,
      invoke, logger.error, callsSince, thrown, orNull, Call.step, SCRAPE_STATUS.SCRAPING,
      SCRAPE_STATUS.SCAPED, SCRAPE_STATUS.FAILED, h1, h2, h3, h4, h5, hf]
  rcases h6 : c.sendNewSummary websiteId merged w5 with ⟨e6 | u, w6⟩
  · rcases hf : c.updateStatus id .failed w6 with ⟨ef | nf, wf⟩ <;>
    simp [Processor.processScrapeRequest, bind, pure, Eff.bind, Eff.pure, Eff.tryCatch,
      invoke, logger.error, callsSince, thrown, orNull, Call.step, SCRAPE_STATUS.SCRAPING,
      SCRAPE_STATUS.SCAPED, SCRAPE_STATUS.FAILED, h1, h2, h3, h4, h5, h6, hf] <;>
    (intros; subst_vars; simp_all)
  rcases h7 : c.updateStatus id .scraped w6 with ⟨e7 | n7, w7⟩
  · rcases hf : c.updateStatus id .failed w7 with ⟨ef | nf, wf⟩ <;>
    simp [Processor.processScrapeRequest, bind, pure, Eff.bind, Eff.pure, Eff.tryCatch,
      invoke, logger.error, callsSince, thrown, orNull, Call.step, SCRAPE_STATUS.SCRAPING,
      SCRAPE_STATUS.SCAPED, SCRAPE_STATUS.FAILED, h1, h2, h3, h4, h5, h6, h7, hf] <;>
    (intros; subst_vars; simp_all [thrown])
  · simp [Processor.processScrapeRequest, bind, pure, Eff.bind, Eff.pure, Eff.tryCatch,
      invoke, logger.error, callsSince, thrown, orNull, Call.step, SCRAPE_STATUS.SCRAPING,
      SCRAPE_STATUS.SCAPED, SCRAPE_STATUS.FAILED, h1, h2, h3, h4, h5, h6, h7]
    intros; subst_vars; simp_all [thrown]

/-- C20. For every websiteId and every outcome of `findByWebsiteId`: the controller passes a
`NotFoundError` (status 404, code 'NOT_FOUND') to `next` and sends no response if and only
if the repository returned null or an empty list; on a non-empty list it responds 200 with
the websiteId and, for each row in order, an entry made of exactly `id`, `pathName`,
`baseUrl`, `status`, `updatedAt` and `createdAt`, and passes nothing to `next`; and when
the repository throws it passes to `next` a `CustomError` with status 500 and code
'DB_FETCH_ERROR' and sends no response. -/
theorem getWebsitePathStatuses_outcomes (websiteId : String)
    (found : Except Error (Option (List PathRow))) :
    (((∃ e, (ScrapeController.getWebsitePathStatuses websiteId found).forwarded = some e ∧
          e.name = "NotFoundError" ∧ e.statusCode = 404 ∧ e.errorCode = "NOT_FOUND") ∧
        (ScrapeController.getWebsitePathStatuses websiteId found).response = none)
      ↔ (found = .ok none ∨ found = .ok (some []))) ∧
    (∀ rows : List PathRow, rows ≠ [] → found = .ok (some rows) →
      (ScrapeController.getWebsitePathStatuses websiteId found).response
        = some (200, ⟨websiteId, rows.map fun row =>
            ⟨row.id, row.pathName, row.baseUrl, row.status, row.updatedAt, row.createdAt⟩⟩) ∧
      (ScrapeController.getWebsitePathStatuses websiteId found).forwarded = none) ∧
    (∀ error : Error, found = .error error →
      (ScrapeController.getWebsitePathStatuses websiteId found).forwarded
        = some ⟨"CustomError", "Failed to retrieve website path statuses.", 500,
            "DB_FETCH_ERROR"⟩ ∧
      (ScrapeController.getWebsitePathStatuses websiteId found).response = none) := by
  rcases found with error | _ | rows
  · simp [ScrapeController.getWebsitePathStatuses, CustomError.new]
  · simp [ScrapeController.getWebsitePathStatuses, NotFoundError.new]
  · cases rows with
    | nil => simp [ScrapeController.getWebsitePathStatuses, NotFoundError.new]
    | cons row rows =>
      simp [ScrapeController.getWebsitePathStatuses]
      rintro _ _ rfl
      rfl

/-- C20 at the test 'should return path statuses for a given websiteId'. -/
theorem getWebsitePathStatuses_outcomes_witness :
    testRows ≠ [] ∧
    (ScrapeController.getWebsitePathStatuses "a1b2c3d4" (.ok (some testRows))).response
      = some (200, ⟨"a1b2c3d4",
          [⟨"path1-uuid", "/blog", "https://example.com", .scraped, 20, 10⟩,
           ⟨"path2-uuid", "/about", "https://example.com", .queued, 40, 30⟩]⟩) ∧
    (ScrapeController.getWebsitePathStatuses "a1b2c3d4" (.ok (some testRows))).forwarded
      = none :=
  ⟨by decide,
    (getWebsitePathStatuses_outcomes "a1b2c3d4" (.ok (some testRows))).2.1 testRows
      (by decide) rfl⟩

/-- C13 on a queue of two jobs whose pipelines both fail at the fetch: one call leaves the
second job, two calls leave nothing, and the pipelines started are those of `job-1` and
`job-2`, in this order. -/
theorem processNextItem_drains_fifo_witness :
    (QueueManager.processNextItemTimes fetchFailsMocks 1
        { freshState with scrapeQueue := [demoJob, demoJob2] }).scrapeQueue = [demoJob2] ∧
    (QueueManager.processNextItemTimes fetchFailsMocks 2
        { freshState with scrapeQueue := [demoJob, demoJob2] }).scrapeQueue = [] ∧
    pipelineStarts (callsSince { freshState with scrapeQueue := [demoJob, demoJob2] }
        (QueueManager.processNextItemTimes fetchFailsMocks 2
          { freshState with scrapeQueue := [demoJob, demoJob2] })) = ["job-1", "job-2"] :=
  ⟨(processNextItem_drains_fifo fetchFailsMocks
      { freshState with scrapeQueue := [demoJob, demoJob2] } 1).1,
    (processNextItem_drains_fifo fetchFailsMocks
      { freshState with scrapeQueue := [demoJob, demoJob2] } 2).1,
    (processNextItem_drains_fifo fetchFailsMocks
      { freshState with scrapeQueue := [demoJob, demoJob2] } 2).2.2.1⟩

/-- The amended C16 at the test 'should update status to FAILED if AI merge call fails': the
write of `scraping` is accepted and the transitions are queued→scraping, scraping→failed. -/
theorem status_writes_valid_witness :
    (⟨.updateStatus demoJob.id .scraping, none⟩ : CallRecord) ∈
      callsSince freshState (Processor.processScrapeRequest mergeFailsMocks demoJob
        freshState).2 ∧
    statusTransitions demoJob.id .queued
      (callsSince freshState (Processor.processScrapeRequest mergeFailsMocks demoJob
        freshState).2) = [(.queued, .scraping), (.scraping, .failed)] ∧
    (∀ t ∈ statusTransitions demoJob.id .queued
        (callsSince freshState (Processor.processScrapeRequest mergeFailsMocks demoJob
          freshState).2), validTransition t = true) :=
  ⟨by decide, by decide,
    (status_writes_valid mergeFailsMocks freshState).1 demoJob (by decide)⟩

/-- C18 on the happy path of the specification with no previous summary, as
`MainService.getPreviousAiSummary` reports it on a 404: the merge is called with null, and
the send and the write of `scraped` follow. -/
theorem processScrapeRequest_no_previous_summary_witness :
    (MainService.getPreviousAiSummary testConfig
      (axiosMock (.error ⟨"Request failed with status code 404", some ⟨404⟩⟩))
      "W" freshHttp).1 = .ok ⟨none⟩ ∧
    (happyMocks none).updateStatus demoJob.id .scraping freshState.world = (.ok 1, ()) ∧
    (happyMocks none).scrapePage (demoJob.baseUrl ++ demoJob.pathName) ()
      = (.ok demoPage, ()) ∧
    (happyMocks none).getSummary demoPage demoJob.pathName demoJob.websiteId ()
      = (.ok ⟨some "S1"⟩, ()) ∧
    (happyMocks none).getPreviousAiSummary demoJob.websiteId () = (.ok ⟨none⟩, ()) ∧
    (callsSince freshState (Processor.processScrapeRequest (happyMocks none) demoJob
        freshState).2).take 5
      = [⟨.updateStatus "job-1" .scraping, none⟩,
         ⟨.scrapePage "http://x/a", none⟩,
         ⟨.getSummary demoPage "/a" "W", none⟩,
         ⟨.getPreviousAiSummary "W", none⟩,
         ⟨.mergeSummaries (some "S1") none demoPage "W", none⟩] ∧
    (callsSince freshState (Processor.processScrapeRequest (happyMocks none) demoJob
        freshState).2)[6]? = some ⟨.updateStatus "job-1" .scraped, none⟩ :=
  ⟨rfl, rfl, rfl, rfl, rfl,
    (processScrapeRequest_no_previous_summary (happyMocks none) demoJob freshState 1 demoPage
      (some "S1") () () () () rfl rfl rfl rfl).1,
    (processScrapeRequest_no_previous_summary (happyMocks none) demoJob freshState 1 demoPage
      (some "S1") () () () () rfl rfl rfl rfl).2.2.1 (some "S2") () () rfl rfl⟩

/-! ## The invariant of the store and the queue -/

/-- Setting a status keeps the id. -/
theorem setStatus_id (id : String) (st : Status) (r : ScrapedPath) :
    (setStatus id st r).id = r.id := by
  unfold setStatus; split <;> rfl

/-- Setting a status keeps the identity. -/
theorem setStatus_identity (id : String) (st : Status) (r : ScrapedPath) :
    (setStatus id st r).identity = r.identity := by
  unfold setStatus; split <;> rfl

/-- Setting the status of another id changes nothing. -/
theorem setStatus_of_ne (id : String) (st : Status) (r : ScrapedPath) (h : r.id ≠ id) :
    setStatus id st r = r := by
  simp [setStatus, h]

/-- What a visit of the loop body does to the rows and to the queue, against a faithful
store: nothing; or it re-activates a row found `scraped` or `failed` and appends it; or it
appends a newly created row, of an identity that no row had, to both. -/
theorem addRequestPath_effect {σ : Type} (c : Collaborators σ) (table : σ → List ScrapedPath)
    (hstore : FaithfulStore c table) (websiteId baseWebsiteUrl : String) (pathObj : PathObj)
    (results : List PathResult) (s : ModuleState σ) :
    (table (QueueManager.addRequestPath c websiteId baseWebsiteUrl pathObj results s).2.world
        = table s.world ∧
      (QueueManager.addRequestPath c websiteId baseWebsiteUrl pathObj results s).2.scrapeQueue
        = s.scrapeQueue) ∨
    (∃ record ∈ table s.world,
      (record.status = .scraped ∨ record.status = .failed) ∧
      table (QueueManager.addRequestPath c websiteId baseWebsiteUrl pathObj results s).2.world
        = (table s.world).map (setStatus record.id .queued) ∧
      (QueueManager.addRequestPath c websiteId baseWebsiteUrl pathObj results s).2.scrapeQueue
        = s.scrapeQueue ++ [record]) ∨
    (∃ r : ScrapedPath, r.status = .queued ∧ (∀ x ∈ table s.world, x.id ≠ r.id) ∧
      (∀ x ∈ table s.world, x.identity ≠ r.identity) ∧
      table (QueueManager.addRequestPath c websiteId baseWebsiteUrl pathObj results s).2.world
        = table s.world ++ [r] ∧
      (QueueManager.addRequestPath c websiteId baseWebsiteUrl pathObj results s).2.scrapeQueue
        = s.scrapeQueue ++ [r]) := by
  obtain ⟨path, needsScraping⟩ := pathObj
  cases needsScraping with
  | false => left; simp [QueueManager.addRequestPath, pure, Eff.pure]
  | true =>
    rcases hfind : c.findByUniqueIdentifiers websiteId path baseWebsiteUrl s.world
      with ⟨e | found, w⟩
    · left
      have := hstore.find_error _ _ _ _ _ _ hfind
      simp [QueueManager.addRequestPath, bind, pure, Eff.bind, Eff.pure, Eff.tryCatch, invoke,
        hfind, thrown, logger.error, this]
    · cases found with
      | none =>
        obtain ⟨htable, hnone⟩ := hstore.find_none _ _ _ _ _ hfind
        rcases hcreate : c.create ⟨websiteId, path, baseWebsiteUrl, .queued⟩ w with ⟨e | r, w1⟩
        · left
          have := hstore.create_error _ _ _ _ hcreate
          simp [QueueManager.addRequestPath, bind, pure, Eff.bind, Eff.pure, Eff.tryCatch,
            invoke, hfind, hcreate, thrown, logger.error, scrapeQueue.push,
            SCRAPE_STATUS.QUEUED, this, htable]
        · right; right
          obtain ⟨h1, -, h3, h4, h5⟩ := hstore.create_ok _ _ _ _ hcreate
          rw [htable] at h1 h4 h5
          refine ⟨r, h3, h4, h5, ?_⟩
          simp [QueueManager.addRequestPath, bind, pure, Eff.bind, Eff.pure, Eff.tryCatch,
            invoke, hfind, hcreate, thrown, logger.error, scrapeQueue.push,
            SCRAPE_STATUS.QUEUED, h1]
      | some record =>
        obtain ⟨htable, hmem, -⟩ := hstore.find_some _ _ _ _ _ _ hfind
        rcases hupdate : c.updateStatus record.id .queued w with ⟨e | n, w1⟩ <;>
        rcases hstatus : record.status
        case ok.scraped | ok.failed =>
          right; left
          have h1 := hstore.update_ok _ _ _ _ _ hupdate
          rw [htable] at h1
          refine ⟨record, hmem, by simp [hstatus], ?_⟩
          simp [QueueManager.addRequestPath, bind, pure, Eff.bind, Eff.pure, Eff.tryCatch,
            invoke, hfind, hupdate, hstatus, thrown, scrapeQueue.push, logger.error,
            logger.warn, SCRAPE_STATUS.QUEUED, SCRAPE_STATUS.SCRAPING, SCRAPE_STATUS.SCAPED,
            SCRAPE_STATUS.FAILED, h1]
        all_goals
          left
          have h1 := hstore.update_error record.id .queued w
          simp [QueueManager.addRequestPath, bind, pure, Eff.bind, Eff.pure, Eff.tryCatch,
            invoke, hfind, hupdate, hstatus, thrown, scrapeQueue.push, logger.error,
            logger.warn, SCRAPE_STATUS.QUEUED, SCRAPE_STATUS.SCRAPING, SCRAPE_STATUS.SCAPED,
            SCRAPE_STATUS.FAILED, htable]
          try exact h1 _ _ hupdate ▸ htable

/-- Setting a status keeps the identities and the ids of the rows. -/
theorem map_setStatus_keys (id : String) (st : Status) (table : List ScrapedPath) :
    (table.map (setStatus id st)).map ScrapedPath.identity = table.map ScrapedPath.identity ∧
    (table.map (setStatus id st)).map ScrapedPath.id = table.map ScrapedPath.id := by
  constructor <;> rw [List.map_map] <;> apply List.map_congr_left <;> intro r _
  · exact setStatus_identity id st r
  · exact setStatus_id id st r

/-- A visit of the loop body keeps the invariant. -/
theorem addRequestPath_inv {σ : Type} (c : Collaborators σ) (table : σ → List ScrapedPath)
    (hstore : FaithfulStore c table) (websiteId baseWebsiteUrl : String) (pathObj : PathObj)
    (results : List PathResult) (s : ModuleState σ)
    (h : QueueInv (table s.world) s.scrapeQueue) :
    QueueInv
      (table (QueueManager.addRequestPath c websiteId baseWebsiteUrl pathObj results s).2.world)
      (QueueManager.addRequestPath c websiteId baseWebsiteUrl pathObj results s).2.scrapeQueue := by
  rcases addRequestPath_effect c table hstore websiteId baseWebsiteUrl pathObj results s with
    ⟨ht, hq⟩ | ⟨record, hmem, hstatus, ht, hq⟩ | ⟨r, hstatus, hid, hident, ht, hq⟩
  · rw [ht, hq]; exact h
  · rw [ht, hq]
    obtain ⟨hkeys1, hkeys2⟩ := map_setStatus_keys record.id .queued (table s.world)
    have hnew : ∀ q ∈ s.scrapeQueue, q.identity ≠ record.identity := by
      intro q hqmem heq
      obtain ⟨r, hr, -, hri, hrs⟩ := h.queued q hqmem
      have : r = record :=
        List.inj_on_of_nodup_map h.identities hr hmem (hri.trans heq)
      subst this
      rcases hstatus with hs | hs <;> rw [hs] at hrs <;> cases hrs
    refine ⟨by rw [hkeys1]; exact h.identities, by rw [hkeys2]; exact h.ids, ?_, ?_⟩
    · intro q hqmem
      rcases List.mem_append.1 hqmem with hold | hnewq
      · obtain ⟨r, hr, hri, hrident, hrs⟩ := h.queued q hold
        refine ⟨setStatus record.id .queued r, List.mem_map_of_mem _ hr,
          (setStatus_id _ _ r).trans hri, (setStatus_identity _ _ r).trans hrident, ?_⟩
        unfold setStatus; split
        · rfl
        · exact hrs
      · rw [List.mem_singleton] at hnewq
        subst hnewq
        exact ⟨setStatus q.id .queued q, List.mem_map_of_mem _ hmem, setStatus_id _ _ q,
          setStatus_identity _ _ q, by simp [setStatus]⟩
    · rw [List.map_append, List.nodup_append]
      refine ⟨h.distinct, by simp, ?_⟩
      intro a ha hb
      simp only [List.map_cons, List.map_nil, List.mem_singleton] at hb
      obtain ⟨q, hqmem, rfl⟩ := List.mem_map.1 ha
      exact hnew q hqmem hb
  · rw [ht, hq]
    have hnew : ∀ q ∈ s.scrapeQueue, q.identity ≠ r.identity := by
      intro q hqmem heq
      obtain ⟨x, hx, -, hxi, -⟩ := h.queued q hqmem
      exact hident x hx (hxi.trans heq)
    refine ⟨?_, ?_, ?_, ?_⟩
    · rw [List.map_append, List.nodup_append]
      refine ⟨h.identities, by simp, ?_⟩
      intro a ha hb
      simp only [List.map_cons, List.map_nil, List.mem_singleton] at hb
      obtain ⟨x, hx, rfl⟩ := List.mem_map.1 ha
      exact hident x hx hb
    · rw [List.map_append, List.nodup_append]
      refine ⟨h.ids, by simp, ?_⟩
      intro a ha hb
      simp only [List.map_cons, List.map_nil, List.mem_singleton] at hb
      obtain ⟨x, hx, rfl⟩ := List.mem_map.1 ha
      exact hid x hx hb
    · intro q hqmem
      rcases List.mem_append.1 hqmem with hold | hnewq
      · obtain ⟨x, hx, h1, h2, h3⟩ := h.queued q hold
        exact ⟨x, List.mem_append_left _ hx, h1, h2, h3⟩
      · rw [List.mem_singleton] at hnewq
        subst hnewq
        exact ⟨q, by simp, rfl, rfl, hstatus⟩
    · rw [List.map_append, List.nodup_append]
      refine ⟨h.distinct, by simp, ?_⟩
      intro a ha hb
      simp only [List.map_cons, List.map_nil, List.mem_singleton] at hb
      obtain ⟨q, hqmem, rfl⟩ := List.mem_map.1 ha
      exact hnew q hqmem hb

/-- The loop of `addRequest` keeps the invariant. -/
theorem addRequestFrom_inv {σ : Type} (c : Collaborators σ) (table : σ → List ScrapedPath)
    (hstore : FaithfulStore c table) (websiteId baseWebsiteUrl : String) (paths : List PathObj)
    (results : List PathResult) (s : ModuleState σ)
    (h : QueueInv (table s.world) s.scrapeQueue) :
    QueueInv
      (table (QueueManager.addRequestFrom c websiteId baseWebsiteUrl paths results s).2.world)
      (QueueManager.addRequestFrom c websiteId baseWebsiteUrl paths results s).2.scrapeQueue := by
  induction paths generalizing results s with
  | nil => simpa [addRequestFrom_nil] using h
  | cons pathObj rest ih =>
    obtain ⟨status, message, s1, h1⟩ :=
      addRequestPath_spec c websiteId baseWebsiteUrl pathObj s
    rw [addRequestFrom_cons c websiteId baseWebsiteUrl pathObj rest results _ s s1 (h1 results)]
    apply ih
    have := addRequestPath_inv c table hstore websiteId baseWebsiteUrl pathObj results s h
    rwa [h1 results] at this

/-- Against a faithful store, a run of the pipeline on `job` leaves the queue alone and
changes the rows only by rewriting statuses of rows with the id of `job`. -/
theorem processScrapeRequest_table {σ : Type} (c : Collaborators σ)
    (table : σ → List ScrapedPath) (hstore : FaithfulStore c table) (job : ScrapedPath)
    (s : ModuleState σ) :
    (Processor.processScrapeRequest c job s).2.scrapeQueue = s.scrapeQueue ∧
    ∃ f : ScrapedPath → ScrapedPath,
      table (Processor.processScrapeRequest c job s).2.world = (table s.world).map f ∧
      ∀ r, (f r).id = r.id ∧ (f r).identity = r.identity ∧ (r.id ≠ job.id → f r = r) := by
  refine ⟨(processScrapeRequest_frame c job s).1, ?_⟩
  refine processScrapeRequest_preserves c job
    (fun a b => ∃ f : ScrapedPath → ScrapedPath,
      table b.world = (table a.world).map f ∧
      ∀ r, (f r).id = r.id ∧ (f r).identity = r.identity ∧ (r.id ≠ job.id → f r = r))
    (fun a => ⟨id, by simp, fun r => ⟨rfl, rfl, fun _ => rfl⟩⟩)
    ?_ ?_ ?_ ?_ ?_ ?_ ?_ ?_ s
  · rintro a b d ⟨f, hf, hf1⟩ ⟨g, hg, hg1⟩
    refine ⟨g ∘ f, by rw [hg, hf, List.map_map], fun r => ⟨?_, ?_, fun hne => ?_⟩⟩
    · exact ((hg1 (f r)).1).trans (hf1 r).1
    · exact ((hg1 (f r)).2.1).trans (hf1 r).2.1
    · simp only [Function.comp]
      rw [(hf1 r).2.2 hne]
      exact (hg1 r).2.2 hne
  · intro st a
    rcases hupdate : c.updateStatus job.id st a.world with ⟨e | n, w⟩
    · exact ⟨id, by simp [invoke, hupdate, hstore.update_error _ _ _ _ _ hupdate],
        fun r => ⟨rfl, rfl, fun _ => rfl⟩⟩
    · exact ⟨setStatus job.id st, by simp [invoke, hupdate, hstore.update_ok _ _ _ _ _ hupdate],
        fun r => ⟨setStatus_id _ _ r, setStatus_identity _ _ r, setStatus_of_ne _ _ r⟩⟩
  · intro url a
    exact ⟨id, by simp [invoke, hstore.scrapePage], fun r => ⟨rfl, rfl, fun _ => rfl⟩⟩
  · intro d p w a
    exact ⟨id, by simp [invoke, hstore.getSummary], fun r => ⟨rfl, rfl, fun _ => rfl⟩⟩
  · intro w a
    exact ⟨id, by simp [invoke, hstore.getPreviousAiSummary], fun r => ⟨rfl, rfl, fun _ => rfl⟩⟩
  · intro f p d w a
    exact ⟨id, by simp [invoke, hstore.mergeSummaries], fun r => ⟨rfl, rfl, fun _ => rfl⟩⟩
  · intro w m a
    exact ⟨id, by simp [invoke, hstore.sendNewSummary], fun r => ⟨rfl, rfl, fun _ => rfl⟩⟩
  · intro line a
    exact ⟨id, by simp [logger.error], fun r => ⟨rfl, rfl, fun _ => rfl⟩⟩

/-- A call of `processNextItem` keeps the invariant. -/
theorem processNextItem_inv {σ : Type} (c : Collaborators σ) (table : σ → List ScrapedPath)
    (hstore : FaithfulStore c table) (s : ModuleState σ)
    (h : QueueInv (table s.world) s.scrapeQueue) :
    QueueInv (table (QueueManager.processNextItem c s).2.world)
      (QueueManager.processNextItem c s).2.scrapeQueue := by
  rcases hq : s.scrapeQueue with _ | ⟨job, rest⟩
  · have hs : (QueueManager.processNextItem c s).2 = s := by
      simp [QueueManager.processNextItem, hq]
    rw [hs, hq]; rw [hq] at h; exact h
  · have hs : QueueManager.processNextItem c s
        = Processor.processScrapeRequest c job { s with scrapeQueue := rest } := by
      simp [QueueManager.processNextItem, hq]
    rw [hs]
    obtain ⟨hqueue, f, hf, hf1⟩ :=
      processScrapeRequest_table c table hstore job { s with scrapeQueue := rest }
    rw [hqueue, hf]
    rw [hq] at h
    have hdistinct := h.distinct
    rw [List.map_cons, List.nodup_cons] at hdistinct
    obtain ⟨rj, hrj, hrjid, hrjident, -⟩ := h.queued job (List.mem_cons_self _ _)
    refine ⟨?_, ?_, ?_, hdistinct.2⟩
    · have : (List.map f (table s.world)).map ScrapedPath.identity
          = (table s.world).map ScrapedPath.identity := by
        rw [List.map_map]; exact List.map_congr_left fun r _ => (hf1 r).2.1
      show ((List.map f (table s.world)).map ScrapedPath.identity).Nodup
      rw [this]; exact h.identities
    · have : (List.map f (table s.world)).map ScrapedPath.id
          = (table s.world).map ScrapedPath.id := by
        rw [List.map_map]; exact List.map_congr_left fun r _ => (hf1 r).1
      show ((List.map f (table s.world)).map ScrapedPath.id).Nodup
      rw [this]; exact h.ids
    · intro q hqmem
      obtain ⟨r, hr, hrid, hrident, hrs⟩ := h.queued q (List.mem_cons_of_mem _ hqmem)
      have hne : r.id ≠ job.id := by
        intro heq
        have : r = rj := List.inj_on_of_nodup_map h.ids hr hrj (heq.trans hrjid.symm)
        subst this
        apply hdistinct.1
        rw [← hrjident, hrident]
        exact List.mem_map_of_mem _ hqmem
      refine ⟨r, ?_, hrid, hrident, hrs⟩
      have := List.mem_map_of_mem f hr
      rwa [(hf1 r).2.2 hne] at this

/-- Every sequence of calls of `addRequest` and `processNextItem` keeps the invariant. -/
theorem runQueueOps_inv {σ : Type} (c : Collaborators σ) (table : σ → List ScrapedPath)
    (hstore : FaithfulStore c table) (ops : List QueueOp) (s : ModuleState σ)
    (h : QueueInv (table s.world) s.scrapeQueue) :
    QueueInv (table (runQueueOps c ops s).world) (runQueueOps c ops s).scrapeQueue := by
  induction ops generalizing s with
  | nil => exact h
  | cons op ops ih =>
    apply ih
    cases op with
    | addRequest requestData =>
      exact addRequestFrom_inv c table hstore _ _ _ _ s h
    | processNextItem => exact processNextItem_inv c table hstore s h

/-- C14. Against a store that faithfully records creates and status updates and keeps
identities and ids unique (`FaithfulStore`), and whatever the fetcher and the services do:
in every state reached from a state with an empty queue by any sequence of calls of
`addRequest` and `processNextItem`, each run to completion, the queue holds at most one
entry of any identity (websiteId, pathName, baseUrl) and the store holds at most one row
of any identity. -/
theorem queue_and_store_identities_unique {σ : Type} (c : Collaborators σ)
    (table : σ → List ScrapedPath) (hstore : FaithfulStore c table) (s0 : ModuleState σ)
    (hempty : s0.scrapeQueue = [])
    (hidentities : ((table s0.world).map ScrapedPath.identity).Nodup)
    (hids : ((table s0.world).map ScrapedPath.id).Nodup) (ops : List QueueOp) :
    ((runQueueOps c ops s0).scrapeQueue.map ScrapedPath.identity).Nodup ∧
    ((table (runQueueOps c ops s0).world).map ScrapedPath.identity).Nodup := by
  have h0 : QueueInv (table s0.world) s0.scrapeQueue :=
    ⟨hidentities, hids, by simp [hempty], by simp [hempty]⟩
  have h := runQueueOps_inv c table hstore ops s0 h0
  exact ⟨h.distinct, h.identities⟩

/-- The in-memory store is a faithful store. -/
theorem memoryStore_faithful (script : Collaborators Unit) :
    FaithfulStore (memoryStore script) id where
  find_error := by intro i p b w e w1 h; simp [memoryStore] at h
  find_none := by
    intro i p b w w1 h
    simp only [memoryStore, Prod.mk.injEq, Except.ok.injEq] at h
    obtain ⟨h1, rfl⟩ := h
    refine ⟨rfl, fun r hr => ?_⟩
    have := List.find?_eq_none.1 h1 r hr
    simpa using this
  find_some := by
    intro i p b w record w1 h
    simp only [memoryStore, Prod.mk.injEq, Except.ok.injEq] at h
    obtain ⟨h1, rfl⟩ := h
    refine ⟨rfl, List.mem_of_find?_eq_some h1, ?_⟩
    simpa using List.find?_some h1
  create_error := by
    intro d w e w1 h
    simp only [memoryStore] at h
    split at h <;> simp at h
    exact h.2 ▸ rfl
  create_ok := by
    intro d w r w1 h
    simp only [memoryStore] at h
    split at h <;> simp at h
    rename_i hall
    obtain ⟨rfl, rfl⟩ := h
    refine ⟨rfl, rfl, rfl, fun x hx => ?_, fun x hx => ?_⟩
    · have := List.all_eq_true.1 hall x hx
      simp at this
      exact this.1
    · have := List.all_eq_true.1 hall x hx
      simp at this
      exact this.2
  update_error := by intro id st w e w1 h; simp [memoryStore] at h
  update_ok := by
    intro id st w n w1 h
    simp only [memoryStore, Prod.mk.injEq] at h
    exact h.2 ▸ rfl
  scrapePage := fun _ _ => rfl
  getSummary := fun _ _ _ _ => rfl
  getPreviousAiSummary := fun _ _ => rfl
  mergeSummaries := fun _ _ _ _ _ => rfl
  sendNewSummary := fun _ _ _ => rfl

/-- C14 over the in-memory store, with pipelines that fail at the fetch: the same path is
submitted twice in one batch, processed, and submitted again; the queue then holds the one
re-activated record. -/
theorem queue_and_store_identities_unique_witness :
    FaithfulStore (memoryStore fetchFailsMocks) id ∧
    freshMemory.scrapeQueue = [] ∧
    ((id freshMemory.world).map ScrapedPath.identity).Nodup ∧
    ((id freshMemory.world).map ScrapedPath.id).Nodup ∧
    (runQueueOps (memoryStore fetchFailsMocks)
      [.addRequest ⟨"W", [⟨"/a", true⟩, ⟨"/a", true⟩], "http://x"⟩, .processNextItem,
       .addRequest ⟨"W", [⟨"/a", true⟩], "http://x"⟩] freshMemory).scrapeQueue
      = [⟨"id-0", "W", "/a", "http://x", .failed⟩] ∧
    ((runQueueOps (memoryStore fetchFailsMocks)
      [.addRequest ⟨"W", [⟨"/a", true⟩, ⟨"/a", true⟩], "http://x"⟩, .processNextItem,
       .addRequest ⟨"W", [⟨"/a", true⟩], "http://x"⟩] freshMemory).scrapeQueue.map
        ScrapedPath.identity).Nodup ∧
    ((id (runQueueOps (memoryStore fetchFailsMocks)
      [.addRequest ⟨"W", [⟨"/a", true⟩, ⟨"/a", true⟩], "http://x"⟩, .processNextItem,
       .addRequest ⟨"W", [⟨"/a", true⟩], "http://x"⟩] freshMemory).world).map
        ScrapedPath.identity).Nodup :=
  ⟨memoryStore_faithful fetchFailsMocks, rfl, List.nodup_nil, List.nodup_nil, by decide,
    queue_and_store_identities_unique (memoryStore fetchFailsMocks) id
      (memoryStore_faithful fetchFailsMocks) freshMemory rfl List.nodup_nil List.nodup_nil
      [.addRequest ⟨"W", [⟨"/a", true⟩, ⟨"/a", true⟩], "http://x"⟩, .processNextItem,
       .addRequest ⟨"W", [⟨"/a", true⟩], "http://x"⟩]⟩

/-! ## The request validators and the error handler -/

/-- The class of the path pattern, in words: a letter, a digit, or one of `-`, `_`, `.`,
`/`. -/
theorem pathCharClass_iff (ch : Char) :
    pathCharClass ch = true ↔
      (ch.isAlpha = true ∨ ch.isDigit = true ∨ ch = '-' ∨ ch = '_' ∨ ch = '.' ∨ ch = '/') := by
  simp only [pathCharClass, Char.isAlpha, Char.isUpper, Char.isLower, Char.isDigit,
    Bool.or_eq_true, Bool.and_eq_true, decide_eq_true_eq, beq_iff_eq, Char.le_def]
  constructor
  · rintro (((((((h | h) | h) | h) | h) | h) | h))
    all_goals first
      | (left; right; exact h)
      | (left; left; exact h)
      | (right; left; exact h)
      | (right; right; left; exact h)
      | (right; right; right; left; exact h)
      | (right; right; right; right; left; exact h)
      | (right; right; right; right; right; exact h)
  · rintro ((h | h) | h | h | h | h | h)
    all_goals simp [h]

/-- The path pattern, in words. -/
theorem pathPattern_iff (p : String) :
    pathPattern p = true ↔
      (p.data.head? = some '/' ∧
        ∀ ch ∈ p.data.tail, ch.isAlpha = true ∨ ch.isDigit = true ∨ ch = '-' ∨ ch = '_'
          ∨ ch = '.' ∨ ch = '/') := by
  unfold pathPattern
  rcases hd : p.data with _ | ⟨first, rest⟩
  · simp
  · by_cases hfirst : first = '/'
    · subst hfirst
      simp only [List.all_eq_true, pathCharClass_iff, List.head?_cons, List.tail_cons, true_and]
    · simp only [List.head?_cons, Option.some.injEq, hfirst, false_and, iff_false]
      split
      · rename_i heq
        simp only [List.cons.injEq] at heq
        exact absurd heq.1 hfirst
      · simp

/-- The details of the schema of `path` sit at the path it was given, and there is one
exactly when the value is a string that is empty or fails the pattern, or is missing. -/
theorem pathSchema_some (path : List PathSegment) (p : String) :
    (∀ d ∈ pathSchema path (some p), d.path = path) ∧
    ((∃ d, d ∈ pathSchema path (some p)) ↔ ¬ pathPattern p = true) := by
  unfold pathSchema
  by_cases hempty : p = ""
  · subst hempty
    simp [pathPattern]
  · by_cases hpat : pathPattern p = true <;> simp [hempty, hpat]

/-- C21. Take a request body whose `paths` is an array that holds at index `i` an element
whose `path` is the string `p`.  The schema reports no error at `paths[i].path` if and only
if `p` starts with `/` and every character after it is a letter (a-z, A-Z), a digit, `-`,
`_`, `.` or `/`.  For any other `p`, the empty string included, the validation middleware
answers with a `ValidationError` (400, `VALIDATION_ERROR`) one of whose details has the
field `paths.<i>.path`. -/
theorem scrapeRequestSchema_path_rule (joi : JoiLibrary) (body : ScrapeRequestBody)
    (items : List PathItem) (i : Nat) (item : PathItem) (p : String)
    (hpaths : body.paths = some items) (hitem : items[i]? = some item)
    (hpath : item.path = some p) :
    ((∀ d ∈ scrapeRequestSchema joi body, d.path ≠ [.key "paths", .index i, .key "path"]) ↔
      (p.data.head? = some '/' ∧
        ∀ ch ∈ p.data.tail, ch.isAlpha = true ∨ ch.isDigit = true ∨ ch = '-' ∨ ch = '_'
          ∨ ch = '.' ∨ ch = '/')) ∧
    (¬ (p.data.head? = some '/' ∧
        ∀ ch ∈ p.data.tail, ch.isAlpha = true ∨ ch.isDigit = true ∨ ch = '-' ∨ ch = '_'
          ∨ ch = '.' ∨ ch = '/') →
      ∃ error, validate joi (scrapeRequestSchema joi) body = .error error ∧
        error.statusCode = 400 ∧ error.errorCode = "VALIDATION_ERROR" ∧
        ∃ e ∈ error.details, e.field = "paths." ++ toString i ++ ".path") := by
  rw [← pathPattern_iff]
  obtain ⟨hat, hex⟩ := pathSchema_some [.key "paths", .index i, .key "path"] p
  have hmem : ∀ d, d ∈ scrapeRequestSchema joi body →
      d.path = [.key "paths", .index i, .key "path"] →
      d ∈ pathSchema [.key "paths", .index i, .key "path"] (some p) := by
    intro d hd hdp
    simp only [scrapeRequestSchema, hpaths, pathsSchema, pathItemSchema, List.mem_append,
      List.mem_flatMap] at hd
    rcases hd with ((hd | (⟨entry, hentry, hd | hd⟩ | hd)) | hd)
    · exfalso
      unfold websiteIdSchema at hd
      split at hd
      · simp at hd; subst hd; simp at hdp
      · split at hd <;> simp at hd
        subst hd; simp at hdp
    · obtain ⟨j, other⟩ := entry
      have hj := List.mk_mem_enum_iff_getElem?.1 hentry
      have hdpath : d.path = [.key "paths", .index j, .key "path"] := by
        unfold pathSchema at hd
        split at hd
        · simp at hd; subst hd; rfl
        · split at hd
          · simp at hd; subst hd; rfl
          · split at hd <;> simp at hd
            subst hd; rfl
      rw [hdpath] at hdp
      simp only [List.cons.injEq, PathSegment.index.injEq, and_true, true_and] at hdp
      subst hdp
      rw [hitem] at hj
      simp only [Option.some.injEq] at hj
      subst hj
      simpa [hpath] using hd
    · exfalso
      unfold needsScrapingSchema at hd
      split at hd <;> simp at hd
      subst hd; simp at hdp
    · exfalso
      split at hd <;> simp at hd
      subst hd; simp at hdp
    · exfalso
      unfold baseWebsiteUrlSchema at hd
      split at hd
      · simp at hd; subst hd; simp at hdp
      · split at hd
        · simp at hd; subst hd; simp at hdp
        · split at hd <;> simp at hd
          subst hd; simp at hdp
  have hthere : ∀ d, d ∈ pathSchema [.key "paths", .index i, .key "path"] (some p) →
      d ∈ scrapeRequestSchema joi body := by
    intro d hd
    simp only [scrapeRequestSchema, hpaths, pathsSchema, pathItemSchema, List.mem_append,
      List.mem_flatMap]
    refine Or.inl (Or.inr (Or.inl ⟨(i, item), List.mk_mem_enum_iff_getElem?.2 hitem, Or.inl ?_⟩))
    simpa [hpath] using hd
  refine ⟨⟨fun hnone => ?_, fun hok d hd hdp => ?_⟩, fun hbad => ?_⟩
  · by_contra hbad
    obtain ⟨d, hd⟩ := hex.2 hbad
    exact hnone d (hthere d hd) (hat d hd)
  · exact hex.1 ⟨d, hmem d hd hdp⟩ hok
  · obtain ⟨d, hd⟩ := hex.2 hbad
    have hin := hthere d hd
    have hfield : d.field = "paths." ++ toString i ++ ".path" := by
      simp only [JoiDetail.field, hat d hd, PathSegment.str, String.intercalate, List.map,
        String.intercalate.go]
      have h1 : ("paths" : String) ++ "." = "paths." := by decide
      have h2 : ("." : String) ++ "path" = ".path" := by decide
      rw [h1, String.append_assoc ("paths." ++ toString i), h2]
    rcases hschema : scrapeRequestSchema joi body with _ | ⟨first, rest⟩
    · rw [hschema] at hin; cases hin
    · refine ⟨ValidationError.new "Invalid request payload."
          ((first :: rest).map fun d => ⟨d.field, d.message joi⟩),
        by simp [validate, hschema], rfl, rfl, ?_⟩
      rw [hschema] at hin
      exact ⟨⟨d.field, d.message joi⟩, List.mem_map.2 ⟨d, hin, rfl⟩, hfield⟩

/-- C21 on the body of the test 'should return 400 for invalid path format', whose only
path is `invalid-path`: the error has a detail with the field `paths.0.path`. -/
theorem scrapeRequestSchema_path_rule_witness :
    (⟨some "a1b2c3d4-e5f6-7890-1234-567890abcdef", some [⟨some "invalid-path", some true⟩],
        some "https://integration-test.com"⟩ : ScrapeRequestBody).paths
      = some [⟨some "invalid-path", some true⟩] ∧
    [(⟨some "invalid-path", some true⟩ : PathItem)][0]? = some ⟨some "invalid-path", some true⟩ ∧
    (⟨some "invalid-path", some true⟩ : PathItem).path = some "invalid-path" ∧
    ¬ ("invalid-path".data.head? = some '/' ∧
        ∀ ch ∈ "invalid-path".data.tail, ch.isAlpha = true ∨ ch.isDigit = true ∨ ch = '-'
          ∨ ch = '_' ∨ ch = '.' ∨ ch = '/') ∧
    validate testJoi (scrapeRequestSchema testJoi)
        ⟨some "a1b2c3d4-e5f6-7890-1234-567890abcdef", some [⟨some "invalid-path", some true⟩],
          some "https://integration-test.com"⟩
      = .error (ValidationError.new "Invalid request payload."
          [⟨"paths.0.path", "Path must start with / and contain valid URL characters."⟩]) ∧
    ∃ error, validate testJoi (scrapeRequestSchema testJoi)
        ⟨some "a1b2c3d4-e5f6-7890-1234-567890abcdef", some [⟨some "invalid-path", some true⟩],
          some "https://integration-test.com"⟩ = .error error ∧
      error.statusCode = 400 ∧ error.errorCode = "VALIDATION_ERROR" ∧
      ∃ e ∈ error.details, e.field = "paths." ++ toString 0 ++ ".path" :=
  ⟨rfl, rfl, rfl, by decide, by rfl,
    (scrapeRequestSchema_path_rule testJoi
      ⟨some "a1b2c3d4-e5f6-7890-1234-567890abcdef", some [⟨some "invalid-path", some true⟩],
        some "https://integration-test.com"⟩
      [⟨some "invalid-path", some true⟩] 0 ⟨some "invalid-path", some true⟩ "invalid-path"
      rfl rfl rfl).2 (by decide)⟩

/-- C22, evaluated at the websiteId `not-a-uuid`, which is not a 24-character hexadecimal
string.  The `validate` function of the `objectId` type refuses it; but the schemas are
built with the type `string()`, so `websiteIdParamSchema` reports no error, the route lets
the request through to the controller, which calls the repository with `not-a-uuid` (and
answers not-found when the repository finds nothing), and the validation middleware lets a
body with this websiteId through. -/
theorem websiteId_schemas_accept_any_string :
    JoiObjectId.objectId.validate "not-a-uuid" = some "objectId.invalid" ∧
    websiteIdParamSchema ⟨"not-a-uuid"⟩ = [] ∧
    (∀ (joi : JoiLibrary) (findByWebsiteId : String → Except Error (Option (List PathRow))),
      (getWebsitePathsRoute joi findByWebsiteId ⟨"not-a-uuid"⟩).rejected = none ∧
      (getWebsitePathsRoute joi findByWebsiteId ⟨"not-a-uuid"⟩).repositoryCalls
        = ["not-a-uuid"]) ∧
    (getWebsitePathsRoute testJoi (fun _ => .ok (some [])) ⟨"not-a-uuid"⟩).controller
      = some ⟨none, some (NotFoundError.new "No paths found for websiteId: not-a-uuid"),
          [⟨.warn, "No paths found for websiteId: not-a-uuid"⟩]⟩ ∧
    validate testJoi (scrapeRequestSchema testJoi)
        ⟨some "not-a-uuid", some [⟨some "/integration-test-page", some true⟩],
          some "https://integration-test.com"⟩
      = .ok ⟨some "not-a-uuid", some [⟨some "/integration-test-page", some true⟩],
          some "https://integration-test.com"⟩ :=
  ⟨by decide, by decide, fun _ _ => ⟨rfl, rfl⟩, by decide, by rfl⟩

/-- C23, as stated, fails for an instance of `CustomError` whose message is the empty
string, such as `new NotFoundError('')`: the message of the answer is 'An unexpected error
occurred.', not the message of the error. -/
theorem errorHandler_own_fields_counterexample :
    (NotFoundError.new "").thrown.isCustomError = true ∧
    (NotFoundError.new "").thrown.message = some "" ∧
    (errorHandler (NotFoundError.new "").thrown).body.message
      = "An unexpected error occurred." ∧
    some (errorHandler (NotFoundError.new "").thrown).body.message
      ≠ (NotFoundError.new "").thrown.message :=
  ⟨rfl, rfl, by decide, by decide⟩

/-- C23, amended.  For every error passed to `errorHandler` the body of the answer has the
status `error`.  If the error is an instance of `CustomError`, the HTTP status, the code and
the message of the answer are the error's own `statusCode`, `errorCode` and `message`
wherever these are truthy, and 500, `INTERNAL_SERVER_ERROR` and 'An unexpected error
occurred.' where they are 0, empty or absent; the details are the error's own.  So a
`ValidationError`, a `NotFoundError` and a `ServiceError` with a non-empty message are
answered with 400 / `VALIDATION_ERROR`, 404 / `NOT_FOUND` and 502 /
`EXTERNAL_SERVICE_ERROR`, each with its message, and the first with its details.  For any
other error the answer is exactly 500, `INTERNAL_SERVER_ERROR`, 'An unexpected server error
occurred.', without details, whatever properties the error has. -/
theorem errorHandler_response (err : ThrownValue) :
    (errorHandler err).body.status = "error" ∧
    (err.isCustomError = true →
      (∀ n, err.statusCode = some n → n ≠ 0 → (errorHandler err).statusCode = n) ∧
      (err.statusCode = none ∨ err.statusCode = some 0 → (errorHandler err).statusCode = 500) ∧
      (∀ code, err.errorCode = some code → code ≠ "" → (errorHandler err).body.code = code) ∧
      (err.errorCode = none ∨ err.errorCode = some "" →
        (errorHandler err).body.code = "INTERNAL_SERVER_ERROR") ∧
      (∀ m, err.message = some m → m ≠ "" → (errorHandler err).body.message = m) ∧
      (err.message = none ∨ err.message = some "" →
        (errorHandler err).body.message = "An unexpected error occurred.") ∧
      (errorHandler err).body.details = err.details) ∧
    (err.isCustomError = false →
      errorHandler err
        = ⟨500, ⟨"error", "INTERNAL_SERVER_ERROR", "An unexpected server error occurred.",
            none⟩⟩) ∧
    (∀ message details, message ≠ "" →
      errorHandler (ValidationError.new message details).thrown
        = ⟨400, ⟨"error", "VALIDATION_ERROR", message, some details⟩⟩) ∧
    (∀ message, message ≠ "" →
      errorHandler (NotFoundError.new message).thrown
        = ⟨404, ⟨"error", "NOT_FOUND", message, none⟩⟩) ∧
    (∀ serviceName message, message ≠ "" →
      errorHandler (ServiceError.new serviceName message).thrown
        = ⟨502, ⟨"error", "EXTERNAL_SERVICE_ERROR", message, none⟩⟩) := by
  refine ⟨?_, fun hcustom => ⟨?_, ?_, ?_, ?_, ?_, ?_, ?_⟩, fun hplain => ?_, ?_, ?_, ?_⟩
  · unfold errorHandler; split <;> rfl
  · intro n hn hne; simp [errorHandler, hcustom, numberOr, hn, hne]
  · rintro (h | h) <;> simp [errorHandler, hcustom, numberOr, h]
  · intro code hc hne; simp [errorHandler, hcustom, stringOr, hc, hne]
  · rintro (h | h) <;> simp [errorHandler, hcustom, stringOr, h]
  · intro m hm hne; simp [errorHandler, hcustom, stringOr, hm, hne]
  · rintro (h | h) <;> simp [errorHandler, hcustom, stringOr, h]
  · simp [errorHandler, hcustom]
  · simp [errorHandler, hplain]
  · intro message details hne
    simp [errorHandler, ValidationError.thrown, ValidationError.new, numberOr, stringOr, hne]
  · intro message hne
    simp [errorHandler, CustomError.thrown, NotFoundError.new, numberOr, stringOr, hne]
  · intro serviceName message hne
    simp [errorHandler, ServiceError.thrown, ServiceError.new, numberOr, stringOr, hne]

/-- The amended C23 on the `ValidationError` of a body without websiteId and on the plain
`Error` of the test 'should return 500 if queue manager fails to add request'. -/
theorem errorHandler_response_witness :
    (ValidationError.new "Invalid request payload."
        [⟨"websiteId", "websiteId is required."⟩]).thrown.isCustomError = true ∧
    errorHandler (ValidationError.new "Invalid request payload."
        [⟨"websiteId", "websiteId is required."⟩]).thrown
      = ⟨400, ⟨"error", "VALIDATION_ERROR", "Invalid request payload.",
          some [⟨"websiteId", "websiteId is required."⟩]⟩⟩ ∧
    (⟨"Internal queue error"⟩ : Error).thrown.isCustomError = false ∧
    errorHandler (⟨"Internal queue error"⟩ : Error).thrown
      = ⟨500, ⟨"error", "INTERNAL_SERVER_ERROR", "An unexpected server error occurred.",
          none⟩⟩ :=
  ⟨rfl,
    (errorHandler_response (ValidationError.new "Invalid request payload."
      [⟨"websiteId", "websiteId is required."⟩]).thrown).2.2.2.1 _ _ (by decide),
    rfl,
    (errorHandler_response (⟨"Internal queue error"⟩ : Error).thrown).2.2.1 rfl⟩

/-! ## The page fetcher, the idle dispatch loop and the timer -/

/-- C24. `Scraper.scrapePage(url)` issues one GET of `url`.  If it returns, the transport
resolved with status 200 and the data returned are the text, forms and buttons extracted
from the body of that answer.  If the transport resolves with any other status `s`, it
throws an error with the message 'Scraping failed for <url>: Failed to fetch page, status:
<s>'.  If the transport rejects with an error of message `m`, it throws an error with the
message 'Scraping failed for <url>: <m>'. -/
theorem scrapePage_outcomes {τ δ : Type} (axios : Axios τ δ) (cheerio : Cheerio δ)
    (url : String) (h : HttpState τ) :
    (∀ extractedData, (Scraper.scrapePage axios cheerio url h).1 = .ok extractedData →
      ∃ response, (h.send axios
          ⟨.get, url, none,
            some ⟨some 30000,
              [("User-Agent",
                "ChatBot Hub Scraper/1.0 (+https://chatboth.com/scraper-info)")]⟩⟩).1
          = .ok response ∧
        response.status = 200 ∧
        ∃ document, cheerio.load response.data = .ok document ∧
          extractedData = ⟨Scraper.extractText document, cheerio.extractForms document,
            cheerio.extractButtons document⟩) ∧
    (∀ response, (h.send axios
          ⟨.get, url, none,
            some ⟨some 30000,
              [("User-Agent",
                "ChatBot Hub Scraper/1.0 (+https://chatboth.com/scraper-info)")]⟩⟩).1
          = .ok response →
      response.status ≠ 200 →
      (Scraper.scrapePage axios cheerio url h).1
        = .error ⟨"Scraping failed for " ++ url ++ ": Failed to fetch page, status: "
            ++ toString response.status⟩) ∧
    (∀ error, (h.send axios
          ⟨.get, url, none,
            some ⟨some 30000,
              [("User-Agent",
                "ChatBot Hub Scraper/1.0 (+https://chatboth.com/scraper-info)")]⟩⟩).1
          = .error error →
      (Scraper.scrapePage axios cheerio url h).1
        = .error ⟨"Scraping failed for " ++ url ++ ": " ++ error.message⟩) := by
  refine ⟨fun extractedData hok => ?_, fun response hsent hstatus => ?_, fun error hsent => ?_⟩
  · rcases hsent : (h.send axios
          ⟨.get, url, none,
            some ⟨some 30000,
              [("User-Agent",
                "ChatBot Hub Scraper/1.0 (+https://chatboth.com/scraper-info)")]⟩⟩).1
      with error | response
    · simp [Scraper.scrapePage, hsent] at hok
    · by_cases hstatus : response.status = 200
      · rcases hload : cheerio.load response.data with error | document
        · simp [Scraper.scrapePage, hsent, hstatus, hload] at hok
        · simp [Scraper.scrapePage, hsent, hstatus, hload] at hok
          exact ⟨response, rfl, hstatus, document, hload, hok.symm⟩
      · simp [Scraper.scrapePage, hsent, hstatus] at hok
  · have hlit : (": " : String) ++ "Failed to fetch page, status: "
        = ": Failed to fetch page, status: " := by decide
    simp only [Scraper.scrapePage, hsent, hstatus, ne_eq, not_false_eq_true, ↓reduceIte,
      String.append_assoc]
    rw [← String.append_assoc ": ", hlit]
  · simp [Scraper.scrapePage, hsent]

/-- C24 on the test 'should throw an error if the response status is not 200'. -/
theorem scrapePage_outcomes_witness :
    (freshHttp.send (axiosMock (.ok ⟨404, nestedNoscriptDocument⟩))
        ⟨.get, "http://test.com/bad-status", none,
          some ⟨some 30000,
            [("User-Agent",
              "ChatBot Hub Scraper/1.0 (+https://chatboth.com/scraper-info)")]⟩⟩).1
      = .ok ⟨404, nestedNoscriptDocument⟩ ∧
    (404 : Nat) ≠ 200 ∧
    (Scraper.scrapePage (axiosMock (.ok ⟨404, nestedNoscriptDocument⟩)) testCheerio
        "http://test.com/bad-status" freshHttp).1
      = .error ⟨"Scraping failed for http://test.com/bad-status: Failed to fetch page, status: 404"⟩ :=
  ⟨rfl, by decide,
    (scrapePage_outcomes (axiosMock (.ok ⟨404, nestedNoscriptDocument⟩)) testCheerio
      "http://test.com/bad-status" freshHttp).2.1 ⟨404, nestedNoscriptDocument⟩ rfl (by decide)⟩

/-- C25. When the queue is empty, `processNextItem` returns at once and leaves the whole
state as it was: the queue stays empty, the call log gains no entry, so neither
`Processor.processScrapeRequest` is invoked nor any store call made, and the external world
is untouched. -/
theorem processNextItem_empty_queue {σ : Type} (c : Collaborators σ) (s : ModuleState σ)
    (hempty : s.scrapeQueue = []) :
    QueueManager.processNextItem c s = (.ok (), s) ∧
    (QueueManager.processNextItem c s).2.scrapeQueue = [] ∧
    callsSince s (QueueManager.processNextItem c s).2 = [] ∧
    pipelineStarts (callsSince s (QueueManager.processNextItem c s).2) = [] ∧
    (QueueManager.processNextItem c s).2.world = s.world := by
  have h : QueueManager.processNextItem c s = (.ok (), s) := by
    simp [QueueManager.processNextItem, hempty]
  rw [h]
  simp [hempty, callsSince, pipelineStarts]

/-- C25 on the module state right after loading. -/
theorem processNextItem_empty_queue_witness :
    freshState.scrapeQueue = [] ∧
    QueueManager.processNextItem (happyMocks (some "S0")) freshState = (.ok (), freshState) ∧
    callsSince freshState (QueueManager.processNextItem (happyMocks (some "S0")) freshState).2
      = [] :=
  ⟨rfl, (processNextItem_empty_queue (happyMocks (some "S0")) freshState rfl).1,
    (processNextItem_empty_queue (happyMocks (some "S0")) freshState rfl).2.2.1⟩

/-- C26, evaluated.  On a document whose only text sits in a `noscript` element inside a `div`,
`extractText` returns that text: the `div` is selected and its text content includes the
text of the `noscript` below it; likewise for the text of an `iframe` inside a `div`.  On
the document of the unit test, where `script` and `style` are children of `body` itself,
their text is left out, and the result is trimmed with single spaces. -/
theorem extractText_keeps_nested_noscript_text :
    Scraper.extractText nestedNoscriptDocument = "hidden" ∧
    Scraper.extractText testDocument = "Visible text. More visible text." ∧
    Scraper.extractText
        ⟨[.element "p" [.text "Shown"],
          .element "div" [.element "iframe" [.text "framed"], .text " \n and "]]⟩
      = "Shown framed and" :=
  ⟨by decide, by decide, by decide⟩

/-- Each of the three methods keeps the handles handed out below the next one. -/
theorem TimerOp.run_handles {σ : Type} (op : TimerOp) (rt : Runtime σ)
    (hinv : rt.TimerInv) (h : rt.HandlesBelowNext) : (op.run rt).HandlesBelowNext := by
  obtain ⟨hi, hc⟩ := h
  rcases hinv with ⟨hp, handle, ms, hh, hint⟩ | ⟨hp, hh, hint⟩
  · have hlt : handle < rt.nextHandle := by
      have := hi ⟨handle, ms⟩ (by rw [hint]; exact List.mem_singleton_self _)
      exact this
    cases op
    · simpa [TimerOp.run, QueueManager.startProcessing, Runtime.HandlesBelowNext, hp]
        using ⟨hi, hc⟩
    · refine ⟨fun i hmem => ?_, fun x hmem => ?_⟩
      · simp [TimerOp.run, QueueManager.stopProcessing, clearInterval, hh, hint] at hmem
      · simp only [TimerOp.run, QueueManager.stopProcessing, clearInterval, hh,
          List.mem_append, List.mem_singleton] at hmem ⊢
        rcases hmem with hmem | rfl
        · exact hc x hmem
        · exact hlt
    · refine ⟨fun i hmem => ?_, fun x hmem => ?_⟩
      · simp [TimerOp.run, QueueManager._resetQueue, clearInterval, hh, hint] at hmem
      · simp only [TimerOp.run, QueueManager._resetQueue, clearInterval, hh,
          List.mem_append, List.mem_singleton] at hmem ⊢
        rcases hmem with hmem | rfl
        · exact hc x hmem
        · exact hlt
  · cases op
    · refine ⟨fun i hmem => ?_, fun x hmem => ?_⟩
      · simp [TimerOp.run, QueueManager.startProcessing, setInterval, hp, hint] at hmem ⊢
        subst hmem
        exact Nat.lt_succ_self _
      · simp only [TimerOp.run, QueueManager.startProcessing, setInterval, hp] at hmem ⊢
        exact Nat.lt_succ_of_lt (hc x hmem)
    · simpa [TimerOp.run, QueueManager.stopProcessing, Runtime.HandlesBelowNext, hh]
        using ⟨hi, hc⟩
    · simpa [TimerOp.run, QueueManager._resetQueue, Runtime.HandlesBelowNext, hh]
        using ⟨hi, hc⟩

/-- Every sequence of calls keeps the timer invariant and the handles below the next one. -/
theorem runTimerOps_handles {σ : Type} (ops : List TimerOp) (rt : Runtime σ)
    (hinv : rt.TimerInv) (h : rt.HandlesBelowNext) :
    (runTimerOps ops rt).HandlesBelowNext := by
  induction ops generalizing rt with
  | nil => exact h
  | cons op ops ih => exact ih _ (TimerOp.run_inv op rt hinv) (TimerOp.run_handles op rt hinv h)

/-- C28. In every state reached from the initial module state by any sequence of calls of
`startProcessing`, `stopProcessing` and `_resetQueue`: `isProcessing` is true if and only if
`processingInterval` is non-null; after `stopProcessing` and after `_resetQueue` the
dispatcher is not running; and whenever it is not running, `startProcessing` sets
`isProcessing`, creates a timer with a handle that was never handed out before, holds that
handle in `processingInterval`, and leaves this timer as the only one set. -/
theorem timer_held_iff_running {σ : Type} (world : σ) (ops : List TimerOp) :
    ((runTimerOps ops (Runtime.boot world)).module.isProcessing = true ↔
      (runTimerOps ops (Runtime.boot world)).module.processingInterval ≠ none) ∧
    (QueueManager.stopProcessing (runTimerOps ops (Runtime.boot world))).module.isProcessing
      = false ∧
    (QueueManager._resetQueue (runTimerOps ops (Runtime.boot world))).module.isProcessing
      = false ∧
    ((runTimerOps ops (Runtime.boot world)).module.isProcessing = false →
      ∀ intervalMs,
        (QueueManager.startProcessing intervalMs
            (runTimerOps ops (Runtime.boot world))).module.isProcessing = true ∧
        (QueueManager.startProcessing intervalMs
            (runTimerOps ops (Runtime.boot world))).module.processingInterval
          = some (runTimerOps ops (Runtime.boot world)).nextHandle ∧
        (QueueManager.startProcessing intervalMs
            (runTimerOps ops (Runtime.boot world))).intervals
          = [⟨(runTimerOps ops (Runtime.boot world)).nextHandle, intervalMs⟩] ∧
        (runTimerOps ops (Runtime.boot world)).nextHandle
          ∉ (runTimerOps ops (Runtime.boot world)).cleared) := by
  have hboot : (Runtime.boot world).TimerInv := Or.inr ⟨rfl, rfl, rfl⟩
  have hbelow : (Runtime.boot world).HandlesBelowNext := by
    simp [Runtime.HandlesBelowNext, Runtime.boot]
  have hinv := runTimerOps_inv ops _ hboot
  have hhandles := runTimerOps_handles ops _ hboot hbelow
  generalize runTimerOps ops (Runtime.boot world) = rt at hinv hhandles
  refine ⟨?_, ?_, ?_, fun hidle intervalMs => ?_⟩
  · rcases hinv with ⟨hp, handle, ms, hh, hint⟩ | ⟨hp, hh, hint⟩ <;> simp [hp, hh]
  · rcases hinv with ⟨hp, handle, ms, hh, hint⟩ | ⟨hp, hh, hint⟩ <;>
      simp [QueueManager.stopProcessing, clearInterval, hp, hh]
  · rcases hinv with ⟨hp, handle, ms, hh, hint⟩ | ⟨hp, hh, hint⟩ <;>
      simp [QueueManager._resetQueue, clearInterval, hp, hh]
  · rcases hinv with ⟨hp, handle, ms, hh, hint⟩ | ⟨hp, hh, hint⟩
    · rw [hp] at hidle; cases hidle
    · refine ⟨?_, ?_, ?_, fun hmem => ?_⟩
      · simp [QueueManager.startProcessing, setInterval, hp]
      · simp [QueueManager.startProcessing, setInterval, hp]
      · simp [QueueManager.startProcessing, setInterval, hp, hint]
      · exact Nat.lt_irrefl _ (hhandles.2 _ hmem)

/-- C28 on the calls start, stop, reset: the dispatcher is idle, and a further start creates
the timer with the fresh handle 2. -/
theorem timer_held_iff_running_witness :
    (runTimerOps [.startProcessing 5000, .stopProcessing, .resetQueue]
      (Runtime.boot ())).module.isProcessing = false ∧
    (QueueManager.startProcessing 100
      (runTimerOps [.startProcessing 5000, .stopProcessing, .resetQueue]
        (Runtime.boot ()))).module.processingInterval = some 2 ∧
    (QueueManager.startProcessing 100
      (runTimerOps [.startProcessing 5000, .stopProcessing, .resetQueue]
        (Runtime.boot ()))).intervals = [⟨2, 100⟩] :=
  ⟨rfl,
    ((timer_held_iff_running () [.startProcessing 5000, .stopProcessing, .resetQueue]).2.2.2
      rfl 100).2.1,
    ((timer_held_iff_running () [.startProcessing 5000, .stopProcessing, .resetQueue]).2.2.2
      rfl 100).2.2.1⟩

/-! ## The growth of the queue, and the queue against the store -/

/-- What a visit of the loop body does to the queue, whatever the collaborators do: it only
appends to the call log and to the queue, it appends one entry to the queue if the store
accepted a `create` or a re-queueing `updateStatus` and none otherwise, and the one result
it appends reports an enqueued path in exactly that case. -/
theorem addRequestPath_growth {σ : Type} (c : Collaborators σ)
    (websiteId baseWebsiteUrl : String) (pathObj : PathObj) (results : List PathResult)
    (s : ModuleState σ) :
    s.calls <+: (QueueManager.addRequestPath c websiteId baseWebsiteUrl pathObj results s).2.calls ∧
    ∃ added result,
      (QueueManager.addRequestPath c websiteId baseWebsiteUrl pathObj results s).1
        = .ok (results ++ [result]) ∧
      (QueueManager.addRequestPath c websiteId baseWebsiteUrl pathObj results s).2.scrapeQueue
        = s.scrapeQueue ++ added ∧
      added.length = (callsSince s
        (QueueManager.addRequestPath c websiteId baseWebsiteUrl pathObj results s).2).countP
          CallRecord.enqueues ∧
      added.length = [result].countP PathResult.reportsEnqueued := by
  obtain ⟨path, needsScraping⟩ := pathObj
  cases needsScraping with
  | false =>
    simp [QueueManager.addRequestPath, pure, Eff.pure, callsSince, PathResult.reportsEnqueued]
  | true =>
    rcases hfind : c.findByUniqueIdentifiers websiteId path baseWebsiteUrl s.world
      with ⟨_ | found, w⟩
    · simp [QueueManager.addRequestPath, bind, pure, Eff.bind, Eff.pure, Eff.tryCatch, invoke,
        hfind, thrown, logger.error, callsSince, PathResult.reportsEnqueued,
        CallRecord.enqueues, Status.str, SCRAPE_STATUS.FAILED]
    · cases found with
      | none =>
        rcases hcreate : c.create ⟨websiteId, path, baseWebsiteUrl, .queued⟩ w with ⟨_ | r, w1⟩
        all_goals
          simp [QueueManager.addRequestPath, bind, pure, Eff.bind, Eff.pure, Eff.tryCatch,
            invoke, hfind, hcreate, thrown, logger.error, scrapeQueue.push, SCRAPE_STATUS.QUEUED,
            callsSince, PathResult.reportsEnqueued, CallRecord.enqueues, Status.str,
            SCRAPE_STATUS.FAILED]
      | some record =>
        rcases hupdate : c.updateStatus record.id .queued w with ⟨_ | n, w1⟩ <;>
        rcases hstatus : record.status
        all_goals
          simp [QueueManager.addRequestPath, bind, pure, Eff.bind, Eff.pure, Eff.tryCatch,
            invoke, hfind, hupdate, hstatus, thrown, scrapeQueue.push, logger.error,
            logger.warn, SCRAPE_STATUS.QUEUED, SCRAPE_STATUS.SCRAPING, SCRAPE_STATUS.SCAPED,
            SCRAPE_STATUS.FAILED, callsSince, PathResult.reportsEnqueued, CallRecord.enqueues,
            Status.str]

/-- The loop of `addRequest` over any list of entries: the same, summed over the entries. -/
theorem addRequestFrom_growth {σ : Type} (c : Collaborators σ)
    (websiteId baseWebsiteUrl : String) (paths : List PathObj) (results : List PathResult)
    (s : ModuleState σ) :
    s.calls <+: (QueueManager.addRequestFrom c websiteId baseWebsiteUrl paths results s).2.calls ∧
    ∃ added rs,
      (QueueManager.addRequestFrom c websiteId baseWebsiteUrl paths results s).1
        = .ok (results ++ rs) ∧
      rs.map PathResult.pathName = paths.map PathObj.path ∧
      (QueueManager.addRequestFrom c websiteId baseWebsiteUrl paths results s).2.scrapeQueue
        = s.scrapeQueue ++ added ∧
      added.length = (callsSince s
        (QueueManager.addRequestFrom c websiteId baseWebsiteUrl paths results s).2).countP
          CallRecord.enqueues ∧
      added.length = rs.countP PathResult.reportsEnqueued := by
  induction paths generalizing results s with
  | nil =>
    refine ⟨by simp [addRequestFrom_nil], [], [], ?_⟩
    simp [addRequestFrom_nil, callsSince]
  | cons pathObj rest ih =>
    obtain ⟨hpre1, added1, result, hres1, hq1, hlog1, hrep1⟩ :=
      addRequestPath_growth c websiteId baseWebsiteUrl pathObj results s
    obtain ⟨status, message, s1, hspec⟩ :=
      addRequestPath_spec c websiteId baseWebsiteUrl pathObj s
    have hresult : result = ⟨pathObj.path, status, message⟩ := by
      rw [hspec results] at hres1
      simpa using hres1.symm
    rw [hspec results] at hpre1 hq1 hlog1
    simp only at hpre1 hq1 hlog1
    obtain ⟨hpre2, added2, rs, hres2, hnames, hq2, hlog2, hrep2⟩ :=
      ih (results ++ [⟨pathObj.path, status, message⟩]) s1
    rw [addRequestFrom_cons c websiteId baseWebsiteUrl pathObj rest results _ s s1
      (hspec results)]
    refine ⟨hpre1.trans hpre2, added1 ++ added2, ⟨pathObj.path, status, message⟩ :: rs, ?_, ?_,
      ?_, ?_, ?_⟩
    · rw [hres2]; simp
    · simp [hnames]
    · rw [hq2, hq1, List.append_assoc]
    · rw [callsSince_trans s s1 _ hpre1 hpre2, List.countP_append, List.length_append, hlog1,
        hlog2]
    · rw [List.length_append, hrep1, hrep2, hresult]
      simp [List.countP_cons]
      omega

/-- C27. For every request, every state and every behaviour of the store, `addRequest`
returns one result per path, in order; the queue after it is the queue before it followed
by the new entries, so the existing entries keep their places; and its length is the length
before plus the number of store calls of the run that put an entry into the queue, which
are the accepted `create` calls (a newly created path) and the accepted
`updateStatus(id, 'queued')` calls (a path found `scraped` or `failed` and re-queued).  That
number is also the number of results that report a path as put into the queue: a skipped
path, a path already `queued` or `scraping` and a path whose store call failed make no such
call and add nothing. -/
theorem addRequest_queue_growth {σ : Type} (c : Collaborators σ) (requestData : RequestData)
    (s : ModuleState σ) :
    ∃ results added,
      (QueueManager.addRequest c requestData s).1 = .ok results ∧
      results.map PathResult.pathName = requestData.paths.map PathObj.path ∧
      (QueueManager.addRequest c requestData s).2.scrapeQueue = s.scrapeQueue ++ added ∧
      QueueManager.getQueueSize (QueueManager.addRequest c requestData s).2
        = QueueManager.getQueueSize s
          + (callsSince s (QueueManager.addRequest c requestData s).2).countP
              CallRecord.enqueues ∧
      (callsSince s (QueueManager.addRequest c requestData s).2).countP CallRecord.enqueues
        = results.countP PathResult.reportsEnqueued := by
  obtain ⟨-, added, rs, hres, hnames, hq, hlog, hrep⟩ :=
    addRequestFrom_growth c requestData.websiteId requestData.baseWebsiteUrl requestData.paths
      [] s
  refine ⟨rs, added, by simpa using hres, hnames, hq, ?_, ?_⟩
  · show (QueueManager.addRequest c requestData s).2.scrapeQueue.length = _
    rw [show (QueueManager.addRequest c requestData s).2.scrapeQueue = s.scrapeQueue ++ added
      from hq, List.length_append, hlog]
    rfl
  · exact hlog.symm.trans hrep

/-- C27 on a request of four paths over the in-memory store, one of them skipped and one
submitted twice: the queue grows from 0 to 2. -/
theorem addRequest_queue_growth_witness :
    QueueManager.getQueueSize (QueueManager.addRequest (memoryStore fetchFailsMocks)
      ⟨"W", [⟨"/a", true⟩, ⟨"/b", false⟩, ⟨"/a", true⟩, ⟨"/c", true⟩], "http://x"⟩
      freshMemory).2 = 2 ∧
    (callsSince freshMemory (QueueManager.addRequest (memoryStore fetchFailsMocks)
      ⟨"W", [⟨"/a", true⟩, ⟨"/b", false⟩, ⟨"/a", true⟩, ⟨"/c", true⟩], "http://x"⟩
      freshMemory).2).countP CallRecord.enqueues = 2 ∧
    ∃ results added,
      (QueueManager.addRequest (memoryStore fetchFailsMocks)
        ⟨"W", [⟨"/a", true⟩, ⟨"/b", false⟩, ⟨"/a", true⟩, ⟨"/c", true⟩], "http://x"⟩
        freshMemory).1 = .ok results ∧
      results.map PathResult.pathName
        = (⟨"W", [⟨"/a", true⟩, ⟨"/b", false⟩, ⟨"/a", true⟩, ⟨"/c", true⟩], "http://x"⟩ :
            RequestData).paths.map PathObj.path ∧
      (QueueManager.addRequest (memoryStore fetchFailsMocks)
        ⟨"W", [⟨"/a", true⟩, ⟨"/b", false⟩, ⟨"/a", true⟩, ⟨"/c", true⟩], "http://x"⟩
        freshMemory).2.scrapeQueue = freshMemory.scrapeQueue ++ added ∧
      QueueManager.getQueueSize (QueueManager.addRequest (memoryStore fetchFailsMocks)
        ⟨"W", [⟨"/a", true⟩, ⟨"/b", false⟩, ⟨"/a", true⟩, ⟨"/c", true⟩], "http://x"⟩
        freshMemory).2
        = QueueManager.getQueueSize freshMemory
          + (callsSince freshMemory (QueueManager.addRequest (memoryStore fetchFailsMocks)
              ⟨"W", [⟨"/a", true⟩, ⟨"/b", false⟩, ⟨"/a", true⟩, ⟨"/c", true⟩], "http://x"⟩
              freshMemory).2).countP CallRecord.enqueues ∧
      (callsSince freshMemory (QueueManager.addRequest (memoryStore fetchFailsMocks)
        ⟨"W", [⟨"/a", true⟩, ⟨"/b", false⟩, ⟨"/a", true⟩, ⟨"/c", true⟩], "http://x"⟩
        freshMemory).2).countP CallRecord.enqueues
        = results.countP PathResult.reportsEnqueued :=
  ⟨by decide, by decide,
    addRequest_queue_growth (memoryStore fetchFailsMocks)
      ⟨"W", [⟨"/a", true⟩, ⟨"/b", false⟩, ⟨"/a", true⟩, ⟨"/c", true⟩], "http://x"⟩ freshMemory⟩

/-- Replaying a log in two parts. -/
theorem storedStatus_append (id : String) (current : Status) (l1 l2 : List CallRecord) :
    storedStatus id current (l1 ++ l2) = storedStatus id (storedStatus id current l1) l2 := by
  induction l1 generalizing current with
  | nil => rfl
  | cons r rest ih =>
    simp only [List.cons_append, storedStatus]
    split <;> exact ih _

/-- Replaying one accepted write is setting the status. -/
theorem replayWrites_single (id : String) (st : Status) (r : ScrapedPath) :
    replayWrites [⟨.updateStatus id st, none⟩] r = setStatus id st r := by
  simp only [replayWrites, storedStatus, CallRecord.acceptedWrite, Call.statusWrite, setStatus]
  by_cases h : r.id = id
  · simp [h]
  · have h2 : ¬ id = r.id := fun e => h e.symm
    simp [h, h2]

/-- Replaying a log in two parts, on a row. -/
theorem replayWrites_append (l1 l2 : List CallRecord) (r : ScrapedPath) :
    replayWrites (l1 ++ l2) r = replayWrites l2 (replayWrites l1 r) := by
  simp [replayWrites, storedStatus_append]

/-- A call that is no status write, or that threw, is no accepted write. -/
theorem CallRecord.acceptedWrite_eq_none (r : CallRecord)
    (h : r.call.statusWrite = none ∨ r.error ≠ none) : r.acceptedWrite = none := by
  unfold CallRecord.acceptedWrite
  rcases h with h | h
  · split
    · exact h
    · rfl
  · split
    · rename_i hnone; exact absurd hnone h
    · rfl

/-- Replaying a log without accepted writes changes no row. -/
theorem map_replayWrites_eq_self (log : List CallRecord) (rows : List ScrapedPath)
    (h : ∀ x ∈ log, x.acceptedWrite = none) : rows.map (replayWrites log) = rows := by
  have hrow : ∀ r, replayWrites log r = r := by
    intro r
    have hs : ∀ current, storedStatus r.id current log = current := by
      induction log with
      | nil => intro current; rfl
      | cons x rest ih =>
        intro current
        simp only [storedStatus, h x (List.mem_cons_self _ _)]
        exact ih (fun y hy => h y (List.mem_cons_of_mem _ hy)) current
    simp [replayWrites, hs]
  have hid : replayWrites log = id := funext hrow
  rw [hid, List.map_id]

/-- Against a faithful store, a run of the pipeline only appends to the call log, and the
rows after it are the rows before it with the statuses that the accepted writes of the run's
call log leave. -/
theorem processScrapeRequest_replay {σ : Type} (c : Collaborators σ)
    (table : σ → List ScrapedPath) (hstore : FaithfulStore c table) (job : ScrapedPath)
    (s : ModuleState σ) :
    s.calls <+: (Processor.processScrapeRequest c job s).2.calls ∧
    table (Processor.processScrapeRequest c job s).2.world
      = (table s.world).map
          (replayWrites (callsSince s (Processor.processScrapeRequest c job s).2)) := by
  refine processScrapeRequest_preserves c job
    (fun a b => a.calls <+: b.calls ∧
      table b.world = (table a.world).map (replayWrites (callsSince a b)))
    (fun a => ⟨List.prefix_refl _, by
      simp only [callsSince, List.drop_length]
      exact (map_replayWrites_eq_self [] _ (by simp)).symm⟩)
    ?_ ?_ ?_ ?_ ?_ ?_ ?_ ?_ s
  · rintro a b d ⟨hab, htab⟩ ⟨hbd, htbd⟩
    refine ⟨hab.trans hbd, ?_⟩
    rw [htbd, htab, List.map_map, callsSince_trans a b d hab hbd]
    apply List.map_congr_left
    intro r _
    simp [replayWrites_append]
  · intro st a
    rcases hupdate : c.updateStatus job.id st a.world with ⟨e | n, w⟩
    · simp only [invoke, hupdate, hstore.update_error _ _ _ _ _ hupdate, callsSince, thrown,
        List.drop_left, List.prefix_append, true_and]
      exact (map_replayWrites_eq_self _ _ (by
        intro x hx
        rw [List.mem_singleton] at hx
        subst hx
        exact CallRecord.acceptedWrite_eq_none _ (Or.inr (by simp)))).symm
    · have := hstore.update_ok _ _ _ _ _ hupdate
      simp only [invoke, hupdate, callsSince, thrown, List.drop_left, List.prefix_append,
        true_and, this]
      apply List.map_congr_left
      intro r _
      exact (replayWrites_single job.id st r).symm
  all_goals
    intros
    intro a
    simp only [invoke, logger.error, callsSince, List.drop_left, List.drop_length,
      List.prefix_append, List.prefix_refl, true_and, hstore.scrapePage, hstore.getSummary,
      hstore.getPreviousAiSummary, hstore.mergeSummaries, hstore.sendNewSummary]
    exact (map_replayWrites_eq_self _ _ (by
      intro x hx
      first
        | (rw [List.mem_singleton] at hx
           subst hx
           exact CallRecord.acceptedWrite_eq_none _ (Or.inl rfl))
        | cases hx)).symm

/-- What replaying the call log of a run of the pipeline on `job` does to a row, when no
store call of the run threw: a row of another id is left alone, and a row with the id of
`job` ends as `scraped` or `failed`. -/
theorem PipelineRun.replayWrites {job : ScrapedPath} {log : List CallRecord}
    {lines : List LogEntry} (h : PipelineRun job log lines)
    (hok : storeNeverErred log = true) (r : ScrapedPath) :
    (r.id ≠ job.id → ScraperService.replayWrites log r = r) ∧
    (r.id = job.id → (ScraperService.replayWrites log r).status = .scraped ∨
      (ScraperService.replayWrites log r).status = .failed) := by
  have hsym : r.id ≠ job.id → ¬ job.id = r.id := fun hne e => hne e.symm
  cases h <;>
    simp [storeNeverErred, Call.isStoreCall] at hok <;>
    (try subst hok) <;>
    refine ⟨fun hne => ?_, fun heq => ?_⟩ <;>
    simp [ScraperService.replayWrites, storedStatus, CallRecord.acceptedWrite,
      Call.statusWrite, *]

/-- A visit of the loop body keeps the queue and the store in agreement, against a faithful
store, whether or not the store accepts the calls. -/
theorem addRequestPath_sync {σ : Type} (c : Collaborators σ) (table : σ → List ScrapedPath)
    (hstore : FaithfulStore c table) (websiteId baseWebsiteUrl : String) (pathObj : PathObj)
    (results : List PathResult) (s : ModuleState σ)
    (h : QueueSync (table s.world) s.scrapeQueue) :
    QueueSync
      (table (QueueManager.addRequestPath c websiteId baseWebsiteUrl pathObj results s).2.world)
      (QueueManager.addRequestPath c websiteId baseWebsiteUrl pathObj results s).2.scrapeQueue := by
  refine ⟨addRequestPath_inv c table hstore websiteId baseWebsiteUrl pathObj results s h.inv, ?_⟩
  rcases addRequestPath_effect c table hstore websiteId baseWebsiteUrl pathObj results s with
    ⟨ht, hq⟩ | ⟨record, hmem, -, ht, hq⟩ | ⟨r0, -, -, -, ht, hq⟩
  · rw [ht, hq]; exact h.covered
  · rw [ht, hq]
    intro r1 hr1 hstatus
    obtain ⟨r, hr, rfl⟩ := List.mem_map.1 hr1
    by_cases hid : r.id = record.id
    · exact ⟨record, by simp, by rw [setStatus_id, hid]⟩
    · rw [setStatus_of_ne _ _ _ hid] at hstatus ⊢
      obtain ⟨q, hq1, hq2⟩ := h.covered r hr hstatus
      exact ⟨q, List.mem_append_left _ hq1, hq2⟩
  · rw [ht, hq]
    intro r hr hstatus
    rcases List.mem_append.1 hr with hold | hnew
    · obtain ⟨q, hq1, hq2⟩ := h.covered r hold hstatus
      exact ⟨q, List.mem_append_left _ hq1, hq2⟩
    · rw [List.mem_singleton] at hnew
      subst hnew
      exact ⟨r, by simp, rfl⟩

/-- The loop of `addRequest` keeps the queue and the store in agreement. -/
theorem addRequestFrom_sync {σ : Type} (c : Collaborators σ) (table : σ → List ScrapedPath)
    (hstore : FaithfulStore c table) (websiteId baseWebsiteUrl : String) (paths : List PathObj)
    (results : List PathResult) (s : ModuleState σ)
    (h : QueueSync (table s.world) s.scrapeQueue) :
    QueueSync
      (table (QueueManager.addRequestFrom c websiteId baseWebsiteUrl paths results s).2.world)
      (QueueManager.addRequestFrom c websiteId baseWebsiteUrl paths results s).2.scrapeQueue := by
  induction paths generalizing results s with
  | nil => simpa [addRequestFrom_nil] using h
  | cons pathObj rest ih =>
    obtain ⟨status, message, s1, h1⟩ :=
      addRequestPath_spec c websiteId baseWebsiteUrl pathObj s
    rw [addRequestFrom_cons c websiteId baseWebsiteUrl pathObj rest results _ s s1 (h1 results)]
    apply ih
    have := addRequestPath_sync c table hstore websiteId baseWebsiteUrl pathObj results s h
    rwa [h1 results] at this

/-- A call of `processNextItem` in which no store call throws keeps the queue and the store
in agreement: the write of `scraping` takes the row of the dequeued job out of the rows
stored as `queued`. -/
theorem processNextItem_sync {σ : Type} (c : Collaborators σ) (table : σ → List ScrapedPath)
    (hstore : FaithfulStore c table) (s : ModuleState σ)
    (h : QueueSync (table s.world) s.scrapeQueue)
    (hok : storeNeverErred (callsSince s (QueueManager.processNextItem c s).2) = true) :
    QueueSync (table (QueueManager.processNextItem c s).2.world)
      (QueueManager.processNextItem c s).2.scrapeQueue := by
  refine ⟨processNextItem_inv c table hstore s h.inv, ?_⟩
  rcases hq : s.scrapeQueue with _ | ⟨job, rest⟩
  · have hs : (QueueManager.processNextItem c s).2 = s := by
      simp [QueueManager.processNextItem, hq]
    rw [hs]; exact h.covered
  · have hs : QueueManager.processNextItem c s
        = Processor.processScrapeRequest c job { s with scrapeQueue := rest } := by
      simp [QueueManager.processNextItem, hq]
    rw [hs] at hok ⊢
    obtain ⟨-, htable⟩ :=
      processScrapeRequest_replay c table hstore job { s with scrapeQueue := rest }
    obtain ⟨hrun, -, -, hqueue⟩ :=
      processScrapeRequest_run c job { s with scrapeQueue := rest }
    have hok1 : storeNeverErred (callsSince { s with scrapeQueue := rest }
        (Processor.processScrapeRequest c job { s with scrapeQueue := rest }).2) = true := hok
    rw [htable, hqueue]
    intro r1 hr1 hstatus
    obtain ⟨r, hr, rfl⟩ := List.mem_map.1 hr1
    obtain ⟨hother, hjob⟩ := hrun.replayWrites hok1 r
    by_cases hid : r.id = job.id
    · rcases hjob hid with hs1 | hs1 <;> rw [hs1] at hstatus <;> cases hstatus
    · rw [hother hid] at hstatus ⊢
      obtain ⟨q, hq1, hq2⟩ := h.covered r hr hstatus
      rw [hq] at hq1
      rcases List.mem_cons.1 hq1 with rfl | hq1
      · exact absurd hq2.symm hid
      · exact ⟨q, hq1, hq2⟩

/-- The call log only grows along a sequence of calls of `addRequest` and
`processNextItem`. -/
theorem runQueueOps_calls {σ : Type} (c : Collaborators σ) (ops : List QueueOp)
    (s : ModuleState σ) : s.calls <+: (runQueueOps c ops s).calls := by
  induction ops generalizing s with
  | nil => exact List.prefix_refl _
  | cons op ops ih =>
    refine List.IsPrefix.trans ?_ (ih (op.run c s))
    cases op with
    | addRequest requestData =>
      exact (addRequestFrom_growth c requestData.websiteId requestData.baseWebsiteUrl
        requestData.paths [] s).1
    | processNextItem => exact processNextItem_calls c s

/-- Every sequence of calls in which no store call throws keeps the queue and the store in
agreement. -/
theorem runQueueOps_sync {σ : Type} (c : Collaborators σ) (table : σ → List ScrapedPath)
    (hstore : FaithfulStore c table) (ops : List QueueOp) (s : ModuleState σ)
    (h : QueueSync (table s.world) s.scrapeQueue)
    (hok : storeNeverErred (callsSince s (runQueueOps c ops s)) = true) :
    QueueSync (table (runQueueOps c ops s).world) (runQueueOps c ops s).scrapeQueue := by
  induction ops generalizing s with
  | nil => exact h
  | cons op ops ih =>
    have hstep : s.calls <+: (op.run c s).calls := runQueueOps_calls c [op] s
    have hrest : (op.run c s).calls <+: (runQueueOps c ops (op.run c s)).calls :=
      runQueueOps_calls c ops (op.run c s)
    have hsplit : callsSince s (runQueueOps c (op :: ops) s)
        = callsSince s (op.run c s) ++ callsSince (op.run c s) (runQueueOps c ops (op.run c s)) :=
      callsSince_trans s (op.run c s) _ hstep hrest
    rw [hsplit] at hok
    simp only [storeNeverErred, List.all_append, Bool.and_eq_true] at hok
    apply ih _ _ hok.2
    cases op with
    | addRequest requestData =>
      exact addRequestFrom_sync c table hstore _ _ _ _ s h
    | processNextItem => exact processNextItem_sync c table hstore s h hok.1

/-- C29. Against a store that faithfully records creates and status updates
(`FaithfulStore`), start from an empty store and an empty queue and run any sequence of calls
of `addRequest` and `processNextItem`, each to completion, in which no call to the store
throws; the fetcher and the services may fail as they like.  Then the ids of the entries of
the queue are exactly the ids of the rows stored as `queued`: every queue entry refers to a
row whose status is `queued`, and every row whose status is `queued` has a queue entry. -/
theorem queue_matches_queued_rows {σ : Type} (c : Collaborators σ)
    (table : σ → List ScrapedPath) (hstore : FaithfulStore c table) (s0 : ModuleState σ)
    (hqueue : s0.scrapeQueue = []) (htable : table s0.world = []) (ops : List QueueOp)
    (hok : storeNeverErred (callsSince s0 (runQueueOps c ops s0)) = true) :
    ∀ jobId, jobId ∈ (runQueueOps c ops s0).scrapeQueue.map ScrapedPath.id ↔
      ∃ r ∈ table (runQueueOps c ops s0).world, r.id = jobId ∧ r.status = .queued := by
  have h0 : QueueSync (table s0.world) s0.scrapeQueue := by
    rw [hqueue, htable]
    exact ⟨⟨List.nodup_nil, List.nodup_nil, by simp, List.nodup_nil⟩, by simp⟩
  have h := runQueueOps_sync c table hstore ops s0 h0 hok
  intro jobId
  constructor
  · intro hid
    obtain ⟨q, hq, rfl⟩ := List.mem_map.1 hid
    obtain ⟨r, hr, hrid, -, hrs⟩ := h.inv.queued q hq
    exact ⟨r, hr, hrid, hrs⟩
  · rintro ⟨r, hr, rfl, hrs⟩
    obtain ⟨q, hq, hqid⟩ := h.covered r hr hrs
    exact List.mem_map.2 ⟨q, hq, hqid⟩

/-- C29 over the in-memory store with pipelines that fail at the merge: two paths are
submitted, the first is processed and fails, and it is submitted again together with a
skipped path; the queue then holds the second record and the re-queued first one. -/
theorem queue_matches_queued_rows_witness :
    FaithfulStore (memoryStore mergeFailsMocks) id ∧
    freshMemory.scrapeQueue = [] ∧
    id freshMemory.world = [] ∧
    storeNeverErred (callsSince freshMemory (runQueueOps (memoryStore mergeFailsMocks)
      [.addRequest ⟨"W", [⟨"/a", true⟩, ⟨"/b", true⟩], "http://x"⟩, .processNextItem,
       .addRequest ⟨"W", [⟨"/a", true⟩, ⟨"/c", false⟩], "http://x"⟩] freshMemory)) = true ∧
    (runQueueOps (memoryStore mergeFailsMocks)
      [.addRequest ⟨"W", [⟨"/a", true⟩, ⟨"/b", true⟩], "http://x"⟩, .processNextItem,
       .addRequest ⟨"W", [⟨"/a", true⟩, ⟨"/c", false⟩], "http://x"⟩] freshMemory).scrapeQueue.map
        ScrapedPath.id = ["id-1", "id-0"] ∧
    ∀ jobId, jobId ∈ (runQueueOps (memoryStore mergeFailsMocks)
        [.addRequest ⟨"W", [⟨"/a", true⟩, ⟨"/b", true⟩], "http://x"⟩, .processNextItem,
         .addRequest ⟨"W", [⟨"/a", true⟩, ⟨"/c", false⟩], "http://x"⟩]
          freshMemory).scrapeQueue.map ScrapedPath.id ↔
      ∃ r ∈ id (runQueueOps (memoryStore mergeFailsMocks)
        [.addRequest ⟨"W", [⟨"/a", true⟩, ⟨"/b", true⟩], "http://x"⟩, .processNextItem,
         .addRequest ⟨"W", [⟨"/a", true⟩, ⟨"/c", false⟩], "http://x"⟩] freshMemory).world,
        r.id = jobId ∧ r.status = .queued :=
  ⟨memoryStore_faithful mergeFailsMocks, rfl, rfl, by decide, by decide,
    queue_matches_queued_rows (memoryStore mergeFailsMocks) id
      (memoryStore_faithful mergeFailsMocks) freshMemory rfl rfl
      [.addRequest ⟨"W", [⟨"/a", true⟩, ⟨"/b", true⟩], "http://x"⟩, .processNextItem,
       .addRequest ⟨"W", [⟨"/a", true⟩, ⟨"/c", false⟩], "http://x"⟩] (by decide)⟩

/-! ## The failure handler of the pipeline -/

/-- C30. For every job, every state and every behaviour of the collaborators.  If the
initial `updateStatus(id, 'scraping')` throws, the calls of the run are exactly that write
and then `updateStatus(id, 'failed')`: no fetch, summarizer or notifier call is made and the
write of `failed` is attempted, whatever its own outcome.  If the final
`updateStatus(id, 'scraped')` throws, the calls of the run are the six earlier steps, all of
which returned, `sendNewSummary` among them, then the refused write of `scraped`, then
`updateStatus(id, 'failed')`: the write of `failed` is attempted although the merged summary
has already been sent. -/
theorem processScrapeRequest_handler_covers_status_writes {σ : Type} (c : Collaborators σ)
    (job : ScrapedPath) (s : ModuleState σ) :
    (∀ e w, c.updateStatus job.id .scraping s.world = (.error e, w) →
      ∃ writeError,
        callsSince s (Processor.processScrapeRequest c job s).2
          = [⟨.updateStatus job.id .scraping, some e⟩,
             ⟨.updateStatus job.id .failed, writeError⟩] ∧
        writeError = thrown (c.updateStatus job.id .failed w).1) ∧
    (∀ e, (⟨.updateStatus job.id .scraped, some e⟩ : CallRecord)
        ∈ callsSince s (Processor.processScrapeRequest c job s).2 →
      ∃ scrapedData fresh previous merged writeError,
        callsSince s (Processor.processScrapeRequest c job s).2
          = [⟨.updateStatus job.id .scraping, none⟩,
             ⟨.scrapePage (job.baseUrl ++ job.pathName), none⟩,
             ⟨.getSummary scrapedData job.pathName job.websiteId, none⟩,
             ⟨.getPreviousAiSummary job.websiteId, none⟩,
             ⟨.mergeSummaries fresh (orNull previous) scrapedData job.websiteId, none⟩,
             ⟨.sendNewSummary job.websiteId merged, none⟩,
             ⟨.updateStatus job.id .scraped, some e⟩,
             ⟨.updateStatus job.id .failed, writeError⟩]) := by
  refine ⟨fun e w h1 => ?_, fun e hmem => ?_⟩
  · obtain ⟨id, websiteId, pathName, baseUrl, status⟩ := job
    rcases hf : c.updateStatus id .failed w with ⟨ef | nf, wf⟩ <;>
    simp [Processor.processScrapeRequest, bind, pure, Eff.bind, Eff.pure, Eff.tryCatch,
      invoke, logger.error, callsSince, thrown, SCRAPE_STATUS.SCRAPING,
      SCRAPE_STATUS.SCAPED, SCRAPE_STATUS.FAILED, h1, hf]
  · obtain ⟨hrun, -⟩ := processScrapeRequest_run c job s
    generalize callsSince s (Processor.processScrapeRequest c job s).2 = log at hrun hmem
    generalize logsSince s (Processor.processScrapeRequest c job s).2 = lines at hrun
    cases hrun <;> simp at hmem
    subst hmem
    exact ⟨_, _, _, _, _, rfl⟩

/-- C30 on the two scenarios: the store refuses the write of `scraping`, and the store
refuses the write of `scraped` after every step succeeded. -/
theorem processScrapeRequest_handler_covers_status_writes_witness :
    firstWriteFailsMocks.updateStatus demoJob.id .scraping freshState.world
      = (.error ⟨"DB connection lost"⟩, ()) ∧
    (∃ writeError,
      callsSince freshState (Processor.processScrapeRequest firstWriteFailsMocks demoJob
          freshState).2
        = [⟨.updateStatus demoJob.id .scraping, some ⟨"DB connection lost"⟩⟩,
           ⟨.updateStatus demoJob.id .failed, writeError⟩] ∧
      writeError = thrown (firstWriteFailsMocks.updateStatus demoJob.id .failed ()).1) ∧
    (⟨.updateStatus demoJob.id .scraped, some ⟨"DB connection lost"⟩⟩ : CallRecord)
      ∈ callsSince freshState (Processor.processScrapeRequest lastWriteFailsMocks demoJob
          freshState).2 ∧
    callsSince freshState (Processor.processScrapeRequest lastWriteFailsMocks demoJob
        freshState).2
      = [⟨.updateStatus "job-1" .scraping, none⟩,
         ⟨.scrapePage "http://x/a", none⟩,
         ⟨.getSummary demoPage "/a" "W", none⟩,
         ⟨.getPreviousAiSummary "W", none⟩,
         ⟨.mergeSummaries (some "S1") (some "S0") demoPage "W", none⟩,
         ⟨.sendNewSummary "W" (some "S2"), none⟩,
         ⟨.updateStatus "job-1" .scraped, some ⟨"DB connection lost"⟩⟩,
         ⟨.updateStatus "job-1" .failed, none⟩] ∧
    ∃ scrapedData fresh previous merged writeError,
      callsSince freshState (Processor.processScrapeRequest lastWriteFailsMocks demoJob
          freshState).2
        = [⟨.updateStatus demoJob.id .scraping, none⟩,
           ⟨.scrapePage (demoJob.baseUrl ++ demoJob.pathName), none⟩,
           ⟨.getSummary scrapedData demoJob.pathName demoJob.websiteId, none⟩,
           ⟨.getPreviousAiSummary demoJob.websiteId, none⟩,
           ⟨.mergeSummaries fresh (orNull previous) scrapedData demoJob.websiteId, none⟩,
           ⟨.sendNewSummary demoJob.websiteId merged, none⟩,
           ⟨.updateStatus demoJob.id .scraped, some ⟨"DB connection lost"⟩⟩,
           ⟨.updateStatus demoJob.id .failed, writeError⟩] :=
  ⟨rfl,
    (processScrapeRequest_handler_covers_status_writes firstWriteFailsMocks demoJob
      freshState).1 ⟨"DB connection lost"⟩ () rfl,
    by decide, by decide,
    (processScrapeRequest_handler_covers_status_writes lastWriteFailsMocks demoJob
      freshState).2 ⟨"DB connection lost"⟩ (by decide)⟩

end ScraperService
